import Mathlib

/-! The per-turn action dispatcher `game::handle_action` (src/handle_action.cpp)

A shallow embedding of `game::handle_action`.  The dispatcher is a large
piece of control flow around an external handler library, so the embedding
has three ingredients.

* `World` holds the fields of `game` and of the player `u` that the function
  reads or writes directly, plus `rest`, a code for everything else.
* `Ext` holds the collaborators that live outside `handle_action.cpp`: pure
  queries (`u.is_dead_state()`, `get_option<bool>(..)`, ..) and calls with
  side effects (`plmove`, `open`, `gamemode->pre_action`, ..).  A call is an
  arbitrary function on `World`; nothing is assumed about it.
* Every external call and every `add_msg` made by the dispatcher is recorded
  in a trace, tagged by the part of the function that made it.

The pre-action hook is handed the local `act`; since its declaration is not
in the file, the embedding lets it rewrite `act` (see `run_action`).

An `int` is an integer of the range `int_range`, and the `int` arithmetic
of the function (`+= soffset`, `0 - soffset`, `+= 1`,
`before_action_moves - u.moves`) wraps around at 32 bits (`wrap_int`), as the
compiled code does; the source language leaves signed overflow undefined.
-/

namespace HandleAction

/-- The values of the C++ type `int` (32 bits, two's complement). -/
def int_range (x : Int) : Prop :=
  -2147483648 ≤ x ∧ x ≤ 2147483647

instance (x : Int) : Decidable (int_range x) := by
  unfold int_range
  infer_instance

/-- The `int` that a computation with the exact result `x` yields: `x` itself
when it is in `int_range`, else `x` wrapped around modulo `2 ^ 32`. -/
def wrap_int (x : Int) : Int :=
  (x + 2147483648) % 4294967296 - 2147483648

/-- Identifiers of `enum action_id` (action.h) that `handle_action.cpp` names;
`ACTION_OTHER` stands for any further enumerator of the header, which the
two switches send to their `default` arm. -/
inductive action_id
  | ACTION_NULL | NUM_ACTIONS
  | ACTION_MAIN_MENU | ACTION_ACTIONMENU
  | ACTION_SELECT | ACTION_SEC_SELECT | ACTION_TIMEOUT
  | ACTION_CENTER
  | ACTION_SHIFT_N | ACTION_SHIFT_NE | ACTION_SHIFT_E | ACTION_SHIFT_SE
  | ACTION_SHIFT_S | ACTION_SHIFT_SW | ACTION_SHIFT_W | ACTION_SHIFT_NW
  | ACTION_LOOK
  | ACTION_PAUSE | ACTION_TOGGLE_MOVE
  | ACTION_MOVE_N | ACTION_MOVE_NE | ACTION_MOVE_E | ACTION_MOVE_SE
  | ACTION_MOVE_S | ACTION_MOVE_SW | ACTION_MOVE_W | ACTION_MOVE_NW
  | ACTION_MOVE_DOWN | ACTION_MOVE_UP
  | ACTION_OPEN | ACTION_CLOSE | ACTION_SMASH | ACTION_EXAMINE
  | ACTION_ADVANCEDINV | ACTION_PICKUP | ACTION_GRAB | ACTION_BUTCHER
  | ACTION_CHAT | ACTION_PEEK | ACTION_LIST_ITEMS | ACTION_ZONES
  | ACTION_LOOT | ACTION_INVENTORY | ACTION_COMPARE | ACTION_ORGANIZE
  | ACTION_USE | ACTION_USE_WIELDED | ACTION_WEAR | ACTION_TAKE_OFF
  | ACTION_EAT | ACTION_READ | ACTION_WIELD | ACTION_PICK_STYLE
  | ACTION_RELOAD | ACTION_UNLOAD | ACTION_MEND | ACTION_THROW
  | ACTION_FIRE | ACTION_FIRE_BURST | ACTION_SELECT_FIRE_MODE
  | ACTION_DROP | ACTION_DIR_DROP | ACTION_BIONICS | ACTION_MUTATIONS
  | ACTION_SORT_ARMOR | ACTION_WAIT
  | ACTION_CRAFT | ACTION_RECRAFT | ACTION_LONGCRAFT
  | ACTION_DISASSEMBLE | ACTION_CONSTRUCT | ACTION_SLEEP
  | ACTION_CONTROL_VEHICLE
  | ACTION_TOGGLE_SAFEMODE | ACTION_TOGGLE_AUTOSAFE
  | ACTION_IGNORE_ENEMY | ACTION_WHITELIST_ENEMY
  | ACTION_QUIT | ACTION_SAVE | ACTION_QUICKSAVE | ACTION_QUICKLOAD
  | ACTION_PL_INFO | ACTION_MAP | ACTION_MISSIONS | ACTION_KILLS
  | ACTION_FACTIONS | ACTION_MORALE | ACTION_MESSAGES | ACTION_HELP
  | ACTION_KEYBINDINGS | ACTION_OPTIONS | ACTION_AUTOPICKUP
  | ACTION_SAFEMODE | ACTION_COLOR | ACTION_WORLD_MODS | ACTION_DEBUG
  | ACTION_TOGGLE_SIDEBAR_STYLE | ACTION_TOGGLE_FULLSCREEN
  | ACTION_TOGGLE_PIXEL_MINIMAP | ACTION_TOGGLE_AUTO_PULP_BUTCHER
  | ACTION_DISPLAY_SCENT | ACTION_TOGGLE_DEBUG_MODE
  | ACTION_ZOOM_IN | ACTION_ZOOM_OUT | ACTION_ITEMACTION | ACTION_AUTOATTACK
  | ACTION_OTHER
  deriving DecidableEq, Repr

/-- Values of `quit_status` that the function compares with or assigns. -/
inductive quit_status
  | QUIT_NO | QUIT_SUICIDE | QUIT_SAVED | QUIT_DIED | QUIT_WATCH
  deriving DecidableEq, Repr

/-- The three safe-mode states. -/
inductive safe_mode_type
  | SAFE_MODE_OFF | SAFE_MODE_ON | SAFE_MODE_STOP
  deriving DecidableEq, Repr

/-- A map coordinate. -/
structure tripoint where
  x : Int
  y : Int
  z : Int
  deriving DecidableEq, Repr

/-- The sentinel `tripoint_min`: all three coordinates are `INT_MIN`. -/
def tripoint_min : tripoint := ⟨-2147483648, -2147483648, -2147483648⟩

/-- Traits that the function tests with `u.has_active_mutation`. -/
inductive trait_id
  | trait_SHELL2 | trait_HIBERNATE
  deriving DecidableEq, Repr

/-- Options read with `get_option<bool>` or stepped with `setNext`. -/
inductive option_name
  | NO_UNKNOWN_COMMAND_MSG | AUTOSAFEMODE | FORCE_CAPITAL_YN | AUTO_PULP_BUTCHER
  deriving DecidableEq, Repr

/-- Values of `turret_data::status` that the `ACTION_FIRE` arm distinguishes;
`other` is whatever reaches the inner `default`. -/
inductive turret_status
  | no_ammo | no_power | ready | other
  deriving DecidableEq, Repr

/-- A monster as far as `ACTION_IGNORE_ENEMY` touches it. -/
structure monster where
  pos : tripoint
  ignoring : Int
  deriving DecidableEq, Repr

/-- The `input_context` as far as the function looks into it after
`get_player_input`: the result of `get_coordinates( w_terrain, mx, my )`
and the key sequence of `get_raw_input()`. -/
structure input_context where
  coordinates : Option (Int × Int)
  raw_sequence : List Int
  deriving DecidableEq, Repr

/-- The default-constructed `input_context ctxt;` of line 53: no coordinate
input was received and the raw input event has an empty sequence. -/
def input_context.fresh : input_context := ⟨none, []⟩

/-- The part of the game state that `handle_action` reads or writes as a
field.  The first six fields belong to the player `u`, the others to `game`
(`debug_mode` is a global); `rest` codes all state the function reaches only
through its collaborators. -/
structure World where
  moves : Int
  movecounter : Int
  view_offset_x : Int
  view_offset_y : Int
  in_vehicle : Bool
  controlling_vehicle : Bool
  worn : List Nat
  uquit : quit_status
  driving_view_offset_x : Int
  driving_view_offset_y : Int
  user_action_counter : Int
  destination_preview : List tripoint
  safe_mode : safe_mode_type
  mostseen : Int
  turnssincelastmon : Int
  safe_mode_warning_logged : Bool
  new_seen_mon : List monster
  debug_mode : Bool
  rest : Nat
  deriving DecidableEq, Repr

/-- Side-effect free tests that the function makes through code outside the
file.  Each constructor names the C++ expression it stands for. -/
inductive Query
  /-- Stands for `u.is_dead_state()` -/
  | is_dead_state
  /-- Stands for `u.has_destination()` -/
  | has_destination
  /-- Stands for `u.has_destination_activity()` -/
  | has_destination_activity
  /-- Stands for `vp && vp->vehicle().player_in_control( u )` with `vp = m.veh_at( u.pos() )` -/
  | player_in_control
  /-- Stands for `remoteveh() != nullptr` -/
  | remoteveh
  /-- Stands for `u.sees( p )` -/
  | sees (p : tripoint)
  /-- Stands for `u.has_active_mutation( t )` -/
  | has_active_mutation (t : trait_id)
  /-- Stands for `!( u.get_value( "remote_controlling" ).empty() )` -/
  | remote_controlling
  /-- Stands for `u.has_active_item( "radiocontrol" )` -/
  | has_active_item_radiocontrol
  /-- Stands for `u.has_active_bionic( bio_remote )` -/
  | has_active_bionic_bio_remote
  /-- Stands for `u.has_effect( effect_laserlocked )` -/
  | has_effect_laserlocked
  /-- Stands for `u.is_armed()` -/
  | is_armed
  /-- Stands for `vp && ( turret = vp->vehicle().turret_query( u.pos() ) )` -/
  | veh_turret
  /-- Stands for `turret.base()->gun_all_modes().size() > 1` -/
  | turret_modes_many
  /-- Stands for `turret.ammo_options().size() > 1` -/
  | turret_ammo_many
  /-- Stands for `vp.part_with_feature( "CONTROLS", true )` -/
  | veh_controls
  /-- For a worn item: `w.type->can_use( "holster" ) && !w.has_flag( "NO_QUICKDRAW" )
  && !w.contents.empty() && w.contents.front().is_gun()` -/
  | holster_ready (it : Nat)
  /-- For a worn item: `w.is_gun() && w.gunmod_find( "shoulder_strap" )` -/
  | strap_gun (it : Nat)
  /-- Stands for `u.weapon.is_gun()` -/
  | weapon_is_gun
  /-- Stands for `u.weapon.gun_current_mode().melee()` -/
  | weapon_mode_melee
  /-- Stands for `u.weapon.has_flag( "REACH_ATTACK" )` -/
  | weapon_REACH_ATTACK
  /-- Stands for `u.weapon.has_flag( "REACH3" )` -/
  | weapon_REACH3
  /-- Stands for `get_option<bool>( o )`, `autosafemode_option.value_as<bool>()` -/
  | get_option (o : option_name)
  /-- Stands for `get_safemode().empty()` -/
  | safemode_empty
  /-- Stands for `MAP_SHARING::isCompetitive()` -/
  | isCompetitive
  /-- Stands for `MAP_SHARING::isDebugger()` -/
  | isDebugger
  /-- Stands for `u.has_alarm_clock()` -/
  | has_alarm_clock

/-- Calls with side effects that the function makes into code outside the
file.  Each constructor is named after the callee. -/
inductive Call
  | get_next_auto_move_direction | clear_destination
  | start_destination_activity | get_player_input
  | handle_main_menu | handle_action_menu
  | try_get_left_click_action (mouse_target : tripoint)
  | try_get_right_click_action (mouse_target : tripoint)
  | pre_action (act : action_id) | post_action (act : action_id)
  | look_around
  | check_safe_mode_allowed (repeat_safe_mode_warnings : Bool)
  | pause | toggle_move_mode
  | rcdrive (dx dy : Int) | pldrive (dx dy : Int) | plmove (dx dy : Int)
  | vertical_move (z : Int) (force : Bool)
  | open | close_door (p : tripoint) | close | handbrake | smash
  | examine_at (p : tripoint) | examine | advanced_inv | pick_up
  | grab | butcher | chat | peek | list_items_monsters | zones_manager
  | loot | inv_common | inv_compare | inv_swap_letters
  | use_item | use_wielded_item | wear | takeoff | eat | read | wield
  | pick_style | reload | unload | mend | plthrow
  | set_targeting_data (switch_mode switch_ammo : Bool) | plfire
  | debugmsg | turrets_aim_and_fire | uimenu_draw_what
  | invoke_item_holster (it : Nat) | wield_worn (it : Nat)
  | plfire_weapon | temp_exit_fullscreen | map_draw
  | target_ui (range : Int) | reach_attack | draw_ter | wrefresh
  | reenter_fullscreen
  | gun_set_mode_AUTO | gun_set_mode (mode : Nat) | gun_cycle_mode
  | drop | drop_in_direction | power_bionics | refresh_all
  | power_mutations | sort_armor | wait | craft | recraft | long_craft
  | disassemble | construction_menu
  | sleep_menu_query | quicksave
  | alarm_menu_query (can_hibernate has_alarm_clock : Bool)
  | add_effect_alarm_clock (hours : Int) | try_to_sleep
  | control_vehicle
  | set_safe_mode (mode : safe_mode_type)
  | remove_effect_laserlocked
  | option_setNext (o : option_name) | options_save
  | safemode_add_rule | safemode_show
  | query_yn (text : String) | place_corpse | save | quickload
  | disp_info | werase | draw_overmap | list_missions | disp_kills
  | faction_display | disp_morale | display_messages | display_help
  | ctxt_display_menu | options_show | auto_pickup_show | colors_show_gui
  | show_active_world_mods | debug | toggle_sidebar_style
  | toggle_fullscreen | toggle_pixel_minimap | display_scent
  | zoom_in | zoom_out | item_action_menu | autoattack

/-- The collaborators of `handle_action`, none of which is defined in
`handle_action.cpp`.  A call `c` made in world `w` leaves the world
`eff c w` and returns `retB c w`, `retA c w` or `retI c w`, according to the
return type of the callee. -/
structure Ext where
  /-- Result of a side-effect free test. -/
  q : Query → World → Bool
  /-- World after a call. -/
  eff : Call → World → World
  /-- Result of a call that returns `bool`. -/
  retB : Call → World → Bool
  /-- Result of a call that returns (or assigns by reference) an `action_id`. -/
  retA : Call → World → action_id
  /-- Result of a call that returns an `int`. -/
  retI : Call → World → Int
  /-- What `get_player_input( action )` delivers: the context and `action`. -/
  input : World → input_context × String
  /-- Stands for `look_up_action` (action.cpp). -/
  look_up_action : String → action_id
  /-- Stands for `can_action_change_worldstate` (action.cpp). -/
  can_action_change_worldstate : action_id → Bool
  /-- Stands for `get_option<int>( "MOVE_VIEW_OFFSET" )`. -/
  MOVE_VIEW_OFFSET : World → Int
  /-- Stands for `u.pos()`. -/
  pos : World → tripoint
  /-- Stands for `turret.query()` for the turret found by `turret_query`. -/
  turret_status : World → turret_status
  /-- Stands for `u.weapon.gun_get_mode_id()`. -/
  gun_get_mode_id : World → Nat
  /-- Stands for `u.get_hunger()`. -/
  get_hunger : World → Int
  /-- Stands for `rl_dist` (line.h). -/
  rl_dist : tripoint → tripoint → Int

/-- What the dispatcher does that an observer can see: a message passed to
`add_msg` (its format string) or a call into a collaborator. -/
inductive Event
  | msg (text : String)
  | call (c : Call)

/-- The world together with the events recorded so far. -/
structure St where
  w : World
  tr : List Event

/-- Make the external call `c`: record it and let it act on the world. -/
def call (e : Ext) (c : Call) (s : St) : St :=
  ⟨e.eff c s.w, s.tr ++ [Event.call c]⟩

/-- Emit a message with `add_msg`: record it (the world is not touched). -/
def msg (text : String) (s : St) : St :=
  ⟨s.w, s.tr ++ [Event.msg text]⟩

/-- Assign to fields of the world. -/
def St.modify (f : World → World) (s : St) : St :=
  ⟨f s.w, s.tr⟩

/-! ## The allow-list switch (lines 186-237) -/

/-- The body of the first `switch( act )`, the arms allowed while the death
camera is active.  `soffset` is `get_option<int>( "MOVE_VIEW_OFFSET" )` and
`soffsetr` is `0 - soffset`, both of type `int`. -/
def deathcam_switch (e : Ext) (act : action_id) (soffset soffsetr : Int) (s : St) : St :=
  match act with
  | .ACTION_CENTER =>
      s.modify fun w => { w with view_offset_x := w.driving_view_offset_x,
                                 view_offset_y := w.driving_view_offset_y }
  | .ACTION_SHIFT_N =>
      s.modify fun w => { w with view_offset_y := wrap_int (w.view_offset_y + soffsetr) }
  | .ACTION_SHIFT_NE =>
      s.modify fun w => { w with view_offset_x := wrap_int (w.view_offset_x + soffset),
                                 view_offset_y := wrap_int (w.view_offset_y + soffsetr) }
  | .ACTION_SHIFT_E =>
      s.modify fun w => { w with view_offset_x := wrap_int (w.view_offset_x + soffset) }
  | .ACTION_SHIFT_SE =>
      s.modify fun w => { w with view_offset_x := wrap_int (w.view_offset_x + soffset),
                                 view_offset_y := wrap_int (w.view_offset_y + soffset) }
  | .ACTION_SHIFT_S =>
      s.modify fun w => { w with view_offset_y := wrap_int (w.view_offset_y + soffset) }
  | .ACTION_SHIFT_SW =>
      s.modify fun w => { w with view_offset_x := wrap_int (w.view_offset_x + soffsetr),
                                 view_offset_y := wrap_int (w.view_offset_y + soffset) }
  | .ACTION_SHIFT_W =>
      s.modify fun w => { w with view_offset_x := wrap_int (w.view_offset_x + soffsetr) }
  | .ACTION_SHIFT_NW =>
      s.modify fun w => { w with view_offset_x := wrap_int (w.view_offset_x + soffsetr),
                                 view_offset_y := wrap_int (w.view_offset_y + soffsetr) }
  | .ACTION_LOOK => call e .look_around s
  | _ => s

/-! ## The arms of the alive-only switch (lines 239-1046) -/

/-- How the alive-only switch is left: by `break` (`next`, with the value of
the local `continue_auto_move`), or by the `return false` of the quicksave
and quickload arms (`ret_false`). -/
inductive Outcome
  | next (continue_auto_move : Bool) (s : St)
  | ret_false (s : St)

/-- The state an outcome carries. -/
def Outcome.st : Outcome → St
  | .next _ s => s
  | .ret_false s => s

/-- The condition the eight directional arms test first:
`!( u.get_value( "remote_controlling" ).empty() ) &&
( u.has_active_item( "radiocontrol" ) || u.has_active_bionic( bio_remote ) )`. -/
def remote_control_condition (e : Ext) (w : World) : Bool :=
  e.q .remote_controlling w &&
    (e.q .has_active_item_radiocontrol w || e.q .has_active_bionic_bio_remote w)

/-- The arm shared, up to the literal `( dx, dy )`, by `ACTION_MOVE_N` ..
`ACTION_MOVE_NW` (lines 265-351). -/
def move_arm (e : Ext) (veh_ctrl : Bool) (dx dy : Int) (s : St) : Outcome :=
  if remote_control_condition e s.w then
    .next true (call e (.rcdrive dx dy) s)
  else if veh_ctrl then
    .next true (call e (.pldrive dx dy) s)
  else
    .next (e.retB (.plmove dx dy) s.w) (call e (.plmove dx dy) s)

/-- The arm of `ACTION_TIMEOUT` (`check_safe_mode_allowed( false )`) and of
`ACTION_PAUSE` (`check_safe_mode_allowed()`, whose parameter defaults to
`true`): `u.pause()` if the check allows it (lines 249-259). -/
def pause_arm (e : Ext) (repeat_safe_mode_warnings : Bool) (s : St) : St :=
  let allowed := e.retB (.check_safe_mode_allowed repeat_safe_mode_warnings) s.w
  let s1 := call e (.check_safe_mode_allowed repeat_safe_mode_warnings) s
  if allowed then call e .pause s1 else s1

/-- The arm of `ACTION_MOVE_DOWN` (`z = -1`) and `ACTION_MOVE_UP` (`z = 1`). -/
def vertical_arm (e : Ext) (z : Int) (s : St) : St :=
  if !s.w.in_vehicle then call e (.vertical_move z false) s else s

/-- An arm of the form `if( u.has_active_mutation( trait_SHELL2 ) ) add_msg(..)
else handler()`. -/
def shell_arm (e : Ext) (refusal : String) (handler : Call) (s : St) : St :=
  if e.q (.has_active_mutation .trait_SHELL2) s.w then msg refusal s
  else call e handler s

/-- An arm of the form `if( SHELL2 ) add_msg(..) else if( mouse_target !=
tripoint_min ) at_target( mouse_target ) else handler()` (close, examine). -/
def shell_target_arm (e : Ext) (refusal : String) (at_target : tripoint → Call)
    (handler : Call) (mouse_target : tripoint) (s : St) : St :=
  if e.q (.has_active_mutation .trait_SHELL2) s.w then msg refusal s
  else if mouse_target ≠ tripoint_min then call e (at_target mouse_target) s
  else call e handler s

/-- The arm of `ACTION_SMASH` (lines 383-391). -/
def smash_arm (e : Ext) (veh_ctrl : Bool) (s : St) : St :=
  if veh_ctrl then call e .handbrake s
  else if e.q (.has_active_mutation .trait_SHELL2) s.w then
    msg "You can't smash things while you're in your shell." s
  else call e .smash s

/-- The calls collected in `actions` after the leading no-op (lines 595-611):
one per worn item that is a ready holster or a gun on a shoulder strap. -/
def draw_actions (e : Ext) (w : World) : List Call :=
  w.worn.filterMap fun it =>
    if e.q (.holster_ready it) w then some (.invoke_item_holster it)
    else if e.q (.strap_gun it) w then some (.wield_worn it)
    else none

/-- Lines 592-614: offer to draw a weapon; `actions[ uimenu(..) - 1 ]()`,
where entry 0 does nothing.  An index outside `actions` does nothing here. -/
def draw_weapon (e : Ext) (s : St) : St :=
  let actions := draw_actions e s.w
  if actions.length + 1 > 1 then
    let i := e.retI .uimenu_draw_what s.w - 1
    let s1 := call e .uimenu_draw_what s
    if 0 < i then
      match actions.get? (i.toNat - 1) with
      | some c => call e c s1
      | none => s1
    else s1
  else s

/-- Lines 617-631: fire the wielded gun, or make a reach attack. -/
def fire_wielded (e : Ext) (s : St) : St :=
  if e.q .weapon_is_gun s.w && !e.q .weapon_mode_melee s.w then
    call e .plfire_weapon s
  else if e.q .weapon_REACH_ATTACK s.w then
    let range : Int := if e.q .weapon_REACH3 s.w then 3 else 2
    let s1 := call e .map_draw (call e .temp_exit_fullscreen s)
    let hit := e.retB (.target_ui range) s1.w
    let s2 := call e (.target_ui range) s1
    let s3 := if hit then call e .reach_attack s2 else s2
    call e .reenter_fullscreen (call e .wrefresh (call e .draw_ter s3))
  else s

/-- The arm of `ACTION_FIRE` (lines 518-632).  `retB (.target_ui r)` is
`!trajectory.empty()`. -/
def fire_arm (e : Ext) (s : St) : St :=
  if !e.q .is_armed s.w then
    if e.q .veh_turret s.w then
      match e.turret_status s.w with
      | .no_ammo => msg "The %s is out of ammo." s
      | .no_power => msg "The %s is not powered." s
      | .ready =>
          call e .plfire
            (call e (.set_targeting_data (e.q .turret_modes_many s.w)
              (e.q .turret_ammo_many s.w)) s)
      | .other => call e .debugmsg s
    else if e.q .veh_controls s.w then
      let fired := e.retB .turrets_aim_and_fire s.w
      let s1 := call e .turrets_aim_and_fire s
      if fired then s1 else fire_wielded e (draw_weapon e s1)
    else fire_wielded e (draw_weapon e s)
  else fire_wielded e s

/-- The arm of `ACTION_FIRE_BURST` (lines 634-641). -/
def fire_burst_arm (e : Ext) (s : St) : St :=
  let original_mode := e.gun_get_mode_id s.w
  let is_set := e.retB .gun_set_mode_AUTO s.w
  let s1 := call e .gun_set_mode_AUTO s
  if is_set then call e (.gun_set_mode original_mode) (call e .plfire_weapon s1)
  else s1

/-- Lines 794-819, the part of the `ACTION_SLEEP` arm after the first menu. -/
def sleep_alarm (e : Ext) (s : St) : St :=
  let can_hibernate :=
    decide (e.get_hunger s.w < -60) && e.q (.has_active_mutation .trait_HIBERNATE) s.w
  let alarm := Call.alarm_menu_query can_hibernate (e.q .has_alarm_clock s.w)
  let ret := e.retI alarm s.w
  let s1 := call e alarm s
  let s2 := if 3 ≤ ret ∧ ret ≤ 9 then call e (.add_effect_alarm_clock ret) s1 else s1
  call e .try_to_sleep (s2.modify fun w => { w with moves := 0 })

/-- The arm of `ACTION_SLEEP` (lines 722-821).  The two `as_m.query()` calls
are `sleep_menu_query` and `alarm_menu_query`, whose `retI` is `as_m.ret`;
the list `active` only feeds the text of the first menu. -/
def sleep_arm (e : Ext) (veh_ctrl : Bool) (s : St) : St :=
  if veh_ctrl then msg "Vehicle control has moved, %s" s
  else
    let ret := e.retI .sleep_menu_query s.w
    let s1 := call e .sleep_menu_query s
    if ret = 1 then sleep_alarm e (call e .quicksave s1)
    else if ret = 2 then s1
    else sleep_alarm e s1

/-- The arm of `ACTION_TOGGLE_SAFEMODE` (lines 831-846). -/
def toggle_safemode_arm (e : Ext) (s : St) : St :=
  let s1 :=
    if s.w.safe_mode = .SAFE_MODE_OFF then
      msg "Safe mode ON!"
        ((call e (.set_safe_mode .SAFE_MODE_ON) s).modify fun w => { w with mostseen := 0 })
    else
      let s0 := call e (.set_safe_mode .SAFE_MODE_OFF)
        (s.modify fun w => { w with turnssincelastmon := 0 })
      msg (if e.q (.get_option .AUTOSAFEMODE) s0.w
            then "Safe mode OFF! (Auto safe mode still enabled!)" else "Safe mode OFF!") s0
  if e.q .has_effect_laserlocked s1.w then
    (call e .remove_effect_laserlocked s1).modify
      fun w => { w with safe_mode_warning_logged := false }
  else s1

/-- The arm of `ACTION_IGNORE_ENEMY` (lines 856-869). -/
def ignore_enemy_arm (e : Ext) (s : St) : St :=
  if s.w.safe_mode = .SAFE_MODE_STOP then
    let s1 := msg "Ignoring enemy!" s
    let s2 := s1.modify fun w =>
      { w with new_seen_mon :=
          w.new_seen_mon.map fun critter =>
            { critter with ignoring := e.rl_dist (e.pos w) critter.pos } }
    call e (.set_safe_mode .SAFE_MODE_ON) s2
  else if e.q .has_effect_laserlocked s.w then
    (call e .remove_effect_laserlocked (msg "Ignoring laser targeting!" s)).modify
      fun w => { w with safe_mode_warning_logged := false }
  else s

/-- The arm of `ACTION_WHITELIST_ENEMY` (lines 871-880). -/
def whitelist_enemy_arm (e : Ext) (s : St) : St :=
  if s.w.safe_mode = .SAFE_MODE_STOP ∧ e.q .safemode_empty s.w = false then
    let s1 := msg "Creature whitelisted: %s" (call e .safemode_add_rule s)
    (call e (.set_safe_mode .SAFE_MODE_ON) s1).modify fun w => { w with mostseen := 0 }
  else call e .safemode_show s

/-- The arm of `ACTION_QUIT` (lines 882-891). -/
def quit_arm (e : Ext) (s : St) : St :=
  let yes := e.retB (.query_yn "Commit suicide?") s.w
  let s1 := call e (.query_yn "Commit suicide?") s
  let s3 :=
    if yes then
      let really := e.retB (.query_yn "REALLY commit suicide?") s1.w
      let s2 := call e (.query_yn "REALLY commit suicide?") s1
      if really then
        (call e .place_corpse (s2.modify fun w => { w with moves := 0 })).modify
          fun w => { w with uquit := .QUIT_SUICIDE }
      else s2
    else s1
  call e .refresh_all s3

/-- The arm of `ACTION_SAVE` (lines 893-901). -/
def save_arm (e : Ext) (s : St) : St :=
  let yes := e.retB (.query_yn "Save and quit?") s.w
  let s1 := call e (.query_yn "Save and quit?") s
  let s3 :=
    if yes then
      let saved := e.retB .save s1.w
      let s2 := call e .save s1
      if saved then s2.modify fun w => { w with moves := 0, uquit := .QUIT_SAVED }
      else s2
    else s1
  call e .refresh_all s3

/-- The guard of the three debugging arms:
`MAP_SHARING::isCompetitive() && !MAP_SHARING::isDebugger()`. -/
def sharing_blocks (e : Ext) (w : World) : Bool :=
  e.q .isCompetitive w && !e.q .isDebugger w

/-- The arm of `ACTION_TOGGLE_DEBUG_MODE` (lines 1015-1025). -/
def toggle_debug_mode_arm (e : Ext) (s : St) : St :=
  if sharing_blocks e s.w then s
  else
    let s1 := s.modify fun w => { w with debug_mode := !w.debug_mode }
    if s1.w.debug_mode then msg "Debug mode ON!" s1 else msg "Debug mode OFF!" s1

/-- The arm of `ACTION_TOGGLE_AUTO_PULP_BUTCHER` (lines 999-1006). -/
def toggle_auto_pulp_butcher_arm (e : Ext) (s : St) : St :=
  msg "Auto %1$s is now %2$s."
    (call e .options_save (call e (.option_setNext .AUTO_PULP_BUTCHER) s))

/-- The arm of `ACTION_TOGGLE_AUTOSAFE` (lines 848-854). -/
def toggle_autosafe_arm (e : Ext) (s : St) : St :=
  call e (.option_setNext .AUTOSAFEMODE)
    (msg (if e.q (.get_option .AUTOSAFEMODE) s.w
            then "Auto safe mode OFF!" else "Auto safe mode ON!") s)

/-- A handler call followed by `refresh_all()`. -/
def call_refresh (e : Ext) (c : Call) (s : St) : St :=
  call e .refresh_all (call e c s)

/-! ## The alive-only switch (lines 239-1046) -/

/-- The body of the second `switch( act )`, entered only while
`!u.is_dead_state()`. -/
def alive_switch (e : Ext) (act : action_id) (veh_ctrl : Bool)
    (mouse_target : tripoint) (s : St) : Outcome :=
  match act with
  | .ACTION_NULL | .NUM_ACTIONS => .next true s
  | .ACTION_ACTIONMENU | .ACTION_MAIN_MENU => .next true s
  | .ACTION_TIMEOUT => .next true (pause_arm e false s)
  | .ACTION_PAUSE => .next true (pause_arm e true s)
  | .ACTION_TOGGLE_MOVE => .next true (call e .toggle_move_mode s)
  | .ACTION_MOVE_N => move_arm e veh_ctrl 0 (-1) s
  | .ACTION_MOVE_NE => move_arm e veh_ctrl 1 (-1) s
  | .ACTION_MOVE_E => move_arm e veh_ctrl 1 0 s
  | .ACTION_MOVE_SE => move_arm e veh_ctrl 1 1 s
  | .ACTION_MOVE_S => move_arm e veh_ctrl 0 1 s
  | .ACTION_MOVE_SW => move_arm e veh_ctrl (-1) 1 s
  | .ACTION_MOVE_W => move_arm e veh_ctrl (-1) 0 s
  | .ACTION_MOVE_NW => move_arm e veh_ctrl (-1) (-1) s
  | .ACTION_MOVE_DOWN => .next true (vertical_arm e (-1) s)
  | .ACTION_MOVE_UP => .next true (vertical_arm e 1 s)
  | .ACTION_OPEN =>
      .next true (shell_arm e "You can't open things while you're in your shell." .open s)
  | .ACTION_CLOSE =>
      .next true (shell_target_arm e "You can't close things while you're in your shell."
        .close_door .close mouse_target s)
  | .ACTION_SMASH => .next true (smash_arm e veh_ctrl s)
  | .ACTION_EXAMINE =>
      .next true (shell_target_arm e
        "You can't examine your surroundings while you're in your shell."
        .examine_at .examine mouse_target s)
  | .ACTION_ADVANCEDINV =>
      .next true (shell_arm e "You can't move mass quantities while you're in your shell."
        .advanced_inv s)
  | .ACTION_PICKUP => .next true (call e .pick_up s)
  | .ACTION_GRAB =>
      .next true (shell_arm e "You can't grab things while you're in your shell." .grab s)
  | .ACTION_BUTCHER =>
      .next true (shell_arm e "You can't butcher while you're in your shell." .butcher s)
  | .ACTION_CHAT => .next true (call e .chat s)
  | .ACTION_PEEK =>
      .next true (shell_arm e "You can't peek around corners while you're in your shell."
        .peek s)
  | .ACTION_LIST_ITEMS => .next true (call e .list_items_monsters s)
  | .ACTION_ZONES => .next true (call e .zones_manager s)
  | .ACTION_LOOT => .next true (call e .loot s)
  | .ACTION_INVENTORY => .next true (call e .inv_common s)
  | .ACTION_COMPARE => .next true (call e .inv_compare s)
  | .ACTION_ORGANIZE => .next true (call e .inv_swap_letters s)
  | .ACTION_USE => .next true (call e .use_item s)
  | .ACTION_USE_WIELDED => .next true (call e .use_wielded_item s)
  | .ACTION_WEAR => .next true (call e .wear s)
  | .ACTION_TAKE_OFF => .next true (call e .takeoff s)
  | .ACTION_EAT => .next true (call e .eat s)
  | .ACTION_READ => .next true (call e .read s)
  | .ACTION_WIELD => .next true (call e .wield s)
  | .ACTION_PICK_STYLE => .next true (call e .pick_style s)
  | .ACTION_RELOAD => .next true (call e .reload s)
  | .ACTION_UNLOAD => .next true (call e .unload s)
  | .ACTION_MEND => .next true (call e .mend s)
  | .ACTION_THROW => .next true (call e .plthrow s)
  | .ACTION_FIRE => .next true (fire_arm e s)
  | .ACTION_FIRE_BURST => .next true (fire_burst_arm e s)
  | .ACTION_SELECT_FIRE_MODE =>
      .next true (if e.q .is_armed s.w then call e .gun_cycle_mode s else s)
  | .ACTION_DROP => .next true (call e .drop s)
  | .ACTION_DIR_DROP =>
      .next true (shell_arm e
        "You can't drop things to another tile while you're in your shell."
        .drop_in_direction s)
  | .ACTION_BIONICS => .next true (call_refresh e .power_bionics s)
  | .ACTION_MUTATIONS => .next true (call_refresh e .power_mutations s)
  | .ACTION_SORT_ARMOR => .next true (call_refresh e .sort_armor s)
  | .ACTION_WAIT => .next true (call e .wait s)
  | .ACTION_CRAFT =>
      .next true (shell_arm e "You can't craft while you're in your shell." .craft s)
  | .ACTION_RECRAFT =>
      .next true (shell_arm e "You can't craft while you're in your shell." .recraft s)
  | .ACTION_LONGCRAFT =>
      .next true (shell_arm e "You can't craft while you're in your shell." .long_craft s)
  | .ACTION_DISASSEMBLE =>
      .next true
        (if s.w.controlling_vehicle then msg "You can't disassemble items while driving." s
          else call_refresh e .disassemble s)
  | .ACTION_CONSTRUCT =>
      .next true
        (if s.w.in_vehicle then msg "You can't construct while in a vehicle." s
          else shell_arm e "You can't construct while you're in your shell."
            .construction_menu s)
  | .ACTION_SLEEP => .next true (sleep_arm e veh_ctrl s)
  | .ACTION_CONTROL_VEHICLE =>
      .next true (shell_arm e "You can't operate a vehicle while you're in your shell."
        .control_vehicle s)
  | .ACTION_TOGGLE_SAFEMODE => .next true (toggle_safemode_arm e s)
  | .ACTION_TOGGLE_AUTOSAFE => .next true (toggle_autosafe_arm e s)
  | .ACTION_IGNORE_ENEMY => .next true (ignore_enemy_arm e s)
  | .ACTION_WHITELIST_ENEMY => .next true (whitelist_enemy_arm e s)
  | .ACTION_QUIT => .next true (quit_arm e s)
  | .ACTION_SAVE => .next true (save_arm e s)
  | .ACTION_QUICKSAVE => .ret_false (call e .quicksave s)
  | .ACTION_QUICKLOAD => .ret_false (call e .quickload s)
  | .ACTION_PL_INFO => .next true (call_refresh e .disp_info s)
  | .ACTION_MAP => .next true (call e .draw_overmap (call e .werase s))
  | .ACTION_MISSIONS => .next true (call e .list_missions s)
  | .ACTION_KILLS => .next true (call e .disp_kills s)
  | .ACTION_FACTIONS => .next true (call_refresh e .faction_display s)
  | .ACTION_MORALE => .next true (call_refresh e .disp_morale s)
  | .ACTION_MESSAGES => .next true (call_refresh e .display_messages s)
  | .ACTION_HELP => .next true (call_refresh e .display_help s)
  | .ACTION_KEYBINDINGS => .next true (call_refresh e .ctxt_display_menu s)
  | .ACTION_OPTIONS => .next true (call_refresh e .options_show s)
  | .ACTION_AUTOPICKUP => .next true (call_refresh e .auto_pickup_show s)
  | .ACTION_SAFEMODE => .next true (call_refresh e .safemode_show s)
  | .ACTION_COLOR => .next true (call_refresh e .colors_show_gui s)
  | .ACTION_WORLD_MODS => .next true (call_refresh e .show_active_world_mods s)
  | .ACTION_DEBUG =>
      .next true (if sharing_blocks e s.w then s else call_refresh e .debug s)
  | .ACTION_TOGGLE_SIDEBAR_STYLE => .next true (call e .toggle_sidebar_style s)
  | .ACTION_TOGGLE_FULLSCREEN => .next true (call e .toggle_fullscreen s)
  | .ACTION_TOGGLE_PIXEL_MINIMAP => .next true (call e .toggle_pixel_minimap s)
  | .ACTION_TOGGLE_AUTO_PULP_BUTCHER => .next true (toggle_auto_pulp_butcher_arm e s)
  | .ACTION_DISPLAY_SCENT =>
      .next true (if sharing_blocks e s.w then s else call e .display_scent s)
  | .ACTION_TOGGLE_DEBUG_MODE => .next true (toggle_debug_mode_arm e s)
  | .ACTION_ZOOM_IN => .next true (call e .zoom_in s)
  | .ACTION_ZOOM_OUT => .next true (call e .zoom_out s)
  | .ACTION_ITEMACTION => .next true (call e .item_action_menu s)
  | .ACTION_AUTOATTACK => .next true (call e .autoattack s)
  | _ => .next true s

/-! ## Input resolution (lines 52-172) -/

/-- How the first part of the function ends: with one of its `return false`
statements (`done`), or with an action to dispatch (`go`), together with the
locals `veh_ctrl` and `mouse_target`. -/
inductive Resolution
  | done (s : St)
  | go (act : action_id) (veh_ctrl : Bool) (mouse_target : tripoint) (s : St)

/-- Lines 163-171: the diagnostic for input that maps to no action. -/
def unknown_command (e : Ext) (ctxt : input_context) (s : St) : St :=
  if !ctxt.raw_sequence.isEmpty then
    if !e.q (.get_option .NO_UNKNOWN_COMMAND_MSG) s.w then
      msg "Unknown command: \"%s\" (%ld)" s
    else s
  else s

/-- Lines 118-159: a mouse click is resolved by the click resolvers, any other
action but a timeout clears the auto-move destination. -/
def resolve_select (e : Ext) (ctxt : input_context) (veh_ctrl : Bool)
    (act : action_id) (s : St) : Resolution :=
  if act = .ACTION_SELECT ∨ act = .ACTION_SEC_SELECT then
    if veh_ctrl then .done s
    else if e.q .is_dead_state s.w then .done s
    else
      match ctxt.coordinates with
      | none => .done s
      | some (mx, my) =>
          let mouse_target : tripoint := ⟨mx, my, (e.pos s.w).z⟩
          if !e.q (.sees mouse_target) s.w then .done s
          else
            let click : Call :=
              if act = .ACTION_SELECT then .try_get_left_click_action mouse_target
              else .try_get_right_click_action mouse_target
            let resolved := e.retB click s.w
            let act1 := e.retA click s.w
            let s1 := call e click s
            if !resolved then .done s1 else .go act1 veh_ctrl mouse_target s1
  else if act ≠ .ACTION_TIMEOUT then
    .go act veh_ctrl tripoint_min
      ((call e .clear_destination s).modify fun w => { w with destination_preview := [] })
  else .go act veh_ctrl tripoint_min s

/-- Lines 114-116 followed by `resolve_select`. -/
def resolve_counted (e : Ext) (ctxt : input_context) (veh_ctrl : Bool)
    (act : action_id) (s : St) : Resolution :=
  resolve_select e ctxt veh_ctrl act
    (if e.can_action_change_worldstate act then
      s.modify fun w => { w with user_action_counter := wrap_int (w.user_action_counter + 1) }
     else s)

/-- Lines 89-97 and 99-106: `menu` is `handle_main_menu` or
`handle_action_menu`; the auto-move state is cleared and the menu chooses
the action. -/
def open_menu (e : Ext) (menu : Call) (s : St) : action_id × St :=
  let s1 := (call e .clear_destination s).modify fun w => { w with destination_preview := [] }
  (e.retA menu s1.w, call e menu s1)

/-- Lines 99-160. -/
def resolve_action_menu (e : Ext) (ctxt : input_context) (veh_ctrl : Bool)
    (act : action_id) (s : St) : Resolution :=
  if act = .ACTION_ACTIONMENU then
    let r := open_menu e .handle_action_menu s
    if r.1 = .ACTION_NULL then .done r.2 else resolve_counted e ctxt veh_ctrl r.1 r.2
  else resolve_counted e ctxt veh_ctrl act s

/-- Lines 87-160, the body of the first `if( act == ACTION_NULL )`. -/
def resolve_input (e : Ext) (ctxt : input_context) (action : String)
    (veh_ctrl : Bool) (s : St) : Resolution :=
  let act := e.look_up_action action
  if act = .ACTION_MAIN_MENU then
    let r := open_menu e .handle_main_menu s
    if r.1 = .ACTION_NULL then .done r.2 else resolve_action_menu e ctxt veh_ctrl r.1 r.2
  else resolve_action_menu e ctxt veh_ctrl act s

/-- Lines 162-172: an action that is still `ACTION_NULL` ends the call. -/
def resolve_null_check (e : Ext) (ctxt : input_context) : Resolution → Resolution
  | .go act veh_ctrl mouse_target s =>
      if act = .ACTION_NULL then .done (unknown_command e ctxt s)
      else .go act veh_ctrl mouse_target s
  | .done s => .done s

/-- The value given to the local `veh_ctrl` (lines 72-74). -/
def veh_ctrl_at (e : Ext) (w : World) : Bool :=
  !e.q .is_dead_state w && (e.q .player_in_control w || e.q .remoteveh w)

/-- Lines 72-172, with `act`, `ctxt` and `action` as lines 56-70 left them. -/
def resolve_from (e : Ext) (act : action_id) (ctxt : input_context)
    (action : String) (s : St) : Resolution :=
  let veh_ctrl := veh_ctrl_at e s.w
  if s.w.uquit = .QUIT_WATCH ∧ action = "QUIT" then
    .done (s.modify fun w => { w with uquit := .QUIT_DIED })
  else
    resolve_null_check e ctxt
      (if act = .ACTION_NULL then resolve_input e ctxt action veh_ctrl s
       else .go act veh_ctrl tripoint_min s)

/-- Lines 52-172: from the auto-move queue or from player input to the action
to dispatch. -/
def resolve (e : Ext) (w : World) : Resolution :=
  let s : St := ⟨w, []⟩
  if e.q .has_destination w then
    let act := e.retA .get_next_auto_move_direction w
    let s1 := call e .get_next_auto_move_direction s
    if act = .ACTION_NULL then
      .done (call e .clear_destination (msg "Auto-move canceled" s1))
    else resolve_from e act input_context.fresh "" s1
  else if e.q .has_destination_activity w then
    .done (call e .start_destination_activity s)
  else
    resolve_from e .ACTION_NULL (e.input w).1 (e.input w).2 (call e .get_player_input s)

/-! ## The whole function -/

/-- Lines 177-1046: the two switches, run on the world the pre-action hook
left, with an empty record of events. -/
def dispatch (e : Ext) (act : action_id) (veh_ctrl : Bool)
    (mouse_target : tripoint) (w : World) : Outcome :=
  let soffset := e.MOVE_VIEW_OFFSET w
  let soffsetr := wrap_int (0 - soffset)
  let s0 : St := ⟨w, []⟩
  let s1 :=
    if w.uquit = .QUIT_WATCH ∨ e.q .is_dead_state w = false then
      deathcam_switch e act soffset soffsetr s0
    else s0
  if e.q .is_dead_state s1.w = false then alive_switch e act veh_ctrl mouse_target s1
  else .next true s1

/-- One entry of the trace of a call, tagged by the part of the function
that produced it. -/
inductive Step
  /-- An event of input resolution (lines 52-172). -/
  | resolve (ev : Event)
  /-- The hook `gamemode->pre_action( act )` (line 175). -/
  | pre_action (act : action_id)
  /-- An event of one of the two switches (lines 186-1046). -/
  | handler (ev : Event)
  /-- The `u.clear_destination()` of line 1048. -/
  | cancel_auto_move
  /-- The hook `gamemode->post_action( act )` (line 1051). -/
  | post_action (act : action_id)

/-- What a call of `handle_action` leaves: its return value, the world and
the trace. -/
structure Result where
  ret : Bool
  w : World
  trace : List Step

/-- Lines 1047-1056, after a switch left by `break`: cancel auto-move after a
failed step, run the post-action hook, set `u.movecounter`, return. -/
def finish (e : Ext) (act : action_id) (before_action_moves : Int)
    (continue_auto_move : Bool) (trace : List Step) (w : World) : Result :=
  let w1 := if !continue_auto_move then e.eff .clear_destination w else w
  let w2 := e.eff (.post_action act) w1
  let movecounter : Int :=
    if e.q .is_dead_state w2 = false then wrap_int (before_action_moves - w2.moves) else 0
  let w3 := { w2 with movecounter := movecounter }
  ⟨!e.q .is_dead_state w3, w3,
    trace ++ (if !continue_auto_move then [Step.cancel_auto_move] else [])
      ++ [Step.post_action act]⟩

/-- Lines 174-1056: the call from the pre-action hook on.  The hook
`gamemode->pre_action( act )` is handed the local `act` and its declaration
(gamemode.h) is not in the file: `retA (.pre_action act)` is the value of
`act` after the hook, which is `act` itself unless the hook takes it by
reference and rewrites it. -/
def run_action (e : Ext) (act : action_id) (veh_ctrl : Bool)
    (mouse_target : tripoint) (s : St) : Result :=
  let act1 := e.retA (.pre_action act) s.w
  let w1 := e.eff (.pre_action act) s.w
  let before_action_moves := w1.moves
  let pre := s.tr.map Step.resolve ++ [Step.pre_action act]
  match dispatch e act1 veh_ctrl mouse_target w1 with
  | .ret_false h => ⟨false, h.w, pre ++ h.tr.map Step.handler⟩
  | .next continue_auto_move h =>
      finish e act1 before_action_moves continue_auto_move
        (pre ++ h.tr.map Step.handler) h.w

/-- The function `game::handle_action`. -/
def handle_action (e : Ext) (w : World) : Result :=
  match resolve e w with
  | .done s => ⟨false, s.w, s.tr.map Step.resolve⟩
  | .go act veh_ctrl mouse_target s => run_action e act veh_ctrl mouse_target s

/-- The events of the two switches in a trace. -/
def handler_events : List Step → List Event
  | [] => []
  | .handler ev :: t => ev :: handler_events t
  | _ :: t => handler_events t

/-! ## Vocabulary of the statements

Sets of actions, hypotheses and abbreviations that the theorems below use to
state the claims.  None of them is part of the embedding. -/

/-- The steps that follow the switches: nothing after `return false`, else
the optional cancellation and the post-action hook. -/
def tail_steps (act : action_id) : Outcome → List Step
  | .ret_false _ => []
  | .next continue_auto_move _ =>
      (if !continue_auto_move then [Step.cancel_auto_move] else []) ++ [Step.post_action act]

/-- The collaborator `c` leaves `u.moves` alone. -/
def keeps_moves (e : Ext) (c : Call) : Prop :=
  ∀ w, (e.eff c w).moves = w.moves

/-- The world that input resolution leaves when the key pressed is bound to
`act`, an action that is neither a menu, nor a mouse click, nor a timeout:
`get_player_input`, the count of line 115, then the clearing of lines
157-158. -/
def after_key (e : Ext) (act : action_id) (w : World) : World :=
  let w0 := e.eff .get_player_input w
  let w1 := if e.can_action_change_worldstate act
    then { w0 with user_action_counter := wrap_int (w0.user_action_counter + 1) } else w0
  { e.eff .clear_destination w1 with destination_preview := [] }

/-- The player has no auto-move pending and presses a key that
`look_up_action` maps to `act` (and the quit prompt of line 81 is not up). -/
def key_pressed (e : Ext) (act : action_id) (w : World) : Prop :=
  e.q .has_destination w = false ∧ e.q .has_destination_activity w = false ∧
  ¬((e.eff .get_player_input w).uquit = .QUIT_WATCH ∧ (e.input w).2 = "QUIT") ∧
  e.look_up_action (e.input w).2 = act

/-- Input resolution yields no action: the auto-move queue gives
`ACTION_NULL`, or the key pressed maps to no action. -/
def yields_no_action (e : Ext) (w : World) : Prop :=
  (e.q .has_destination w = true ∧
    e.retA .get_next_auto_move_direction w = .ACTION_NULL) ∨
  key_pressed e .ACTION_NULL w

/-- The diagnostic of lines 163-171 as steps of the trace. -/
def unknown_command_steps (e : Ext) (ctxt : input_context) (w : World) : List Step :=
  if ctxt.raw_sequence ≠ [] ∧ e.q (.get_option .NO_UNKNOWN_COMMAND_MSG) w = false
    then [.resolve (.msg "Unknown command: \"%s\" (%ld)")] else []

/-- The actions the claims list as disabled by the shell restriction. -/
def shell_disabled : List action_id :=
  [.ACTION_OPEN, .ACTION_CLOSE, .ACTION_SMASH, .ACTION_EXAMINE, .ACTION_ADVANCEDINV,
   .ACTION_GRAB, .ACTION_BUTCHER, .ACTION_PEEK, .ACTION_DIR_DROP, .ACTION_CRAFT,
   .ACTION_RECRAFT, .ACTION_LONGCRAFT, .ACTION_CONSTRUCT, .ACTION_CONTROL_VEHICLE]

/-- The refusal message of each disabled action; `ACTION_CONSTRUCT` inside a
vehicle is refused with the message about the vehicle. -/
def refusal (act : action_id) (in_vehicle : Bool) : String :=
  match act with
  | .ACTION_OPEN => "You can't open things while you're in your shell."
  | .ACTION_CLOSE => "You can't close things while you're in your shell."
  | .ACTION_SMASH => "You can't smash things while you're in your shell."
  | .ACTION_EXAMINE => "You can't examine your surroundings while you're in your shell."
  | .ACTION_ADVANCEDINV => "You can't move mass quantities while you're in your shell."
  | .ACTION_GRAB => "You can't grab things while you're in your shell."
  | .ACTION_BUTCHER => "You can't butcher while you're in your shell."
  | .ACTION_PEEK => "You can't peek around corners while you're in your shell."
  | .ACTION_DIR_DROP => "You can't drop things to another tile while you're in your shell."
  | .ACTION_CRAFT => "You can't craft while you're in your shell."
  | .ACTION_RECRAFT => "You can't craft while you're in your shell."
  | .ACTION_LONGCRAFT => "You can't craft while you're in your shell."
  | .ACTION_CONSTRUCT =>
      if in_vehicle then "You can't construct while in a vehicle."
      else "You can't construct while you're in your shell."
  | .ACTION_CONTROL_VEHICLE => "You can't operate a vehicle while you're in your shell."
  | _ => ""

/-- The actions that have an arm in the allow-list switch. -/
def deathcam_allowed : List action_id :=
  [.ACTION_CENTER, .ACTION_SHIFT_N, .ACTION_SHIFT_NE, .ACTION_SHIFT_E, .ACTION_SHIFT_SE,
   .ACTION_SHIFT_S, .ACTION_SHIFT_SW, .ACTION_SHIFT_W, .ACTION_SHIFT_NW, .ACTION_LOOK]

/-- The delta of each of the eight directional actions, as the claims list
them: N = (0,-1), NE = (1,-1), E = (1,0), SE = (1,1), S = (0,1), SW = (-1,1),
W = (-1,0), NW = (-1,-1). -/
def move_delta : action_id → Option (Int × Int)
  | .ACTION_MOVE_N => some (0, -1)
  | .ACTION_MOVE_NE => some (1, -1)
  | .ACTION_MOVE_E => some (1, 0)
  | .ACTION_MOVE_SE => some (1, 1)
  | .ACTION_MOVE_S => some (0, 1)
  | .ACTION_MOVE_SW => some (-1, 1)
  | .ACTION_MOVE_W => some (-1, 0)
  | .ACTION_MOVE_NW => some (-1, -1)
  | _ => none

/-- The last thing input resolution did was lines 157-158:
`u.clear_destination(); destination_preview.clear();`. -/
def cleared_last (e : Ext) (s : St) : Prop :=
  ∃ w0 tr0, s = ⟨{ e.eff .clear_destination w0 with destination_preview := [] },
    tr0 ++ [.call .clear_destination]⟩

/-- No click resolver was called. -/
def no_click (tr : List Event) : Prop :=
  ∀ p, Event.call (.try_get_left_click_action p) ∉ tr ∧
    Event.call (.try_get_right_click_action p) ∉ tr

/-! ## Concrete collaborators for the examples

`quiet` is a session in which nothing happens: every test fails, every call
is a no-op returning `false`, `ACTION_NULL` or `0` (the pre-action hook
leaves the action as it is), and the player types nothing known.  The
examples below override single collaborators of it. -/

/-- A world with a living player standing around; `rest` is unused by
`quiet`. -/
def calm : World :=
  { moves := 100, movecounter := 100, view_offset_x := 0, view_offset_y := 0,
    in_vehicle := false, controlling_vehicle := false, worn := [],
    uquit := .QUIT_NO, driving_view_offset_x := 0, driving_view_offset_y := 0,
    user_action_counter := 7, destination_preview := [],
    safe_mode := .SAFE_MODE_ON, mostseen := 0, turnssincelastmon := 0,
    safe_mode_warning_logged := false, new_seen_mon := [], debug_mode := false,
    rest := 0 }

/-- The part of `look_up_action` the examples use, on the identifiers of
action.cpp. -/
def look_up_some (ident : String) : action_id :=
  if ident = "open" then .ACTION_OPEN
  else if ident = "smash" then .ACTION_SMASH
  else if ident = "SELECT" then .ACTION_SELECT
  else if ident = "UP" then .ACTION_MOVE_N
  else if ident = "sleep" then .ACTION_SLEEP
  else if ident = "pause" then .ACTION_PAUSE
  else if ident = "shift_n" then .ACTION_SHIFT_N
  else if ident = "shift_ne" then .ACTION_SHIFT_NE
  else if ident = "safemode" then .ACTION_TOGGLE_SAFEMODE
  else if ident = "ignore_enemy" then .ACTION_IGNORE_ENEMY
  else if ident = "whitelist_enemy" then .ACTION_WHITELIST_ENEMY
  else if ident = "main_menu" then .ACTION_MAIN_MENU
  else if ident = "quit" then .ACTION_QUIT
  else if ident = "save" then .ACTION_SAVE
  else .ACTION_NULL

/-- The part of `can_action_change_worldstate` the examples use: view
shifts, looking, timeouts and the save actions do not change the world, the
other actions may. -/
def changes_world (act : action_id) : Bool :=
  match act with
  | .ACTION_CENTER | .ACTION_LOOK | .ACTION_TIMEOUT | .ACTION_QUICKSAVE
  | .ACTION_QUICKLOAD | .ACTION_SAVE | .ACTION_QUIT | .ACTION_MAIN_MENU
  | .ACTION_SHIFT_N | .ACTION_SHIFT_NE | .ACTION_SHIFT_E | .ACTION_SHIFT_SE
  | .ACTION_SHIFT_S | .ACTION_SHIFT_SW | .ACTION_SHIFT_W | .ACTION_SHIFT_NW => false
  | _ => true

/-- Collaborators that do nothing. -/
def quiet : Ext :=
  { q := fun _ _ => false
    eff := fun _ w => w
    retB := fun _ _ => false
    retA := fun c _ => match c with
      | .pre_action act => act
      | _ => .ACTION_NULL
    retI := fun _ _ => 0
    input := fun _ => (input_context.fresh, "")
    look_up_action := look_up_some
    can_action_change_worldstate := changes_world
    MOVE_VIEW_OFFSET := fun _ => 1
    pos := fun _ => ⟨0, 0, 0⟩
    turret_status := fun _ => .other
    gun_get_mode_id := fun _ => 0
    get_hunger := fun _ => 0
    rl_dist := fun _ _ => 0 }

/-- A key that is bound to nothing: the input manager reports `ERROR`, which
`look_up_action` maps to `ACTION_NULL`. -/
def unbound_key : Ext :=
  { quiet with input := fun _ => (⟨none, [96]⟩, "ERROR") }

/-- An auto-move that has gone off course: `rest` is the length of the
queued route, `u.get_next_auto_move_direction()` yields `ACTION_NULL`, and
`u.clear_destination()` empties the route. -/
def off_course : Ext :=
  { quiet with
    q := fun k w => match k with
      | .has_destination => decide (w.rest ≠ 0)
      | _ => false
    eff := fun c w => match c with
      | .clear_destination => { w with rest := 0 }
      | _ => w }

/-- A minefield: `rest` is the health of the player, who is dead when it is
`0`; the player presses the key for north, and stepping there (`plmove`)
kills (the step itself succeeds). -/
def minefield : Ext :=
  { quiet with
    q := fun k w => match k with
      | .is_dead_state => decide (w.rest = 0)
      | _ => false
    eff := fun c w => match c with
      | .plmove _ _ => { w with rest := 0 }
      | _ => w
    retB := fun c _ => match c with
      | .plmove _ _ => true
      | _ => false
    input := fun _ => (⟨none, [107]⟩, "UP") }

/-- A player withdrawn into the shell (`trait_SHELL2` active) who presses the
key for opening things. -/
def shelled : Ext :=
  { quiet with
    q := fun k _ => match k with
      | .has_active_mutation .trait_SHELL2 => true
      | _ => false
    input := fun _ => (⟨none, [111]⟩, "open") }

/-- A player withdrawn into the shell who also controls a vehicle, and
presses the key for smashing. -/
def shelled_driver : Ext :=
  { quiet with
    q := fun k _ => match k with
      | .has_active_mutation .trait_SHELL2 => true
      | .player_in_control => true
      | _ => false
    input := fun _ => (⟨none, [115]⟩, "smash") }

/-- A driver who also steers a remote-controlled car: the player controls
the vehicle under them, has the value `remote_controlling` set and holds an
active `radiocontrol` item; the key pressed is the one for north. -/
def remote_driver : Ext :=
  { quiet with
    q := fun k _ => match k with
      | .player_in_control => true
      | .remote_controlling => true
      | .has_active_item_radiocontrol => true
      | _ => false
    input := fun _ => (⟨none, [107]⟩, "UP") }

/-- The second click on a previewed route: the player clicks (action
`SELECT`) on the visible tile one step east, and the left-click resolver turns
the click into the first step of the route, `ACTION_MOVE_E`, emptying
`destination_preview`; the step succeeds. -/
def second_click : Ext :=
  { quiet with
    q := fun k _ => match k with
      | .sees _ => true
      | _ => false
    eff := fun c w => match c with
      | .try_get_left_click_action _ => { w with destination_preview := [] }
      | _ => w
    retB := fun c _ => match c with
      | .try_get_left_click_action _ => true
      | .plmove _ _ => true
      | _ => false
    retA := fun c _ => match c with
      | .try_get_left_click_action _ => .ACTION_MOVE_E
      | .pre_action act => act
      | _ => .ACTION_NULL
    input := fun _ => (⟨some (1, 0), []⟩, "SELECT") }

/-- A queued route blocked at its next step: `rest` is the length of the
route, `u.get_next_auto_move_direction()` takes the next step off the route
and yields `ACTION_MOVE_N`, the step fails (`plmove` returns false), and
`u.clear_destination()` empties the route. -/
def blocked_path : Ext :=
  { quiet with
    q := fun k w => match k with
      | .has_destination => decide (w.rest ≠ 0)
      | _ => false
    eff := fun c w => match c with
      | .get_next_auto_move_direction => { w with rest := w.rest - 1 }
      | .clear_destination => { w with rest := 0 }
      | _ => w
    retA := fun c _ => match c with
      | .get_next_auto_move_direction => .ACTION_MOVE_N
      | .pre_action act => act
      | _ => .ACTION_NULL }

/-! ## Vocabulary and collaborators for the later statements -/

/-- The pre-action hook vetoes the action it is handed: it leaves
`ACTION_NULL` in `act`, the one channel line 175 offers (the value the hook
returns, if any, is discarded). -/
def vetoes (e : Ext) (act : action_id) (w : World) : Prop :=
  e.retA (.pre_action act) w = .ACTION_NULL

/-- One coordinate `v` of `u.view_offset` after a view shift with the delta
`d` of the direction along that axis and the step `step`: untouched when `d`
is 0, else `d * step` added as `int`s. -/
def shift_axis (d step v : Int) : Int :=
  if d = 0 then v else wrap_int (v + d * step)

/-- The world after a view shift in the direction of delta `( dx, dy )` with
the step `step`. -/
def shift_view (dx dy step : Int) (w : World) : World :=
  { w with view_offset_x := shift_axis dx step w.view_offset_x,
           view_offset_y := shift_axis dy step w.view_offset_y }

/-- The world with exactly `( x, y )` added to `u.view_offset`. -/
def add_to_view (x y : Int) (w : World) : World :=
  { w with view_offset_x := w.view_offset_x + x, view_offset_y := w.view_offset_y + y }

/-- The world with `u.view_offset` set to `driving_view_offset` in `x` and
`y`. -/
def center_view (w : World) : World :=
  { w with view_offset_x := w.driving_view_offset_x, view_offset_y := w.driving_view_offset_y }

/-- The eight compass directions: the directional action, the view-shift
action, and the delta `(dx, dy)` as the claims list it. -/
def compass : List (action_id × action_id × Int × Int) :=
  [(.ACTION_MOVE_N, .ACTION_SHIFT_N, 0, -1), (.ACTION_MOVE_NE, .ACTION_SHIFT_NE, 1, -1),
   (.ACTION_MOVE_E, .ACTION_SHIFT_E, 1, 0), (.ACTION_MOVE_SE, .ACTION_SHIFT_SE, 1, 1),
   (.ACTION_MOVE_S, .ACTION_SHIFT_S, 0, 1), (.ACTION_MOVE_SW, .ACTION_SHIFT_SW, -1, 1),
   (.ACTION_MOVE_W, .ACTION_SHIFT_W, -1, 0), (.ACTION_MOVE_NW, .ACTION_SHIFT_NW, -1, -1)]

/-- Contract of `game::set_safe_mode` (game.cpp, not in the file), assumed
where a statement speaks of the safe-mode state after the call: it assigns
the mode and touches nothing else but the warning flag. -/
def sets_safe_mode (e : Ext) : Prop :=
  ∀ m w, ∃ logged, e.eff (.set_safe_mode m) w =
    { w with safe_mode := m, safe_mode_warning_logged := logged }

/-- Contract of `u.remove_effect( effect_laserlocked )` (not in the file): it
changes nothing of the world but what is behind `rest`. -/
def remove_effect_keeps_fields (e : Ext) : Prop :=
  ∀ w, ∃ r, e.eff .remove_effect_laserlocked w = { w with rest := r }

/-- The collaborator `c` leaves `u.movecounter` alone. -/
def keeps_movecounter (e : Ext) (c : Call) : Prop :=
  ∀ w, (e.eff c w).movecounter = w.movecounter

/-- A session in which the player presses the key bound to `ident`. -/
def keyed (ident : String) : Ext :=
  { quiet with input := fun _ => (⟨none, [1]⟩, ident) }

/-- A special game mode that forbids sleeping: its pre-action hook rewrites
`ACTION_SLEEP` to `ACTION_NULL`; the player presses the key for sleeping. -/
def no_sleep_mode : Ext :=
  { keyed "sleep" with
    retA := fun c _ => match c with
      | .pre_action .ACTION_SLEEP => .ACTION_NULL
      | .pre_action act => act
      | _ => .ACTION_NULL }

/-- The minefield again, with the step costing the 100 moves of the turn
before it kills. -/
def costly_minefield : Ext :=
  { minefield with
    eff := fun c w => match c with
      | .plmove _ _ => { w with rest := 0, moves := w.moves - 100 }
      | _ => w }

/-- A player who walks north; the step succeeds and costs 100 moves. -/
def walker : Ext :=
  { keyed "UP" with
    eff := fun c w => match c with
      | .plmove _ _ => { w with moves := w.moves - 100 }
      | _ => w
    retB := fun c _ => match c with
      | .plmove _ _ => true
      | _ => false }

/-- A dead player (`rest` is unused) who presses the key bound to `ident`. -/
def corpse (ident : String) : Ext :=
  { keyed ident with
    q := fun k _ => match k with
      | .is_dead_state => true
      | _ => false }

/-- The square distance between two points, the value of `rl_dist` when the
option for circular distances is off. -/
def square_dist (a b : tripoint) : Int :=
  max (max (Int.natAbs (a.x - b.x)) (Int.natAbs (a.y - b.y))) (Int.natAbs (a.z - b.z))

/-- A session with safe mode: `rest = 1` means that the player is
laser-locked, `no_rules` that the safe-mode rule set is empty;
`set_safe_mode` assigns the mode and resets the warning flag, removing the
laser-lock effect sets `rest` to `0`.  The player presses the key bound to
`ident`. -/
def safe_mode_session (ident : String) (no_rules : Bool) : Ext :=
  { keyed ident with
    q := fun k w => match k with
      | .safemode_empty => no_rules
      | .has_effect_laserlocked => decide (w.rest = 1)
      | _ => false
    eff := fun c w => match c with
      | .set_safe_mode m => { w with safe_mode := m, safe_mode_warning_logged := false }
      | .remove_effect_laserlocked => { w with rest := 0 }
      | _ => w
    rl_dist := square_dist }

/-- A world in which safe mode has stopped the player for a monster three
tiles east and four tiles south. -/
def alarmed : World :=
  { calm with safe_mode := .SAFE_MODE_STOP, mostseen := 1, turnssincelastmon := 6,
              safe_mode_warning_logged := true, new_seen_mon := [⟨⟨3, 4, 0⟩, 0⟩] }

/-- The calls that the arms of `ACTION_QUIT` and `ACTION_SAVE` make (lines
882-901). -/
def session_calls : List Call :=
  [.query_yn "Commit suicide?", .query_yn "REALLY commit suicide?", .place_corpse,
   .query_yn "Save and quit?", .save, .refresh_all]

/-- The collaborators that the arms of `ACTION_QUIT` and `ACTION_SAVE` call
write neither `uquit` nor `u.moves`. -/
def keeps_session (e : Ext) : Prop :=
  ∀ c ∈ session_calls, ∀ w, (e.eff c w).uquit = w.uquit ∧ (e.eff c w).moves = w.moves

/-- Both prompts of `ACTION_QUIT` are answered yes (lines 883-884); the second
is put after the first. -/
def quit_confirmed (e : Ext) (w : World) : Bool :=
  e.retB (.query_yn "Commit suicide?") w &&
    e.retB (.query_yn "REALLY commit suicide?") (e.eff (.query_yn "Commit suicide?") w)

/-- The prompt of `ACTION_SAVE` is answered yes and `save()` succeeds (lines
894-895); `save()` runs after the prompt. -/
def save_confirmed (e : Ext) (w : World) : Bool :=
  e.retB (.query_yn "Save and quit?") w &&
    e.retB .save (e.eff (.query_yn "Save and quit?") w)

/-- A session in which the player presses the key bound to `ident` and
answers yes to every prompt, and saving succeeds; each prompt and the corpse
leave a mark in `rest`. -/
def resolute (ident : String) : Ext :=
  { keyed ident with
    retB := fun c _ => match c with
      | .query_yn _ => true
      | .save => true
      | _ => false
    eff := fun c w => match c with
      | .query_yn _ => { w with rest := w.rest + 1 }
      | .place_corpse => { w with rest := w.rest + 10 }
      | _ => w }

/-- A session in which the player presses the key bound to `ident`, answers
yes to the first prompt put and no to the one after it, and saving fails. -/
def wavering (ident : String) : Ext :=
  { keyed ident with
    retB := fun c w => match c with
      | .query_yn _ => decide (w.rest = 0)
      | _ => false
    eff := fun c w => match c with
      | .query_yn _ => { w with rest := w.rest + 1 }
      | _ => w }

/-! ## Basic facts about the embedding -/

/-- An `int` computation whose exact result is an `int` yields that result. -/
theorem wrap_int_of_range {x : Int} (h : int_range x) : wrap_int x = x := by
  unfold int_range at h
  unfold wrap_int
  omega

theorem wrap_int_range (x : Int) : int_range (wrap_int x) := by
  unfold int_range wrap_int
  omega

theorem wrap_int_zero : wrap_int 0 = 0 := by decide

/-- Wrap-around at the two ends of the range of `int`. -/
theorem wrap_int_overflow :
    wrap_int (2147483647 + 1) = -2147483648 ∧ wrap_int (-2147483648 - 1) = 2147483647 ∧
    wrap_int (100 - -2147483648) = -2147483548 := by decide

theorem wrap_int_add_wrap (a b : Int) : wrap_int (a + wrap_int b) = wrap_int (a + b) := by
  unfold wrap_int
  omega

theorem wrap_int_wrap_add (a b : Int) : wrap_int (wrap_int a + b) = wrap_int (a + b) := by
  unfold wrap_int
  omega

theorem call_w (e : Ext) (c : Call) (s : St) : (call e c s).w = e.eff c s.w := rfl

theorem call_tr (e : Ext) (c : Call) (s : St) : (call e c s).tr = s.tr ++ [Event.call c] := rfl

theorem msg_w (text : String) (s : St) : (msg text s).w = s.w := rfl

theorem msg_tr (text : String) (s : St) : (msg text s).tr = s.tr ++ [Event.msg text] := rfl

theorem modify_w (f : World → World) (s : St) : (s.modify f).w = f s.w := rfl

theorem modify_tr (f : World → World) (s : St) : (s.modify f).tr = s.tr := rfl

theorem handler_events_append (l₁ l₂ : List Step) :
    handler_events (l₁ ++ l₂) = handler_events l₁ ++ handler_events l₂ := by
  induction l₁ with
  | nil => rfl
  | cons a t ih => cases a <;> simp [handler_events, ih]

theorem handler_events_map_resolve (l : List Event) :
    handler_events (l.map Step.resolve) = [] := by
  induction l with
  | nil => rfl
  | cons a t ih => simpa [handler_events] using ih

theorem handler_events_map_handler (l : List Event) :
    handler_events (l.map Step.handler) = l := by
  induction l with
  | nil => rfl
  | cons a t ih => simpa [handler_events] using ih

/-- The trace of a call that dispatches: resolution, the pre-action hook, the
switches, and what follows them. -/
theorem run_action_trace (e : Ext) (act : action_id) (veh_ctrl : Bool)
    (mouse_target : tripoint) (s : St) :
    (run_action e act veh_ctrl mouse_target s).trace =
      s.tr.map Step.resolve ++ [Step.pre_action act] ++
        (dispatch e (e.retA (.pre_action act) s.w) veh_ctrl mouse_target
          (e.eff (.pre_action act) s.w)).st.tr.map
          Step.handler ++
        tail_steps (e.retA (.pre_action act) s.w) (dispatch e (e.retA (.pre_action act) s.w) veh_ctrl mouse_target
          (e.eff (.pre_action act) s.w)) := by
  cases h : dispatch e (e.retA (.pre_action act) s.w) veh_ctrl mouse_target
          (e.eff (.pre_action act) s.w) with
  | ret_false t => simp [run_action, h, Outcome.st, tail_steps]
  | next c t => simp [run_action, h, finish, Outcome.st, tail_steps]

/-- The trace of a call that dispatches begins with the events of input
resolution and the pre-action hook, and holds no other event of input
resolution. -/
theorem run_action_trace_prefix (e : Ext) (act : action_id) (veh_ctrl : Bool)
    (mouse_target : tripoint) (s : St) :
    ∃ after, (run_action e act veh_ctrl mouse_target s).trace =
      s.tr.map Step.resolve ++ Step.pre_action act :: after ∧
      ∀ ev, Step.resolve ev ∉ after := by
  refine ⟨(dispatch e (e.retA (.pre_action act) s.w) veh_ctrl mouse_target
          (e.eff (.pre_action act) s.w)).st.tr.map
      Step.handler ++
      tail_steps (e.retA (.pre_action act) s.w) (dispatch e (e.retA (.pre_action act) s.w) veh_ctrl mouse_target
          (e.eff (.pre_action act) s.w)),
    by rw [run_action_trace]; simp, fun ev hmem => ?_⟩
  simp only [List.mem_append, List.mem_map] at hmem
  rcases hmem with ⟨x, -, hx⟩ | hmem
  · cases hx
  · cases hdp : dispatch e (e.retA (.pre_action act) s.w) veh_ctrl mouse_target
          (e.eff (.pre_action act) s.w) with
    | ret_false t =>
        rw [hdp] at hmem
        simp [tail_steps] at hmem
    | next c t =>
        rw [hdp] at hmem
        cases c <;> simp [tail_steps] at hmem

theorem run_action_handler_events (e : Ext) (act : action_id) (veh_ctrl : Bool)
    (mouse_target : tripoint) (s : St) :
    handler_events (run_action e act veh_ctrl mouse_target s).trace =
      (dispatch e (e.retA (.pre_action act) s.w) veh_ctrl mouse_target
          (e.eff (.pre_action act) s.w)).st.tr := by
  rw [run_action_trace]
  cases h : dispatch e (e.retA (.pre_action act) s.w) veh_ctrl mouse_target
          (e.eff (.pre_action act) s.w) with
  | ret_false t =>
      simp [handler_events_append, handler_events_map_resolve, handler_events_map_handler,
        handler_events, tail_steps, Outcome.st]
  | next c t =>
      cases c <;>
      simp [handler_events_append, handler_events_map_resolve, handler_events_map_handler,
        handler_events, tail_steps, Outcome.st]

/-- A call ends early exactly when its trace holds no post-action hook; the
hook is handed the action the pre-action hook left. -/
theorem post_action_mem_iff (e : Ext) (w : World) (a : action_id) :
    Step.post_action a ∈ (handle_action e w).trace ↔
      ∃ act veh_ctrl mouse_target s c h,
        resolve e w = .go act veh_ctrl mouse_target s ∧
        e.retA (.pre_action act) s.w = a ∧
        dispatch e a veh_ctrl mouse_target (e.eff (.pre_action act) s.w) = .next c h := by
  unfold handle_action
  cases hr : resolve e w with
  | done s =>
      constructor
      · intro h
        simp at h
      · rintro ⟨_, _, _, _, _, _, h, _⟩
        cases h
  | go act veh_ctrl mouse_target s =>
      simp only [run_action_trace]
      cases hd : dispatch e (e.retA (.pre_action act) s.w) veh_ctrl mouse_target
          (e.eff (.pre_action act) s.w) with
      | ret_false t =>
          constructor
          · intro h
            simp [tail_steps, Outcome.st] at h
          · rintro ⟨_, _, _, _, _, _, h1, h2, h3⟩
            cases h1
            subst h2
            rw [hd] at h3
            cases h3
      | next c t =>
          constructor
          · intro h
            have ha : a = e.retA (.pre_action act) s.w := by
              cases c <;> simpa [tail_steps, Outcome.st] using h
            subst ha
            exact ⟨_, _, _, _, _, _, rfl, rfl, hd⟩
          · rintro ⟨_, _, _, _, _, _, h1, h2, _⟩
            cases h1
            subst h2
            simp [tail_steps]

/-- The three ways a call can go: it ends in input resolution, or in the
`return false` of an arm, or it runs to the end. -/
theorem handle_action_cases (e : Ext) (w : World) :
    (∃ s, resolve e w = .done s ∧
      handle_action e w = ⟨false, s.w, s.tr.map Step.resolve⟩) ∨
    (∃ act veh_ctrl mouse_target s h, resolve e w = .go act veh_ctrl mouse_target s ∧
      dispatch e (e.retA (.pre_action act) s.w) veh_ctrl mouse_target
          (e.eff (.pre_action act) s.w) = .ret_false h ∧
      handle_action e w =
        ⟨false, h.w, s.tr.map Step.resolve ++ [Step.pre_action act] ++ h.tr.map Step.handler⟩) ∨
    (∃ act veh_ctrl mouse_target s c h, resolve e w = .go act veh_ctrl mouse_target s ∧
      dispatch e (e.retA (.pre_action act) s.w) veh_ctrl mouse_target
          (e.eff (.pre_action act) s.w) = .next c h ∧
      handle_action e w =
        finish e (e.retA (.pre_action act) s.w) (e.eff (.pre_action act) s.w).moves c
          (s.tr.map Step.resolve ++ [Step.pre_action act] ++ h.tr.map Step.handler) h.w) := by
  cases hr : resolve e w with
  | done s => exact Or.inl ⟨s, rfl, by simp [handle_action, hr]⟩
  | go act veh_ctrl mouse_target s =>
      cases hd : dispatch e (e.retA (.pre_action act) s.w) veh_ctrl mouse_target
          (e.eff (.pre_action act) s.w) with
      | ret_false h =>
          exact Or.inr (Or.inl ⟨act, veh_ctrl, mouse_target, s, h, rfl, hd,
            by simp [handle_action, hr, run_action, hd]⟩)
      | next c h =>
          exact Or.inr (Or.inr ⟨act, veh_ctrl, mouse_target, s, c, h, rfl, hd,
            by simp [handle_action, hr, run_action, hd]⟩)

theorem finish_ret (e : Ext) (act : action_id) (b : Int) (c : Bool) (tr : List Step)
    (w : World) :
    (finish e act b c tr w).ret = !e.q .is_dead_state (finish e act b c tr w).w := rfl

theorem post_action_not_mem_early (act a : action_id) (l₁ l₂ : List Event) :
    Step.post_action a ∉ l₁.map Step.resolve ++ [Step.pre_action act] ++ l₂.map Step.handler := by
  simp

/-! ## C1 -/

/-- C1, refuted as stated: "whenever the call returns false,
`u.is_dead_state()` holds at the moment of return".  A living player whose
auto-move has gone off course gets `false` from the call (line 61). -/
theorem C1_false_return_with_living_player :
    (handle_action off_course { calm with rest := 3 }).ret = false ∧
    off_course.q .is_dead_state (handle_action off_course { calm with rest := 3 }).w = false := by
  decide

/-- C1, amended: whenever the call runs its post-action hook and returns
false, `u.is_dead_state()` holds at the moment of return.  (The `return
false` statements before the hook do not look at the player.) -/
theorem C1_false_after_post_action_means_dead (e : Ext) (w : World) (a : action_id)
    (hpost : Step.post_action a ∈ (handle_action e w).trace)
    (hret : (handle_action e w).ret = false) :
    e.q .is_dead_state (handle_action e w).w = true := by
  rcases handle_action_cases e w with ⟨s, -, h⟩ | ⟨act, vc, mt, s, t, -, -, h⟩ |
    ⟨act, vc, mt, s, c, t, -, -, h⟩
  · rw [h] at hpost
    simp at hpost
  · rw [h] at hpost
    exact absurd hpost (post_action_not_mem_early act a s.tr t.tr)
  · rw [h] at hret ⊢
    rw [finish_ret] at hret
    simpa using hret

/-- C1, the amended statement at a concrete call: on the minefield the step
north kills the player, the post-action hook runs, the call returns false
and the player is dead. -/
theorem C1_false_after_post_action_means_dead_witness :
    Step.post_action .ACTION_MOVE_N ∈ (handle_action minefield { calm with rest := 9 }).trace ∧
    (handle_action minefield { calm with rest := 9 }).ret = false ∧
    minefield.q .is_dead_state (handle_action minefield { calm with rest := 9 }).w = true :=
  have ht : (handle_action minefield { calm with rest := 9 }).trace =
      [.resolve (.call .get_player_input), .resolve (.call .clear_destination),
       .pre_action .ACTION_MOVE_N, .handler (.call (.plmove 0 (-1))),
       .post_action .ACTION_MOVE_N] := rfl
  have hpost : Step.post_action .ACTION_MOVE_N ∈
      (handle_action minefield { calm with rest := 9 }).trace := by rw [ht]; simp
  have hret : (handle_action minefield { calm with rest := 9 }).ret = false := by decide
  ⟨hpost, hret,
    C1_false_after_post_action_means_dead minefield { calm with rest := 9 } .ACTION_MOVE_N
      hpost hret⟩

/-! ## C2 -/

/-- C2: if the player is in a dead state when the call returns, the call
returns false; and on every path that reaches the post-action hook the
return value is the negation of `u.is_dead_state()` at the return. -/
theorem C2_dead_at_return_returns_false (e : Ext) (w : World) :
    (e.q .is_dead_state (handle_action e w).w = true → (handle_action e w).ret = false) ∧
    (∀ a, Step.post_action a ∈ (handle_action e w).trace →
      (handle_action e w).ret = !e.q .is_dead_state (handle_action e w).w) := by
  rcases handle_action_cases e w with ⟨s, -, h⟩ | ⟨act, vc, mt, s, t, -, -, h⟩ |
    ⟨act, vc, mt, s, c, t, -, -, h⟩
  · rw [h]
    refine ⟨fun _ => rfl, fun a hpost => ?_⟩
    simp at hpost
  · rw [h]
    exact ⟨fun _ => rfl, fun a hpost => absurd hpost (post_action_not_mem_early act a s.tr t.tr)⟩
  · rw [h]
    refine ⟨fun hdead => ?_, fun a _ => finish_ret ..⟩
    rw [finish_ret, hdead]
    rfl

/-- C2 at a concrete call: on the minefield the handler kills the player
mid-call; the call reaches the post-action hook and returns false. -/
theorem C2_dead_at_return_returns_false_witness :
    minefield.q .is_dead_state { calm with rest := 9 } = false ∧
    minefield.q .is_dead_state (handle_action minefield { calm with rest := 9 }).w = true ∧
    (handle_action minefield { calm with rest := 9 }).ret = false :=
  have hdead : minefield.q .is_dead_state
      (handle_action minefield { calm with rest := 9 }).w = true := by decide
  ⟨by decide, hdead,
    (C2_dead_at_return_returns_false minefield { calm with rest := 9 }).1 hdead⟩

/-! ## C3 -/

/-- Resolution of a cancelled auto-move (lines 56-62). -/
theorem resolve_auto_null (e : Ext) (w : World)
    (hd : e.q .has_destination w = true)
    (hn : e.retA .get_next_auto_move_direction w = .ACTION_NULL) :
    resolve e w = .done
      ⟨e.eff .clear_destination (e.eff .get_next_auto_move_direction w),
       [.call .get_next_auto_move_direction, .msg "Auto-move canceled",
        .call .clear_destination]⟩ := by
  simp [resolve, hd, hn, call, msg]

/-- Resolution of a key bound to a plain action (lines 68-160). -/
theorem resolve_key (e : Ext) (act : action_id) (w : World) (hk : key_pressed e act w)
    (h1 : act ≠ .ACTION_MAIN_MENU) (h2 : act ≠ .ACTION_ACTIONMENU)
    (h3 : act ≠ .ACTION_SELECT) (h4 : act ≠ .ACTION_SEC_SELECT)
    (h5 : act ≠ .ACTION_TIMEOUT) :
    resolve e w = resolve_null_check e (e.input w).1
      (.go act (veh_ctrl_at e (e.eff .get_player_input w)) tripoint_min
        ⟨after_key e act w, [.call .get_player_input, .call .clear_destination]⟩) := by
  obtain ⟨hd, ha, hq, hl⟩ := hk
  have hq' : ¬((call e .get_player_input ⟨w, []⟩).w.uquit = .QUIT_WATCH ∧
      (e.input w).2 = "QUIT") := hq
  simp only [resolve, hd, ha, resolve_from, hq', resolve_input, hl, h1, h2, h3, h4, h5,
    resolve_action_menu, resolve_counted, resolve_select, if_false, if_true, or_self,
    ne_eq, not_false_eq_true, Bool.false_eq_true]
  congr 1
  by_cases hc : e.can_action_change_worldstate act <;>
    simp [hc, after_key, call, St.modify]

/-- The call for an auto-move that yields no action (lines 56-62). -/
theorem handle_action_auto_null (e : Ext) (w : World)
    (hd : e.q .has_destination w = true)
    (hn : e.retA .get_next_auto_move_direction w = .ACTION_NULL) :
    handle_action e w =
      ⟨false, e.eff .clear_destination (e.eff .get_next_auto_move_direction w),
       [.resolve (.call .get_next_auto_move_direction), .resolve (.msg "Auto-move canceled"),
        .resolve (.call .clear_destination)]⟩ := by
  simp only [handle_action, resolve_auto_null e w hd hn]
  rfl

/-- The call for a key that maps to no action (lines 68-172). -/
theorem handle_action_key_null (e : Ext) (w : World) (hk : key_pressed e .ACTION_NULL w) :
    handle_action e w =
      ⟨false, after_key e .ACTION_NULL w,
       [.resolve (.call .get_player_input), .resolve (.call .clear_destination)] ++
         unknown_command_steps e (e.input w).1 (after_key e .ACTION_NULL w)⟩ := by
  have hr := resolve_key e .ACTION_NULL w hk (by decide) (by decide) (by decide)
    (by decide) (by decide)
  simp only [resolve_null_check, if_true] at hr
  simp only [handle_action, hr, unknown_command, unknown_command_steps]
  cases hs : (e.input w).1.raw_sequence <;>
    cases ho : e.q (.get_option .NO_UNKNOWN_COMMAND_MSG) (after_key e .ACTION_NULL w) <;>
    simp [msg]

/-- C3, refuted as stated: "[when] input resolution yields no action .. the
auto-move state is exactly what it was before the call, i.e.
`u.clear_destination()` is not applied".  When the auto-move queue yields
`ACTION_NULL` the call applies `u.clear_destination()` (line 60), and the
route that was pending before the call is gone after it; a key that maps to
no action also reaches `u.clear_destination()` (line 157). -/
theorem C3_no_action_applies_clear_destination :
    yields_no_action off_course { calm with rest := 3 } ∧
    Step.resolve (.call .clear_destination) ∈
      (handle_action off_course { calm with rest := 3 }).trace ∧
    off_course.q .has_destination { calm with rest := 3 } = true ∧
    off_course.q .has_destination (handle_action off_course { calm with rest := 3 }).w = false ∧
    yields_no_action unbound_key calm ∧
    Step.resolve (.call .clear_destination) ∈ (handle_action unbound_key calm).trace := by
  have h1 : yields_no_action off_course { calm with rest := 3 } :=
    Or.inl ⟨by decide, by decide⟩
  have h2 : yields_no_action unbound_key calm :=
    Or.inr ⟨by decide, by decide, by decide, by decide⟩
  have t1 : (handle_action off_course { calm with rest := 3 }).trace =
      [.resolve (.call .get_next_auto_move_direction), .resolve (.msg "Auto-move canceled"),
       .resolve (.call .clear_destination)] := by rfl
  have t2 : (handle_action unbound_key calm).trace =
      [.resolve (.call .get_player_input), .resolve (.call .clear_destination),
       .resolve (.msg "Unknown command: \"%s\" (%ld)")] := by rfl
  refine ⟨h1, ?_, by decide, by decide, h2, ?_⟩
  · rw [t1]; simp
  · rw [t2]; simp

/-- C3, amended: when input resolution yields no action (the auto-move queue
gives `ACTION_NULL`, or the key pressed maps to no action), the call returns
false, runs no hook and no handler, and `u.clear_destination()` IS applied;
the world after the call is the one the collaborators of input resolution
leave, so `u.moves` is unchanged whenever those collaborators
(`get_next_auto_move_direction`, `get_player_input`, `clear_destination`)
leave it alone. -/
theorem C3_no_action_costs_nothing_and_clears_destination (e : Ext) (w : World)
    (h : yields_no_action e w) :
    (handle_action e w).ret = false ∧
    (∀ a, Step.pre_action a ∉ (handle_action e w).trace) ∧
    (∀ ev, Step.handler ev ∉ (handle_action e w).trace) ∧
    (∀ a, Step.post_action a ∉ (handle_action e w).trace) ∧
    Step.resolve (.call .clear_destination) ∈ (handle_action e w).trace ∧
    (handle_action e w).w =
      (if e.q .has_destination w = true
        then e.eff .clear_destination (e.eff .get_next_auto_move_direction w)
        else after_key e .ACTION_NULL w) ∧
    (keeps_moves e .get_next_auto_move_direction → keeps_moves e .get_player_input →
      keeps_moves e .clear_destination → (handle_action e w).w.moves = w.moves) := by
  rcases h with ⟨hd, hn⟩ | hk
  · rw [handle_action_auto_null e w hd hn]
    refine ⟨rfl, ?_, ?_, ?_, ?_, ?_, ?_⟩
    · simp
    · simp
    · simp
    · simp
    · simp [hd]
    · intro hm _ hc
      simp [hm _, hc _]
  · rw [handle_action_key_null e w hk]
    have hu : ∀ st, st ∈ unknown_command_steps e (e.input w).1 (after_key e .ACTION_NULL w) →
        st = .resolve (.msg "Unknown command: \"%s\" (%ld)") := by
      intro st hst
      unfold unknown_command_steps at hst
      split_ifs at hst <;> simp_all
    refine ⟨rfl, ?_, ?_, ?_, ?_, ?_, ?_⟩
    · intro a ha
      simp only [List.mem_append, List.mem_cons, List.mem_singleton] at ha
      rcases ha with (ha | ha | ha) | ha
      · cases ha
      · cases ha
      · cases ha
      · cases hu _ ha
    · intro ev ha
      simp only [List.mem_append, List.mem_cons, List.mem_singleton] at ha
      rcases ha with (ha | ha | ha) | ha
      · cases ha
      · cases ha
      · cases ha
      · cases hu _ ha
    · intro a ha
      simp only [List.mem_append, List.mem_cons, List.mem_singleton] at ha
      rcases ha with (ha | ha | ha) | ha
      · cases ha
      · cases ha
      · cases ha
      · cases hu _ ha
    · simp
    · simp [hk.1]
    · intro _ hm hc
      simp only [after_key]
      split_ifs <;> simp [hm _, hc _]

/-- C3, the amended statement at a concrete call: the auto-move that has gone
off course. -/
theorem C3_no_action_costs_nothing_and_clears_destination_witness :
    yields_no_action off_course { calm with rest := 3 } ∧
    (handle_action off_course { calm with rest := 3 }).ret = false ∧
    Step.resolve (.call .clear_destination) ∈
      (handle_action off_course { calm with rest := 3 }).trace ∧
    (handle_action off_course { calm with rest := 3 }).w.moves = 100 :=
  have h : yields_no_action off_course { calm with rest := 3 } :=
    Or.inl ⟨by decide, by decide⟩
  have hc := C3_no_action_costs_nothing_and_clears_destination off_course
    { calm with rest := 3 } h
  ⟨h, hc.1, hc.2.2.2.2.1, hc.2.2.2.2.2.2 (fun _ => rfl) (fun _ => rfl) (fun _ => rfl)⟩

/-! ## C4 -/

theorem handle_action_go (e : Ext) (w : World) {act : action_id} {veh_ctrl : Bool}
    {mouse_target : tripoint} {s : St}
    (h : resolve e w = .go act veh_ctrl mouse_target s) :
    handle_action e w = run_action e act veh_ctrl mouse_target s := by
  simp [handle_action, h]

theorem mem_handler_events (ev : Event) (l : List Step) :
    ev ∈ handler_events l ↔ Step.handler ev ∈ l := by
  induction l with
  | nil => simp [handler_events]
  | cons a t ih => cases a <;> simp [handler_events, ih]

theorem deathcam_switch_default (e : Ext) (act : action_id) (a b : Int) (s : St)
    (h : act ∉ deathcam_allowed) : deathcam_switch e act a b s = s := by
  cases act <;> first | rfl | exact absurd (by decide) h

/-- The switches for a living player and an action outside the allow-list. -/
theorem dispatch_alive (e : Ext) (act : action_id) (veh_ctrl : Bool) (mouse_target : tripoint)
    (w : World) (halive : e.q .is_dead_state w = false) (hdc : act ∉ deathcam_allowed) :
    dispatch e act veh_ctrl mouse_target w = alive_switch e act veh_ctrl mouse_target ⟨w, []⟩ := by
  simp only [dispatch, halive, or_true, if_true, deathcam_switch_default e act _ _ _ hdc]

/-- The switches on a disabled action, for a living player in the shell: the
world is untouched and the only event is the refusal, except that
`ACTION_SMASH` under vehicle control pulls the handbrake. -/
theorem dispatch_shell_disabled (e : Ext) (act : action_id) (veh_ctrl : Bool)
    (mouse_target : tripoint) (w : World) (hact : act ∈ shell_disabled)
    (halive : e.q .is_dead_state w = false)
    (hshell : e.q (.has_active_mutation .trait_SHELL2) w = true) :
    dispatch e act veh_ctrl mouse_target w =
      if act = .ACTION_SMASH ∧ veh_ctrl = true
        then .next true ⟨e.eff .handbrake w, [.call .handbrake]⟩
        else .next true ⟨w, [.msg (refusal act w.in_vehicle)]⟩ := by
  have hdc : ∀ a ∈ shell_disabled, a ∉ deathcam_allowed := by decide
  rw [dispatch_alive e act veh_ctrl mouse_target w halive (hdc act hact)]
  simp only [shell_disabled, List.mem_cons, List.mem_singleton, List.not_mem_nil,
    or_false] at hact
  rcases hact with rfl | rfl | rfl | rfl | rfl | rfl | rfl | rfl | rfl | rfl | rfl | rfl |
    rfl | rfl
  case inr.inr.inl =>
    show Outcome.next true (smash_arm e veh_ctrl ⟨w, []⟩) = _
    cases veh_ctrl <;> simp [smash_arm, hshell, msg, call, refusal]
  case inr.inr.inr.inr.inr.inr.inr.inr.inr.inr.inr.inr.inl =>
    show Outcome.next true (if w.in_vehicle = true then _ else shell_arm e _ _ ⟨w, []⟩) = _
    cases hv : w.in_vehicle <;> simp [shell_arm, hshell, msg, refusal]
  all_goals
    first
    | show Outcome.next true (shell_arm e _ _ ⟨w, []⟩) = _
      simp [shell_arm, hshell, msg, refusal]
    | show Outcome.next true (shell_target_arm e _ _ _ _ ⟨w, []⟩) = _
      simp [shell_target_arm, hshell, msg, refusal]


/-- C4, refuted as stated: "[a disabled action] invokes no action handler
(neither the action's own handler nor any substitute such as handbrake),
whatever the vehicle-control flag .. [is]".  A living player in the shell who
controls a vehicle and presses the smash key gets `handbrake()` and no
refusal (lines 384-385). -/
theorem C4_smash_in_shell_under_vehicle_control_pulls_handbrake :
    shelled_driver.q (.has_active_mutation .trait_SHELL2) calm = true ∧
    shelled_driver.q .is_dead_state calm = false ∧
    (handle_action shelled_driver calm).trace =
      [.resolve (.call .get_player_input), .resolve (.call .clear_destination),
       .pre_action .ACTION_SMASH, .handler (.call .handbrake),
       .post_action .ACTION_SMASH] :=
  ⟨by decide, by decide, by rfl⟩

/-- C4, amended: for a living player with the shell restriction (active
SHELL2 mutation) and every action of the disabled set that reaches the
switches (`act`, as the pre-action hook left it), the switches emit the
refusal message and call no collaborator, whatever the mouse target is and,
except for `ACTION_SMASH`, whatever the vehicle-control flag is; for
`ACTION_SMASH` this holds when `veh_ctrl` is false, and under `veh_ctrl` the
call invokes `handbrake()` instead. -/
theorem C4_shell_refusal (e : Ext) (w : World) (act0 act : action_id) (veh_ctrl : Bool)
    (mouse_target : tripoint) (s : St)
    (hres : resolve e w = .go act0 veh_ctrl mouse_target s)
    (hpre : e.retA (.pre_action act0) s.w = act)
    (hact : act ∈ shell_disabled)
    (halive : e.q .is_dead_state (e.eff (.pre_action act0) s.w) = false)
    (hshell : e.q (.has_active_mutation .trait_SHELL2) (e.eff (.pre_action act0) s.w) = true) :
    handler_events (handle_action e w).trace =
      if act = .ACTION_SMASH ∧ veh_ctrl = true then [.call .handbrake]
      else [.msg (refusal act (e.eff (.pre_action act0) s.w).in_vehicle)] := by
  rw [handle_action_go e w hres, run_action_handler_events, hpre,
    dispatch_shell_disabled e act veh_ctrl mouse_target _ hact halive hshell]
  split_ifs <;> rfl

/-- C4, the amended statement at a concrete call: the player in the shell
presses the key for opening things and is refused. -/
theorem C4_shell_refusal_witness :
    handler_events (handle_action shelled calm).trace =
      [.msg "You can't open things while you're in your shell."] :=
  C4_shell_refusal shelled calm .ACTION_OPEN .ACTION_OPEN false tripoint_min
    ⟨{ calm with user_action_counter := 8 },
      [.call .get_player_input, .call .clear_destination]⟩
    (by rfl) (by rfl) (by simp [shell_disabled]) (by decide) (by decide)

/-! ## C5 -/

/-- C5, refuted as stated: "a dispatch call [of a disabled action] .. leaves
the whole entity/session state identical to the state before the call:
.. `u.movecounter`, the auto-move destination, `user_action_counter` .. are
all unchanged".  The player in the shell presses the key for opening things:
the call is refused, yet it has applied `u.clear_destination()` (line 157),
incremented `user_action_counter` (line 115) and overwritten `u.movecounter`
(line 1053). -/
theorem C5_refused_action_changes_state :
    handler_events (handle_action shelled calm).trace =
      [.msg "You can't open things while you're in your shell."] ∧
    Step.resolve (.call .clear_destination) ∈ (handle_action shelled calm).trace ∧
    calm.user_action_counter = 7 ∧ (handle_action shelled calm).w.user_action_counter = 8 ∧
    calm.movecounter = 100 ∧ (handle_action shelled calm).w.movecounter = 0 ∧
    (handle_action shelled calm).w ≠ calm := by
  have ht : (handle_action shelled calm).trace =
      [.resolve (.call .get_player_input), .resolve (.call .clear_destination),
       .pre_action .ACTION_OPEN,
       .handler (.msg "You can't open things while you're in your shell."),
       .post_action .ACTION_OPEN] := by rfl
  refine ⟨by rw [ht]; rfl, by rw [ht]; simp, by decide, by decide, by decide, by decide,
    by decide⟩

/-- C5, amended: when a living player in the shell presses the key of an
action of the disabled set (for `ACTION_SMASH`: outside vehicle control) and
the pre-action hook leaves the action as it is, the switches change nothing
and only emit the refusal.  The state after the call
is the state that input resolution and the two game-mode hooks leave, with
`u.movecounter` overwritten by the moves spent between the hooks; so when the
post-action hook leaves the state alone the elapsed cost is zero and
`u.moves` and the safe-mode state are those the pre-action hook left.  Input
resolution itself is not a no-op: it applies `u.clear_destination()`, empties
`destination_preview` and increments `user_action_counter` when
`can_action_change_worldstate( act )` holds (see `after_key`).  When the four
collaborators called on the way (`get_player_input`, `clear_destination`, the
two hooks) change nothing, the state after the call is the state before it
with exactly these three fields rewritten. -/
theorem C5_refused_action_frame (e : Ext) (w : World) (act : action_id)
    (hk : key_pressed e act w) (hact : act ∈ shell_disabled)
    (hpre : e.retA (.pre_action act) (after_key e act w) = act)
    (halive : e.q .is_dead_state (e.eff (.pre_action act) (after_key e act w)) = false)
    (hshell : e.q (.has_active_mutation .trait_SHELL2)
      (e.eff (.pre_action act) (after_key e act w)) = true)
    (hsmash : act = .ACTION_SMASH → veh_ctrl_at e (e.eff .get_player_input w) = false) :
    handle_action e w =
      finish e act (e.eff (.pre_action act) (after_key e act w)).moves true
        [.resolve (.call .get_player_input), .resolve (.call .clear_destination),
         .pre_action act,
         .handler (.msg (refusal act (e.eff (.pre_action act) (after_key e act w)).in_vehicle))]
        (e.eff (.pre_action act) (after_key e act w)) ∧
    ((∀ w', e.eff (.post_action act) w' = w') →
      (handle_action e w).w =
        { e.eff (.pre_action act) (after_key e act w) with movecounter := 0 } ∧
      (handle_action e w).w.movecounter = 0 ∧
      (handle_action e w).w.moves = (e.eff (.pre_action act) (after_key e act w)).moves ∧
      (handle_action e w).w.safe_mode =
        (e.eff (.pre_action act) (after_key e act w)).safe_mode) ∧
    ((∀ w', e.eff .get_player_input w' = w') → (∀ w', e.eff .clear_destination w' = w') →
      (∀ w', e.eff (.pre_action act) w' = w') → (∀ w', e.eff (.post_action act) w' = w') →
      (handle_action e w).w =
        { w with
          user_action_counter :=
            if e.can_action_change_worldstate act then wrap_int (w.user_action_counter + 1)
            else w.user_action_counter
          destination_preview := []
          movecounter := 0 }) := by
  have hne : ∀ a ∈ shell_disabled, a ≠ .ACTION_NULL ∧ a ≠ .ACTION_MAIN_MENU ∧
      a ≠ .ACTION_ACTIONMENU ∧ a ≠ .ACTION_SELECT ∧ a ≠ .ACTION_SEC_SELECT ∧
      a ≠ .ACTION_TIMEOUT := by decide
  obtain ⟨h0, h1, h2, h3, h4, h5⟩ := hne act hact
  have hr := resolve_key e act w hk h1 h2 h3 h4 h5
  simp only [resolve_null_check, h0, if_false] at hr
  have hd := dispatch_shell_disabled e act (veh_ctrl_at e (e.eff .get_player_input w))
    tripoint_min _ hact halive hshell
  have hcond : ¬(act = .ACTION_SMASH ∧ veh_ctrl_at e (e.eff .get_player_input w) = true) := by
    rintro ⟨ha, hv⟩
    rw [hsmash ha] at hv
    cases hv
  rw [if_neg hcond] at hd
  have hmain : handle_action e w =
      finish e act (e.eff (.pre_action act) (after_key e act w)).moves true
        [.resolve (.call .get_player_input), .resolve (.call .clear_destination),
         .pre_action act,
         .handler (.msg (refusal act (e.eff (.pre_action act) (after_key e act w)).in_vehicle))]
        (e.eff (.pre_action act) (after_key e act w)) := by
    rw [handle_action_go e w hr]
    simp only [run_action, hpre, hd]
    rfl
  refine ⟨hmain, fun hpost => ?_, fun hin hcl hpre hpost => ?_⟩
  · rw [hmain]
    simp [finish, hpost, halive, wrap_int_zero]
  · rw [hmain]
    rw [hpre] at halive
    simp only [finish, hpost, hpre, halive, Bool.not_true, Bool.false_eq_true, if_false,
      if_true, sub_self, wrap_int_zero]
    simp only [after_key, hin, hcl]
    split_ifs <;> rfl

/-- C5, the amended statement at a concrete call: the player in the shell
presses the key for opening things. -/
theorem C5_refused_action_frame_witness :
    key_pressed shelled .ACTION_OPEN calm ∧
    (handle_action shelled calm).w =
      { calm with user_action_counter := 8, movecounter := 0 } ∧
    (handle_action shelled calm).w.moves = 100 :=
  have hk : key_pressed shelled .ACTION_OPEN calm :=
    ⟨by decide, by decide, by decide, by decide⟩
  have hc := C5_refused_action_frame shelled calm .ACTION_OPEN hk (by simp [shell_disabled])
    (by rfl) (by decide) (by decide) (by decide)
  ⟨hk, hc.2.2 (fun _ => rfl) (fun _ => rfl) (fun _ => rfl) (fun _ => rfl),
    (hc.2.1 (fun _ => rfl)).2.2.1⟩

/-! ## C6 -/

/-- The switches on a directional action, for a living player. -/
theorem dispatch_move (e : Ext) (act : action_id) (veh_ctrl : Bool) (mouse_target : tripoint)
    (w : World) (dx dy : Int) (hm : move_delta act = some (dx, dy))
    (halive : e.q .is_dead_state w = false) :
    dispatch e act veh_ctrl mouse_target w = move_arm e veh_ctrl dx dy ⟨w, []⟩ := by
  cases act <;> cases hm <;>
    (rw [dispatch_alive e _ veh_ctrl mouse_target w halive (by decide)]; rfl)

/-- The events of a directional arm. -/
theorem move_arm_tr (e : Ext) (veh_ctrl : Bool) (dx dy : Int) (w : World) :
    (move_arm e veh_ctrl dx dy ⟨w, []⟩).st.tr =
      if remote_control_condition e w = true then [.call (.rcdrive dx dy)]
      else if veh_ctrl = true then [.call (.pldrive dx dy)]
      else [.call (.plmove dx dy)] := by
  unfold move_arm
  split_ifs <;> rfl

/-- C6, context exclusivity: for each of the eight directional actions
dispatched for a living player (`act`, as the pre-action hook left it), under `veh_ctrl` the on-foot handler `plmove`
is never invoked; on foot (`veh_ctrl` false and no remote-control condition)
the switches invoke `plmove` exactly once, with that direction's `(dx, dy)`,
and nothing else; and in every case the events of the switches are exactly
one call, of `rcdrive`, `pldrive` or `plmove`, with that `(dx, dy)`. -/
theorem C6_context_exclusivity (e : Ext) (w : World) (act0 act : action_id)
    (veh_ctrl : Bool)
    (mouse_target : tripoint) (s : St) (dx dy : Int)
    (hres : resolve e w = .go act0 veh_ctrl mouse_target s)
    (hpre : e.retA (.pre_action act0) s.w = act)
    (hm : move_delta act = some (dx, dy))
    (halive : e.q .is_dead_state (e.eff (.pre_action act0) s.w) = false) :
    (veh_ctrl = true → ∀ x y, Step.handler (.call (.plmove x y)) ∉ (handle_action e w).trace) ∧
    (veh_ctrl = false →
      remote_control_condition e (e.eff (.pre_action act0) s.w) = false →
      handler_events (handle_action e w).trace = [.call (.plmove dx dy)]) ∧
    (handler_events (handle_action e w).trace = [.call (.rcdrive dx dy)] ∨
     handler_events (handle_action e w).trace = [.call (.pldrive dx dy)] ∨
     handler_events (handle_action e w).trace = [.call (.plmove dx dy)]) := by
  have hev : handler_events (handle_action e w).trace =
      if remote_control_condition e (e.eff (.pre_action act0) s.w) = true
        then [.call (.rcdrive dx dy)]
      else if veh_ctrl = true then [.call (.pldrive dx dy)]
      else [.call (.plmove dx dy)] := by
    rw [handle_action_go e w hres, run_action_handler_events, hpre,
      dispatch_move e act veh_ctrl mouse_target _ dx dy hm halive, move_arm_tr]
  refine ⟨fun hv x y hmem => ?_, fun hv hrc => ?_, ?_⟩
  · rw [← mem_handler_events, hev] at hmem
    split_ifs at hmem <;> simp at hmem
  · rw [hev]
    simp [hv, hrc]
  · rw [hev]
    split_ifs <;> simp

/-- C6 at a concrete call: the player on foot presses the key for north and
`plmove( 0, -1 )` is the one handler that runs. -/
theorem C6_context_exclusivity_witness :
    handler_events (handle_action minefield { calm with rest := 9 }).trace =
      [.call (.plmove 0 (-1))] :=
  (C6_context_exclusivity minefield { calm with rest := 9 } .ACTION_MOVE_N .ACTION_MOVE_N
    false tripoint_min
    ⟨{ calm with rest := 9, user_action_counter := 8 },
      [.call .get_player_input, .call .clear_destination]⟩ 0 (-1)
    (by rfl) (by rfl) (by rfl) (by decide)).2.1 rfl (by decide)

/-! ## C7 -/

/-- A mouse click under vehicle control ends the call at line 122. -/
theorem handle_action_click_in_vehicle (e : Ext) (w : World) (click : action_id)
    (hc : click = .ACTION_SELECT ∨ click = .ACTION_SEC_SELECT)
    (hk : key_pressed e click w)
    (hv : veh_ctrl_at e (e.eff .get_player_input w) = true) :
    handle_action e w =
      ⟨false,
        if e.can_action_change_worldstate click
          then { e.eff .get_player_input w with
            user_action_counter :=
              wrap_int ((e.eff .get_player_input w).user_action_counter + 1) }
          else e.eff .get_player_input w,
        [.resolve (.call .get_player_input)]⟩ := by
  obtain ⟨hd, ha, hq, hl⟩ := hk
  have hq' : ¬((call e .get_player_input ⟨w, []⟩).w.uquit = .QUIT_WATCH ∧
      (e.input w).2 = "QUIT") := hq
  have hv' : veh_ctrl_at e (call e .get_player_input ⟨w, []⟩).w = true := hv
  have h1 : click ≠ .ACTION_MAIN_MENU := by rcases hc with rfl | rfl <;> decide
  have h2 : click ≠ .ACTION_ACTIONMENU := by rcases hc with rfl | rfl <;> decide
  simp only [handle_action, resolve, hd, ha, resolve_from, hq', resolve_input, hl, h1, h2,
    resolve_action_menu, resolve_counted, resolve_select, hc, hv', if_false, if_true,
    Bool.false_eq_true, resolve_null_check]
  by_cases hcw : e.can_action_change_worldstate click <;>
    simp [hcw, call, St.modify]

/-- C7: for a living player for whom both the remote-control condition and
`veh_ctrl` hold, each of the eight directional actions (`act` is the action
that reaches the switches, as the pre-action hook left it) invokes `rcdrive` with
that direction's `(dx, dy)` and not `pldrive`; the other context-sensitive
actions look at `veh_ctrl` only, whatever the remote-control condition is:
`ACTION_SMASH` invokes `handbrake()`, `ACTION_SLEEP` emits the note that
vehicle control has moved, and a mouse click (`ACTION_SELECT`,
`ACTION_SEC_SELECT`) ends the call in input resolution with `return false`,
before any hook or handler. -/
theorem C7_remote_precedence_only_for_moves (e : Ext) (w : World)
    (act0 act : action_id) (mouse_target : tripoint) (s : St)
    (hres : resolve e w = .go act0 true mouse_target s)
    (hpre : e.retA (.pre_action act0) s.w = act)
    (halive : e.q .is_dead_state (e.eff (.pre_action act0) s.w) = false) :
    (∀ dx dy, move_delta act = some (dx, dy) →
      remote_control_condition e (e.eff (.pre_action act0) s.w) = true →
      handler_events (handle_action e w).trace = [.call (.rcdrive dx dy)] ∧
      ∀ x y, Step.handler (.call (.pldrive x y)) ∉ (handle_action e w).trace) ∧
    (act = .ACTION_SMASH →
      handler_events (handle_action e w).trace = [.call .handbrake]) ∧
    (act = .ACTION_SLEEP →
      handler_events (handle_action e w).trace = [.msg "Vehicle control has moved, %s"]) ∧
    (∀ w' click, click = .ACTION_SELECT ∨ click = .ACTION_SEC_SELECT →
      key_pressed e click w' → veh_ctrl_at e (e.eff .get_player_input w') = true →
      (handle_action e w').ret = false ∧
      (handle_action e w').trace = [.resolve (.call .get_player_input)]) := by
  refine ⟨fun dx dy hm hrc => ?_, fun ha => ?_, fun ha => ?_, fun w' click hc hk hv => ?_⟩
  · have hev : handler_events (handle_action e w).trace = [.call (.rcdrive dx dy)] := by
      rw [handle_action_go e w hres, run_action_handler_events, hpre,
        dispatch_move e act true mouse_target _ dx dy hm halive, move_arm_tr, if_pos hrc]
    refine ⟨hev, fun x y hmem => ?_⟩
    rw [← mem_handler_events, hev] at hmem
    simp at hmem
  · subst ha
    rw [handle_action_go e w hres, run_action_handler_events, hpre,
      dispatch_alive e _ true mouse_target _ halive (by decide)]
    rfl
  · subst ha
    rw [handle_action_go e w hres, run_action_handler_events, hpre,
      dispatch_alive e _ true mouse_target _ halive (by decide)]
    rfl
  · rw [handle_action_click_in_vehicle e w' click hc hk hv]
    exact ⟨rfl, rfl⟩

/-- C7 at a concrete call: the driver who also steers a remote-controlled car
presses the key for north; `rcdrive( 0, -1 )` runs and `pldrive` does not. -/
theorem C7_remote_precedence_only_for_moves_witness :
    remote_control_condition remote_driver calm = true ∧
    veh_ctrl_at remote_driver calm = true ∧
    handler_events (handle_action remote_driver calm).trace = [.call (.rcdrive 0 (-1))] :=
  ⟨by decide, by decide,
    ((C7_remote_precedence_only_for_moves remote_driver calm .ACTION_MOVE_N .ACTION_MOVE_N
      tripoint_min
      ⟨{ calm with user_action_counter := 8 },
        [.call .get_player_input, .call .clear_destination]⟩
      (by rfl) (by rfl) (by decide)).1 0 (-1) rfl (by decide)).1⟩

/-! ## C8 -/

theorem resolve_select_go (e : Ext) (ctxt : input_context) (vc : Bool) (a : action_id)
    (s : St) {act : action_id} {vc' : Bool} {mt : tripoint} {s' : St}
    (h : resolve_select e ctxt vc a s = .go act vc' mt s')
    (hto : act ≠ .ACTION_TIMEOUT) (hnc : no_click s'.tr) : cleared_last e s' := by
  unfold resolve_select at h
  by_cases hsel : a = .ACTION_SELECT ∨ a = .ACTION_SEC_SELECT
  · rw [if_pos hsel] at h
    exfalso
    cases hc : ctxt.coordinates with
    | none =>
        rw [hc] at h
        split_ifs at h
    | some p =>
        obtain ⟨mx, my⟩ := p
        rw [hc] at h
        simp only at h
        split_ifs at h with h1 h2 h3 h4 h5
        · injection h with _ _ _ hs
          have := (hnc ⟨mx, my, (e.pos s.w).z⟩).1
          rw [← hs] at this
          simp [call] at this
        · injection h with _ _ _ hs
          have := (hnc ⟨mx, my, (e.pos s.w).z⟩).2
          rw [← hs] at this
          simp [call] at this
  · rw [if_neg hsel] at h
    split_ifs at h with h1
    · injection h with _ _ _ hs
      exact ⟨s.w, s.tr, hs.symm⟩
    · injection h with ha
      exact absurd (ha ▸ not_not.mp h1) hto

theorem resolve_input_go (e : Ext) (ctxt : input_context) (action : String) (vc : Bool)
    (s : St) {act : action_id} {vc' : Bool} {mt : tripoint} {s' : St}
    (h : resolve_input e ctxt action vc s = .go act vc' mt s')
    (hto : act ≠ .ACTION_TIMEOUT) (hnc : no_click s'.tr) : cleared_last e s' := by
  simp only [resolve_input, resolve_action_menu, resolve_counted] at h
  split_ifs at h <;> exact resolve_select_go e ctxt vc _ _ h hto hnc

theorem resolve_null_check_go (e : Ext) (ctxt : input_context) (r : Resolution)
    {act : action_id} {vc : Bool} {mt : tripoint} {s : St}
    (h : resolve_null_check e ctxt r = .go act vc mt s) : r = .go act vc mt s := by
  cases r with
  | done t => cases h
  | go a v m t =>
      simp only [resolve_null_check] at h
      split_ifs at h
      exact h

/-- C8, refuted as stated: "[for an action] obtained from player input .. the
auto-move state has been cleared .. before the pre-action hook and handler
run; this includes actions that were resolved from a mouse click".  On the
second click on a previewed route the click is resolved to `ACTION_MOVE_E`
and dispatched, and the call never applies `u.clear_destination()`. -/
theorem C8_mouse_click_does_not_clear_destination :
    second_click.q .has_destination { calm with destination_preview := [⟨1, 0, 0⟩] } = false ∧
    (handle_action second_click { calm with destination_preview := [⟨1, 0, 0⟩] }).trace =
      [.resolve (.call .get_player_input),
       .resolve (.call (.try_get_left_click_action ⟨1, 0, 0⟩)),
       .pre_action .ACTION_MOVE_E, .handler (.call (.plmove 1 0)),
       .post_action .ACTION_MOVE_E] ∧
    Step.resolve (.call .clear_destination) ∉
      (handle_action second_click { calm with destination_preview := [⟨1, 0, 0⟩] }).trace := by
  have ht : (handle_action second_click { calm with destination_preview := [⟨1, 0, 0⟩] }).trace =
      [.resolve (.call .get_player_input),
       .resolve (.call (.try_get_left_click_action ⟨1, 0, 0⟩)),
       .pre_action .ACTION_MOVE_E, .handler (.call (.plmove 1 0)),
       .post_action .ACTION_MOVE_E] := by rfl
  refine ⟨by decide, ht, ?_⟩
  rw [ht]
  simp

/-- C8, amended: for every call whose action was obtained from player input
(not from the auto-move queue), without a click resolver, and that reaches
the pre-action hook with a resolved action other than `ACTION_TIMEOUT`, the
last two things input resolution did were `u.clear_destination()` and
`destination_preview.clear()`, and in the trace `u.clear_destination()`
comes right before the pre-action hook.  (A mouse click is resolved by the
click resolvers, and the dispatcher does not clear the auto-move state for
it.) -/
theorem C8_keyboard_action_clears_auto_move (e : Ext) (w : World) (act : action_id)
    (veh_ctrl : Bool) (mouse_target : tripoint) (s : St)
    (hin : e.q .has_destination w = false)
    (hres : resolve e w = .go act veh_ctrl mouse_target s)
    (hto : act ≠ .ACTION_TIMEOUT) (hnc : no_click s.tr) :
    (∃ w0, s.w = { e.eff .clear_destination w0 with destination_preview := [] }) ∧
    s.w.destination_preview = [] ∧
    ∃ before after, (handle_action e w).trace =
      List.map Step.resolve before ++
        [.resolve (.call .clear_destination), .pre_action act] ++ after := by
  have hcl : cleared_last e s := by
    simp only [resolve, hin, Bool.false_eq_true, if_false] at hres
    split_ifs at hres
    simp only [resolve_from] at hres
    split_ifs at hres
    have h := resolve_null_check_go e _ _ hres
    simp only [if_true] at h
    exact resolve_input_go e _ _ _ _ h hto hnc
  obtain ⟨w0, tr0, rfl⟩ := hcl
  obtain ⟨after, ha, -⟩ := run_action_trace_prefix e act veh_ctrl mouse_target
    ⟨{ e.eff .clear_destination w0 with destination_preview := [] },
      tr0 ++ [.call .clear_destination]⟩
  refine ⟨⟨w0, rfl⟩, rfl, tr0, after, ?_⟩
  rw [handle_action_go e w hres, ha]
  simp

/-- C8, the amended statement at a concrete call: the key for north on the
minefield. -/
theorem C8_keyboard_action_clears_auto_move_witness :
    ∃ before after, (handle_action minefield { calm with rest := 9 }).trace =
      List.map Step.resolve before ++
        [.resolve (.call .clear_destination), .pre_action .ACTION_MOVE_N] ++ after :=
  (C8_keyboard_action_clears_auto_move minefield { calm with rest := 9 } .ACTION_MOVE_N false
    tripoint_min
    ⟨{ calm with rest := 9, user_action_counter := 8 },
      [.call .get_player_input, .call .clear_destination]⟩
    (by decide) (by rfl) (by decide) (fun p => by simp)).2.2

/-! ## C9 -/

/-- Only the on-foot branch of a directional arm can leave the alive-only
switch with `continue_auto_move` false. -/
theorem alive_switch_next_false (e : Ext) (act : action_id) (vc : Bool) (mt : tripoint)
    (s h : St) (hn : alive_switch e act vc mt s = .next false h) :
    ∃ dx dy, move_delta act = some (dx, dy) ∧ move_arm e vc dx dy s = .next false h := by
  cases act <;> first
    | exact ⟨_, _, rfl, hn⟩
    | exact Outcome.noConfusion hn (fun hb _ => Bool.noConfusion hb)
    | exact Outcome.noConfusion hn

theorem move_arm_next_false (e : Ext) (vc : Bool) (dx dy : Int) (s h : St) :
    move_arm e vc dx dy s = .next false h ↔
      remote_control_condition e s.w = false ∧ vc = false ∧
      e.retB (.plmove dx dy) s.w = false ∧ h = call e (.plmove dx dy) s := by
  unfold move_arm
  cases hrc : remote_control_condition e s.w <;> cases vc <;>
    cases hb : e.retB (.plmove dx dy) s.w <;> simp [eq_comm]

/-- The switches leave `continue_auto_move` false exactly when a living
player's directional action took the on-foot branch and `plmove` returned
false. -/
theorem dispatch_next_false (e : Ext) (act : action_id) (vc : Bool) (mt : tripoint)
    (w : World) (h : St) :
    dispatch e act vc mt w = .next false h ↔
      ∃ dx dy, move_delta act = some (dx, dy) ∧ e.q .is_dead_state w = false ∧
        remote_control_condition e w = false ∧ vc = false ∧
        e.retB (.plmove dx dy) w = false ∧ h = ⟨e.eff (.plmove dx dy) w, [.call (.plmove dx dy)]⟩ := by
  constructor
  · intro hd
    unfold dispatch at hd
    simp only at hd
    split_ifs at hd with h1 h2 h2
    · obtain ⟨dx, dy, hm, ha⟩ := alive_switch_next_false e act vc mt _ h hd
      have hdc : act ∉ deathcam_allowed := by
        intro hmem
        revert hm
        simp only [deathcam_allowed, List.mem_cons, List.mem_singleton, List.not_mem_nil,
          or_false] at hmem
        rcases hmem with rfl | rfl | rfl | rfl | rfl | rfl | rfl | rfl | rfl | rfl <;>
          exact fun hm => Option.noConfusion hm
      rw [deathcam_switch_default e act _ _ _ hdc] at ha h2
      obtain ⟨hrc, hv, hb, hh⟩ := (move_arm_next_false e vc dx dy _ h).1 ha
      exact ⟨dx, dy, hm, h2, hrc, hv, hb, hh⟩
    · exact Outcome.noConfusion hd (fun hb _ => Bool.noConfusion hb)
    · obtain ⟨dx, dy, hm, ha⟩ := alive_switch_next_false e act vc mt _ h hd
      obtain ⟨hrc, hv, hb, hh⟩ := (move_arm_next_false e vc dx dy _ h).1 ha
      exact ⟨dx, dy, hm, h2, hrc, hv, hb, hh⟩
    · exact Outcome.noConfusion hd (fun hb _ => Bool.noConfusion hb)
  · rintro ⟨dx, dy, hm, halive, hrc, hv, hb, hh⟩
    rw [dispatch_move e act vc mt w dx dy hm halive]
    exact (move_arm_next_false e vc dx dy _ h).2 ⟨hrc, hv, hb, hh⟩

/-- The cancellation of line 1048 is in the trace exactly when the switches
left `continue_auto_move` false. -/
theorem cancel_mem_iff (e : Ext) (act : action_id) (vc : Bool) (mt : tripoint) (s : St) :
    Step.cancel_auto_move ∈ (run_action e act vc mt s).trace ↔
      ∃ h, dispatch e (e.retA (.pre_action act) s.w) vc mt (e.eff (.pre_action act) s.w) =
        .next false h := by
  rw [run_action_trace]
  cases hd : dispatch e (e.retA (.pre_action act) s.w) vc mt (e.eff (.pre_action act) s.w) with
  | ret_false t => simp [tail_steps, Outcome.st]
  | next c t => cases c <;> simp [tail_steps, Outcome.st]

/-- C9: within a call that dispatches (`act` is the action that reaches the
switches, as the pre-action hook left it), the cancellation of auto-move after
the switches (`u.clear_destination()` of line 1048) happens if and only if
the action is directional, `plmove` was the handler invoked, and it reported
failure.  So an action that is not directional (a vertical move, any other
action) never triggers it, and neither does a call in which `pldrive` or
`rcdrive` ran, whatever they do.  Hence, `u.clear_destination()` emptying the
queue and the post-action hook not refilling it, the call that attempts a
blocked step leaves no destination. -/
theorem C9_cancel_iff_plmove_failed (e : Ext) (w : World) (act0 act : action_id)
    (veh_ctrl : Bool)
    (mouse_target : tripoint) (s : St)
    (hres : resolve e w = .go act0 veh_ctrl mouse_target s)
    (hpre : e.retA (.pre_action act0) s.w = act) :
    (Step.cancel_auto_move ∈ (handle_action e w).trace ↔
      ∃ dx dy, move_delta act = some (dx, dy) ∧
        handler_events (handle_action e w).trace = [.call (.plmove dx dy)] ∧
        e.retB (.plmove dx dy) (e.eff (.pre_action act0) s.w) = false) ∧
    (move_delta act = none → Step.cancel_auto_move ∉ (handle_action e w).trace) ∧
    (∀ x y, Step.handler (.call (.pldrive x y)) ∈ (handle_action e w).trace ∨
        Step.handler (.call (.rcdrive x y)) ∈ (handle_action e w).trace →
      Step.cancel_auto_move ∉ (handle_action e w).trace) ∧
    ((∀ w', e.q .has_destination (e.eff .clear_destination w') = false) →
      (∀ a w' m, e.q .has_destination { e.eff (.post_action a) w' with movecounter := m } =
        e.q .has_destination w') →
      Step.cancel_auto_move ∈ (handle_action e w).trace →
      e.q .has_destination (handle_action e w).w = false) := by
  have hiff : Step.cancel_auto_move ∈ (handle_action e w).trace ↔
      ∃ dx dy, move_delta act = some (dx, dy) ∧
        handler_events (handle_action e w).trace = [.call (.plmove dx dy)] ∧
        e.retB (.plmove dx dy) (e.eff (.pre_action act0) s.w) = false := by
    rw [handle_action_go e w hres, cancel_mem_iff, run_action_handler_events, hpre]
    constructor
    · rintro ⟨h, hd⟩
      obtain ⟨dx, dy, hm, -, -, -, hb, hh⟩ := (dispatch_next_false e act _ _ _ h).1 hd
      refine ⟨dx, dy, hm, ?_, hb⟩
      rw [hd, hh]
      rfl
    · rintro ⟨dx, dy, hm, hev, hb⟩
      by_cases halive : e.q .is_dead_state (e.eff (.pre_action act0) s.w) = false
      · rw [dispatch_move e act _ _ _ dx dy hm halive] at hev ⊢
        rw [move_arm_tr] at hev
        split_ifs at hev with hrc hv
        · simp at hev
        · simp at hev
        · exact ⟨_, (move_arm_next_false e veh_ctrl dx dy _ _).2
            ⟨by simpa using hrc, by simpa using hv, hb, rfl⟩⟩
      · exfalso
        have hdc : act ∉ deathcam_allowed := by
          intro hmem
          revert hm
          simp only [deathcam_allowed, List.mem_cons, List.mem_singleton, List.not_mem_nil,
            or_false] at hmem
          rcases hmem with rfl | rfl | rfl | rfl | rfl | rfl | rfl | rfl | rfl | rfl <;>
            exact fun hm => Option.noConfusion hm
        simp only [dispatch, deathcam_switch_default e act _ _ _ hdc, halive, if_false,
          ite_self, Outcome.st] at hev
        cases hev
  refine ⟨hiff, fun hnone hc => ?_, fun x y hxy hc => ?_, fun hclear hkeep hc => ?_⟩
  · obtain ⟨dx, dy, hm, -, -⟩ := hiff.1 hc
    rw [hnone] at hm
    cases hm
  · obtain ⟨dx, dy, -, hev, -⟩ := hiff.1 hc
    rw [← mem_handler_events, ← mem_handler_events, hev] at hxy
    simp at hxy
  · rw [handle_action_go e w hres, cancel_mem_iff] at hc
    obtain ⟨h, hd⟩ := hc
    rw [handle_action_go e w hres]
    simp only [run_action, hd, finish, Bool.not_false, if_true]
    rw [hkeep, hclear]

/-- C9 at a concrete call: a queued route of three steps is blocked at its
next step; the call that attempts the step cancels the auto-move and leaves
no destination. -/
theorem C9_cancel_iff_plmove_failed_witness :
    (handle_action blocked_path { calm with rest := 3 }).trace =
      [.resolve (.call .get_next_auto_move_direction), .pre_action .ACTION_MOVE_N,
       .handler (.call (.plmove 0 (-1))), .cancel_auto_move,
       .post_action .ACTION_MOVE_N] ∧
    blocked_path.q .has_destination { calm with rest := 3 } = true ∧
    blocked_path.q .has_destination (handle_action blocked_path { calm with rest := 3 }).w =
      false :=
  have ht : (handle_action blocked_path { calm with rest := 3 }).trace =
      [.resolve (.call .get_next_auto_move_direction), .pre_action .ACTION_MOVE_N,
       .handler (.call (.plmove 0 (-1))), .cancel_auto_move,
       .post_action .ACTION_MOVE_N] := by rfl
  have hc : Step.cancel_auto_move ∈ (handle_action blocked_path { calm with rest := 3 }).trace :=
    ((C9_cancel_iff_plmove_failed blocked_path { calm with rest := 3 } .ACTION_MOVE_N
      .ACTION_MOVE_N false
      tripoint_min ⟨{ calm with rest := 2 }, [.call .get_next_auto_move_direction]⟩
      (by rfl) (by rfl)).1).2 ⟨0, -1, rfl, by rw [ht]; rfl, by rfl⟩
  ⟨ht, by decide,
    (C9_cancel_iff_plmove_failed blocked_path { calm with rest := 3 } .ACTION_MOVE_N
      .ACTION_MOVE_N false
      tripoint_min ⟨{ calm with rest := 2 }, [.call .get_next_auto_move_direction]⟩
      (by rfl) (by rfl)).2.2.2 (fun _ => by rfl) (fun _ _ _ => by rfl) hc⟩

/-! ## C10 -/

/-- Resolution of an auto-move step (lines 56-57, then 72-172 with `act` set):
the action from the queue goes to dispatch, nothing else is done. -/
theorem resolve_auto_go (e : Ext) (w : World)
    (hd : e.q .has_destination w = true)
    (hn : e.retA .get_next_auto_move_direction w ≠ .ACTION_NULL) :
    resolve e w = .go (e.retA .get_next_auto_move_direction w)
      (veh_ctrl_at e (e.eff .get_next_auto_move_direction w)) tripoint_min
      ⟨e.eff .get_next_auto_move_direction w, [.call .get_next_auto_move_direction]⟩ := by
  have hq : ("" : String) ≠ "QUIT" := by decide
  simp [resolve, hd, hn, resolve_from, hq, resolve_null_check, call]

/-- C10: when the player has a pending destination at the start of a call, no
input is requested.  If `u.get_next_auto_move_direction()` yields an action,
that action is the one handed to the pre-action hook and (as the hook leaves
it) to the switches, and input resolution does not clear the destination.  If it yields `ACTION_NULL`,
the call emits "Auto-move canceled", applies `u.clear_destination()`, runs no
hook and no handler, and returns false; `u.moves` is unchanged, the two
collaborators called leaving it alone. -/
theorem C10_pending_destination (e : Ext) (w : World)
    (hd : e.q .has_destination w = true) :
    Step.resolve (.call .get_player_input) ∉ (handle_action e w).trace ∧
    (e.retA .get_next_auto_move_direction w ≠ .ACTION_NULL →
      (∃ after, (handle_action e w).trace =
        [.resolve (.call .get_next_auto_move_direction),
         .pre_action (e.retA .get_next_auto_move_direction w)] ++ after ∧
        ∀ ev, Step.resolve ev ∉ after) ∧
      handle_action e w =
        run_action e (e.retA .get_next_auto_move_direction w)
          (veh_ctrl_at e (e.eff .get_next_auto_move_direction w)) tripoint_min
          ⟨e.eff .get_next_auto_move_direction w, [.call .get_next_auto_move_direction]⟩) ∧
    (e.retA .get_next_auto_move_direction w = .ACTION_NULL →
      handle_action e w =
        ⟨false, e.eff .clear_destination (e.eff .get_next_auto_move_direction w),
         [.resolve (.call .get_next_auto_move_direction), .resolve (.msg "Auto-move canceled"),
          .resolve (.call .clear_destination)]⟩ ∧
      (keeps_moves e .get_next_auto_move_direction → keeps_moves e .clear_destination →
        (handle_action e w).w.moves = w.moves)) := by
  have hgo : e.retA .get_next_auto_move_direction w ≠ .ACTION_NULL →
      (∃ after, (handle_action e w).trace =
        [.resolve (.call .get_next_auto_move_direction),
         .pre_action (e.retA .get_next_auto_move_direction w)] ++ after ∧
        ∀ ev, Step.resolve ev ∉ after) ∧
      handle_action e w =
        run_action e (e.retA .get_next_auto_move_direction w)
          (veh_ctrl_at e (e.eff .get_next_auto_move_direction w)) tripoint_min
          ⟨e.eff .get_next_auto_move_direction w, [.call .get_next_auto_move_direction]⟩ := by
    intro hn
    have hr := handle_action_go e w (resolve_auto_go e w hd hn)
    obtain ⟨after, ht, hafter⟩ := run_action_trace_prefix e
      (e.retA .get_next_auto_move_direction w)
      (veh_ctrl_at e (e.eff .get_next_auto_move_direction w)) tripoint_min
      ⟨e.eff .get_next_auto_move_direction w, [.call .get_next_auto_move_direction]⟩
    exact ⟨⟨after, by rw [hr, ht]; rfl, hafter⟩, hr⟩
  have hnull := handle_action_auto_null e w hd
  refine ⟨?_, hgo, fun hn => ⟨hnull hn, fun hm hc => ?_⟩⟩
  · by_cases hn : e.retA .get_next_auto_move_direction w = .ACTION_NULL
    · rw [hnull hn]
      simp
    · obtain ⟨⟨after, ht, hafter⟩, -⟩ := hgo hn
      rw [ht]
      intro hmem
      simp only [List.cons_append, List.nil_append, List.mem_cons] at hmem
      rcases hmem with hmem | hmem | hmem
      · cases hmem
      · cases hmem
      · exact hafter _ hmem
  · rw [hnull hn]
    simp [hm _, hc _]

/-- C10 at two concrete calls: the blocked route hands `ACTION_MOVE_N` from
the queue to dispatch without asking for input, and the auto-move that has
gone off course is cancelled. -/
theorem C10_pending_destination_witness :
    Step.resolve (.call .get_player_input) ∉
      (handle_action blocked_path { calm with rest := 3 }).trace ∧
    (handle_action off_course { calm with rest := 3 }) =
      ⟨false, { calm with rest := 0 },
       [.resolve (.call .get_next_auto_move_direction), .resolve (.msg "Auto-move canceled"),
        .resolve (.call .clear_destination)]⟩ :=
  ⟨(C10_pending_destination blocked_path { calm with rest := 3 } (by decide)).1,
   ((C10_pending_destination off_course { calm with rest := 3 } (by decide)).2.2 (by rfl)).1⟩

/-! ## C11 -/

/-- The switches have nothing to do for `ACTION_NULL`. -/
theorem dispatch_null (e : Ext) (veh_ctrl : Bool) (mouse_target : tripoint) (w : World) :
    dispatch e .ACTION_NULL veh_ctrl mouse_target w = .next true ⟨w, []⟩ := by
  have h1 : ∀ a b s, deathcam_switch e .ACTION_NULL a b s = s := fun _ _ _ => rfl
  have h2 : ∀ s, alive_switch e .ACTION_NULL veh_ctrl mouse_target s = .next true s :=
    fun _ => rfl
  simp only [dispatch, h1, h2, ite_self]

/-- C11: if the pre-action hook vetoes the resolved action (it leaves
`ACTION_NULL` in `act`), no handler is executed and the auto-move is not
cancelled; the post-action hook is handed `ACTION_NULL`, not the action that
was resolved; the dispatcher spends no moves: the state after the call is the
one the two hooks leave, with `u.movecounter` overwritten, and when the
post-action hook leaves `u.moves` alone the elapsed cost recorded is 0. -/
theorem C11_veto_runs_no_handler (e : Ext) (w : World) (act0 : action_id) (veh_ctrl : Bool)
    (mouse_target : tripoint) (s : St)
    (hres : resolve e w = .go act0 veh_ctrl mouse_target s)
    (hveto : vetoes e act0 s.w) :
    handler_events (handle_action e w).trace = [] ∧
    (handle_action e w).trace =
      s.tr.map Step.resolve ++ [Step.pre_action act0, Step.post_action .ACTION_NULL] ∧
    (act0 ≠ .ACTION_NULL → Step.post_action act0 ∉ (handle_action e w).trace) ∧
    handle_action e w =
      finish e .ACTION_NULL (e.eff (.pre_action act0) s.w).moves true
        (s.tr.map Step.resolve ++ [Step.pre_action act0]) (e.eff (.pre_action act0) s.w) ∧
    (keeps_moves e (.post_action .ACTION_NULL) →
      (handle_action e w).w.moves = (e.eff (.pre_action act0) s.w).moves ∧
      (handle_action e w).w.movecounter = 0) := by
  have hmain : handle_action e w =
      finish e .ACTION_NULL (e.eff (.pre_action act0) s.w).moves true
        (s.tr.map Step.resolve ++ [Step.pre_action act0]) (e.eff (.pre_action act0) s.w) := by
    rw [handle_action_go e w hres]
    unfold vetoes at hveto
    simp only [run_action, hveto, dispatch_null, List.map_nil, List.append_nil]
  have htrace : (handle_action e w).trace =
      s.tr.map Step.resolve ++ [Step.pre_action act0, Step.post_action .ACTION_NULL] := by
    rw [hmain]
    simp [finish]
  refine ⟨?_, htrace, fun hne hmem => ?_, hmain, fun hk => ?_⟩
  · rw [htrace]
    simp [handler_events_append, handler_events_map_resolve, handler_events]
  · rw [htrace] at hmem
    simp only [List.mem_append, List.mem_map, List.mem_cons, List.mem_singleton,
      List.not_mem_nil, or_false] at hmem
    rcases hmem with ⟨x, -, hx⟩ | hmem | hmem
    · cases hx
    · cases hmem
    · injection hmem with h
      exact hne h
  · rw [hmain]
    simp only [finish, Bool.not_true, Bool.false_eq_true, if_false, hk _, sub_self,
      wrap_int_zero, ite_self]
    exact ⟨trivial, trivial⟩

/-- C11 at a concrete call: in a game mode that forbids sleeping the player
presses the key for sleeping; no handler runs and no moves are spent. -/
theorem C11_veto_runs_no_handler_witness :
    vetoes no_sleep_mode .ACTION_SLEEP { calm with user_action_counter := 8 } ∧
    (handle_action no_sleep_mode calm).trace =
      [.resolve (.call .get_player_input), .resolve (.call .clear_destination),
       .pre_action .ACTION_SLEEP, .post_action .ACTION_NULL] ∧
    (handle_action no_sleep_mode calm).w.moves = 100 :=
  have hv : vetoes no_sleep_mode .ACTION_SLEEP { calm with user_action_counter := 8 } := by
    rfl
  have hc := C11_veto_runs_no_handler no_sleep_mode calm .ACTION_SLEEP false tripoint_min
    ⟨{ calm with user_action_counter := 8 },
      [.call .get_player_input, .call .clear_destination]⟩ (by rfl) hv
  ⟨hv, hc.2.1, (hc.2.2.2.2 (fun _ => rfl)).1⟩

/-! ## C12 -/

/-- C12, refuted as stated: "`u.movecounter` equals [`u.moves` before
dispatch] minus `u.moves` after the post-action hook .. for every entity
state including one that died during the call".  On the minefield the step
north costs the 100 moves the player had and kills: the call reaches the
post-action hook with 0 moves left, and records 0, not 100 (line 1053). -/
theorem C12_dead_player_records_zero :
    Step.post_action .ACTION_MOVE_N ∈
      (handle_action costly_minefield { calm with rest := 9 }).trace ∧
    (costly_minefield.eff (.pre_action .ACTION_MOVE_N)
      { calm with rest := 9, user_action_counter := 8 }).moves = 100 ∧
    (handle_action costly_minefield { calm with rest := 9 }).w.moves = 0 ∧
    (handle_action costly_minefield { calm with rest := 9 }).w.movecounter = 0 ∧
    (handle_action costly_minefield { calm with rest := 9 }).w.movecounter ≠ 100 - 0 := by
  have ht : (handle_action costly_minefield { calm with rest := 9 }).trace =
      [.resolve (.call .get_player_input), .resolve (.call .clear_destination),
       .pre_action .ACTION_MOVE_N, .handler (.call (.plmove 0 (-1))),
       .post_action .ACTION_MOVE_N] := by rfl
  refine ⟨by rw [ht]; simp, by decide, by decide, by decide, by decide⟩

/-- C12, amended: for every call that reaches the post-action hook (the
switches are left by `break`), `u.moves` after the call is `u.moves` as the
post-action hook left it, and `u.movecounter` is `u.moves` sampled after the
pre-action hook minus `u.moves` after the post-action hook if the player is
alive after the post-action hook, and 0 if the player is dead then.  The
subtraction is that of `int`: it is the exact difference whenever the exact
difference is an `int`, and the exact difference wrapped around otherwise. -/
theorem C12_movecounter (e : Ext) (w : World) (act0 : action_id) (veh_ctrl : Bool)
    (mouse_target : tripoint) (s : St) (c : Bool) (h : St)
    (hres : resolve e w = .go act0 veh_ctrl mouse_target s)
    (hd : dispatch e (e.retA (.pre_action act0) s.w) veh_ctrl mouse_target
      (e.eff (.pre_action act0) s.w) = .next c h) :
    Step.post_action (e.retA (.pre_action act0) s.w) ∈ (handle_action e w).trace ∧
    (handle_action e w).w.moves =
      (e.eff (.post_action (e.retA (.pre_action act0) s.w))
        (if c then h.w else e.eff .clear_destination h.w)).moves ∧
    (e.q .is_dead_state (e.eff (.post_action (e.retA (.pre_action act0) s.w))
        (if c then h.w else e.eff .clear_destination h.w)) = false →
      (handle_action e w).w.movecounter =
        wrap_int ((e.eff (.pre_action act0) s.w).moves - (handle_action e w).w.moves) ∧
      (int_range ((e.eff (.pre_action act0) s.w).moves - (handle_action e w).w.moves) →
        (handle_action e w).w.movecounter =
          (e.eff (.pre_action act0) s.w).moves - (handle_action e w).w.moves)) ∧
    (e.q .is_dead_state (e.eff (.post_action (e.retA (.pre_action act0) s.w))
        (if c then h.w else e.eff .clear_destination h.w)) = true →
      (handle_action e w).w.movecounter = 0) := by
  have hmain : handle_action e w =
      finish e (e.retA (.pre_action act0) s.w) (e.eff (.pre_action act0) s.w).moves c
        (s.tr.map Step.resolve ++ [Step.pre_action act0] ++ h.tr.map Step.handler) h.w := by
    rw [handle_action_go e w hres]
    simp only [run_action, hd]
  rw [hmain]
  have hw : ∀ w' : World, e.q .is_dead_state w' = false →
      (finish e (e.retA (.pre_action act0) s.w) (e.eff (.pre_action act0) s.w).moves c
        (s.tr.map Step.resolve ++ [Step.pre_action act0] ++ h.tr.map Step.handler) h.w).w.moves
        = w'.moves →
      (if e.q .is_dead_state w' = false
        then wrap_int ((e.eff (.pre_action act0) s.w).moves - w'.moves) else 0) =
        wrap_int ((e.eff (.pre_action act0) s.w).moves -
          (finish e (e.retA (.pre_action act0) s.w) (e.eff (.pre_action act0) s.w).moves c
            (s.tr.map Step.resolve ++ [Step.pre_action act0] ++ h.tr.map Step.handler)
            h.w).w.moves) := by
    intro w' ha hm
    rw [if_pos ha, hm]
  have hmc : e.q .is_dead_state (e.eff (.post_action (e.retA (.pre_action act0) s.w))
        (if c then h.w else e.eff .clear_destination h.w)) = false →
      (finish e (e.retA (.pre_action act0) s.w) (e.eff (.pre_action act0) s.w).moves c
        (s.tr.map Step.resolve ++ [Step.pre_action act0] ++ h.tr.map Step.handler)
        h.w).w.movecounter =
      wrap_int ((e.eff (.pre_action act0) s.w).moves -
        (finish e (e.retA (.pre_action act0) s.w) (e.eff (.pre_action act0) s.w).moves c
          (s.tr.map Step.resolve ++ [Step.pre_action act0] ++ h.tr.map Step.handler)
          h.w).w.moves) := by
    intro ha
    cases c
    · exact hw _ ha rfl
    · exact hw _ ha rfl
  refine ⟨by simp [finish], by cases c <;> simp [finish], fun ha => ⟨hmc ha, fun hr => ?_⟩,
    fun hdead => ?_⟩
  · rw [hmc ha, wrap_int_of_range hr]
  · cases c <;> simp_all [finish]

/-- C12, the amended statement at a concrete call: the player walks a step
that costs 100 moves and lives; the call records 100. -/
theorem C12_movecounter_witness :
    (handle_action walker calm).w.moves = 0 ∧
    (handle_action walker calm).w.movecounter = 100 :=
  have hc := C12_movecounter walker calm .ACTION_MOVE_N false tripoint_min
    ⟨{ calm with user_action_counter := 8 },
      [.call .get_player_input, .call .clear_destination]⟩ true
    ⟨{ calm with user_action_counter := 8, moves := 0 }, [.call (.plmove 0 (-1))]⟩
    (by rfl) (by rfl)
  ⟨by decide, ((hc.2.2.1 (by decide)).2 (by decide)).trans (by decide)⟩

/-! ## C13 -/

/-- The alive-only switch has no arm for an action of the allow-list. -/
theorem alive_switch_of_allowed (e : Ext) (act : action_id) (veh_ctrl : Bool)
    (mouse_target : tripoint) (s : St) (h : act ∈ deathcam_allowed) :
    alive_switch e act veh_ctrl mouse_target s = .next true s := by
  simp only [deathcam_allowed, List.mem_cons, List.mem_singleton, List.not_mem_nil,
    or_false] at h
  rcases h with rfl | rfl | rfl | rfl | rfl | rfl | rfl | rfl | rfl | rfl <;> rfl

/-- The switches for a dead player: only the allow-list switch can run, and
only while the death camera is active (`uquit == QUIT_WATCH`). -/
theorem dispatch_dead (e : Ext) (act : action_id) (veh_ctrl : Bool) (mouse_target : tripoint)
    (w : World) (hdead : e.q .is_dead_state w = true) :
    dispatch e act veh_ctrl mouse_target w =
      .next true
        (if w.uquit = .QUIT_WATCH
          then deathcam_switch e act (e.MOVE_VIEW_OFFSET w)
            (wrap_int (0 - e.MOVE_VIEW_OFFSET w)) ⟨w, []⟩
          else ⟨w, []⟩) := by
  by_cases hal : act ∈ deathcam_allowed
  · simp only [dispatch, hdead, Bool.true_eq_false, or_false,
      alive_switch_of_allowed e act veh_ctrl mouse_target _ hal, ite_self]
  · simp only [dispatch, hdead, Bool.true_eq_false, or_false,
      deathcam_switch_default e act _ _ _ hal, ite_self, if_false]

/-- The arm of each view-shift action adds the delta of its direction, times
the step, to the view offset, as `int`s, and does nothing else. -/
theorem deathcam_switch_shift (e : Ext) (move shift : action_id) (dx dy step : Int) (s : St)
    (h : (move, shift, dx, dy) ∈ compass) :
    deathcam_switch e shift step (wrap_int (0 - step)) s =
      ⟨shift_view dx dy step s.w, s.tr⟩ := by
  simp only [compass, List.mem_cons, List.mem_singleton, List.not_mem_nil, or_false,
    Prod.mk.injEq] at h
  rcases h with ⟨-, rfl, rfl, rfl⟩ | ⟨-, rfl, rfl, rfl⟩ | ⟨-, rfl, rfl, rfl⟩ |
    ⟨-, rfl, rfl, rfl⟩ | ⟨-, rfl, rfl, rfl⟩ | ⟨-, rfl, rfl, rfl⟩ | ⟨-, rfl, rfl, rfl⟩ |
    ⟨-, rfl, rfl, rfl⟩ <;>
  · change St.mk _ _ = _
    simp [shift_view, shift_axis, wrap_int_add_wrap]

/-- C13, refuted as stated: "[for a call made while the entity is dead] every
allow-listed action is still carried out (view offset shifted ..)".  A dead
player without the death camera (`uquit` is not `QUIT_WATCH`) presses the key
that shifts the view north: the allow-list switch is skipped (line 187) and
the view offset stays what it was.  (And "no menu" holds of the switches
only: the main menu of input resolution, line 93, opens for a dead player
too.) -/
theorem C13_dead_without_deathcam_shifts_nothing :
    (corpse "shift_n").q .is_dead_state calm = true ∧
    calm.uquit = .QUIT_NO ∧
    (handle_action (corpse "shift_n") calm).trace =
      [.resolve (.call .get_player_input), .resolve (.call .clear_destination),
       .pre_action .ACTION_SHIFT_N, .post_action .ACTION_SHIFT_N] ∧
    (corpse "shift_n").MOVE_VIEW_OFFSET calm = 1 ∧
    calm.view_offset_y = 0 ∧
    (handle_action (corpse "shift_n") calm).w.view_offset_y = 0 ∧
    (handle_action (corpse "main_menu") calm).trace =
      [.resolve (.call .get_player_input), .resolve (.call .clear_destination),
       .resolve (.call .handle_main_menu)] := by
  refine ⟨by decide, by decide, by rfl, by decide, by decide, by decide, by rfl⟩

/-- C13, amended: for every call in which the player is dead when the
switches are reached, an action outside the allow-list invokes no handler of
the switches, which leave the world as it is; an action of the allow-list is carried
out (the view offset is shifted, or `look_around` invoked) if the death
camera is active (`uquit == QUIT_WATCH`), and is skipped like the others if
it is not. -/
theorem C13_dead_player_allow_list (e : Ext) (w : World) (act0 act : action_id)
    (veh_ctrl : Bool) (mouse_target : tripoint) (s : St)
    (hres : resolve e w = .go act0 veh_ctrl mouse_target s)
    (hpre : e.retA (.pre_action act0) s.w = act)
    (hdead : e.q .is_dead_state (e.eff (.pre_action act0) s.w) = true) :
    (act ∉ deathcam_allowed →
      handler_events (handle_action e w).trace = [] ∧
      dispatch e act veh_ctrl mouse_target (e.eff (.pre_action act0) s.w) =
        .next true ⟨e.eff (.pre_action act0) s.w, []⟩) ∧
    (act ∈ deathcam_allowed → (e.eff (.pre_action act0) s.w).uquit = .QUIT_WATCH →
      dispatch e act veh_ctrl mouse_target (e.eff (.pre_action act0) s.w) =
        .next true (deathcam_switch e act (e.MOVE_VIEW_OFFSET (e.eff (.pre_action act0) s.w))
          (wrap_int (0 - e.MOVE_VIEW_OFFSET (e.eff (.pre_action act0) s.w)))
          ⟨e.eff (.pre_action act0) s.w, []⟩) ∧
      (act = .ACTION_LOOK →
        handler_events (handle_action e w).trace = [.call .look_around]) ∧
      (∀ move dx dy, (move, act, dx, dy) ∈ compass →
        (dispatch e act veh_ctrl mouse_target (e.eff (.pre_action act0) s.w)).st.w =
          shift_view dx dy (e.MOVE_VIEW_OFFSET (e.eff (.pre_action act0) s.w))
            (e.eff (.pre_action act0) s.w))) ∧
    (act ∈ deathcam_allowed → (e.eff (.pre_action act0) s.w).uquit ≠ .QUIT_WATCH →
      handler_events (handle_action e w).trace = [] ∧
      dispatch e act veh_ctrl mouse_target (e.eff (.pre_action act0) s.w) =
        .next true ⟨e.eff (.pre_action act0) s.w, []⟩) := by
  have hd := dispatch_dead e act veh_ctrl mouse_target _ hdead
  have hev : handler_events (handle_action e w).trace =
      (dispatch e act veh_ctrl mouse_target (e.eff (.pre_action act0) s.w)).st.tr := by
    rw [handle_action_go e w hres, run_action_handler_events, hpre]
  refine ⟨fun hal => ?_, fun hal hq => ?_, fun hal hq => ?_⟩
  · have hd' : dispatch e act veh_ctrl mouse_target (e.eff (.pre_action act0) s.w) =
        .next true ⟨e.eff (.pre_action act0) s.w, []⟩ := by
      rw [hd, deathcam_switch_default e act _ _ _ hal, ite_self]
    exact ⟨by rw [hev, hd']; rfl, hd'⟩
  · rw [if_pos hq] at hd
    refine ⟨hd, fun ha => ?_, fun move dx dy hc => ?_⟩
    · subst ha
      rw [hev, hd]
      rfl
    · rw [hd, deathcam_switch_shift e move act dx dy _ _ hc]
      rfl
  · rw [if_neg hq] at hd
    exact ⟨by rw [hev, hd]; rfl, hd⟩

/-- C13, the amended statement at a concrete call: a dead player watching
through the death camera presses the key that shifts the view north, and the
view is shifted. -/
theorem C13_dead_player_allow_list_witness :
    (corpse "shift_n").q .is_dead_state { calm with uquit := .QUIT_WATCH } = true ∧
    (dispatch (corpse "shift_n") .ACTION_SHIFT_N false tripoint_min
      { calm with uquit := .QUIT_WATCH }).st.w =
        { calm with uquit := .QUIT_WATCH, view_offset_y := -1 } :=
  ⟨by decide,
    (((C13_dead_player_allow_list (corpse "shift_n") { calm with uquit := .QUIT_WATCH }
      .ACTION_SHIFT_N .ACTION_SHIFT_N false tripoint_min
      ⟨{ calm with uquit := .QUIT_WATCH }, [.call .get_player_input, .call .clear_destination]⟩
      (by rfl) (by rfl) (by decide)).2.1 (by decide) (by rfl)).2.2
      .ACTION_MOVE_N 0 (-1) (by simp [compass])).trans (by decide)⟩

/-! ## C14 -/

/-- A call that reaches the switches and leaves them by `break`. -/
theorem handle_action_finish (e : Ext) (w : World) {act0 act : action_id} {veh_ctrl : Bool}
    {mouse_target : tripoint} {s : St} {c : Bool} {h : St}
    (hres : resolve e w = .go act0 veh_ctrl mouse_target s)
    (hpre : e.retA (.pre_action act0) s.w = act)
    (hd : dispatch e act veh_ctrl mouse_target (e.eff (.pre_action act0) s.w) = .next c h) :
    handle_action e w =
      finish e act (e.eff (.pre_action act0) s.w).moves c
        (s.tr.map Step.resolve ++ [Step.pre_action act0] ++ h.tr.map Step.handler) h.w := by
  rw [handle_action_go e w hres]
  simp only [run_action, hpre, hd]

/-- The safe-mode state after a call that leaves the switches by `break`,
when the post-action hook does not touch it. -/
theorem finish_safe_mode (e : Ext) (act : action_id) (b : Int) (tr : List Step) (w : World)
    (hpost : ∀ w', (e.eff (.post_action act) w').safe_mode = w'.safe_mode) :
    (finish e act b true tr w).w.safe_mode = w.safe_mode := by
  simp [finish, hpost]

/-- C14, refuted as stated: "[with safe mode STOP, `ACTION_WHITELIST_ENEMY`
persists a rule and sets safe mode ON] for every state of the safe-mode rule
set (including an empty one)".  With an empty rule set the arm shows the
safe-mode manager instead (lines 872, 878): no rule is added and safe mode is
still STOP after the call. -/
theorem C14_empty_rule_set_whitelists_nothing :
    alarmed.safe_mode = .SAFE_MODE_STOP ∧
    (safe_mode_session "whitelist_enemy" true).q .safemode_empty alarmed = true ∧
    (safe_mode_session "whitelist_enemy" true).q .is_dead_state alarmed = false ∧
    (handle_action (safe_mode_session "whitelist_enemy" true) alarmed).trace =
      [.resolve (.call .get_player_input), .resolve (.call .clear_destination),
       .pre_action .ACTION_WHITELIST_ENEMY, .handler (.call .safemode_show),
       .post_action .ACTION_WHITELIST_ENEMY] ∧
    (handle_action (safe_mode_session "whitelist_enemy" true) alarmed).w.safe_mode =
      .SAFE_MODE_STOP := by
  refine ⟨by decide, by decide, by decide, by rfl, by decide⟩

/-- C14, amended: whenever safe mode is STOP, the safe-mode rule set is not
empty and a living player dispatches `ACTION_WHITELIST_ENEMY`, the arm adds
the whitelist rule (`add_rule`), emits "Creature whitelisted", calls
`set_safe_mode( SAFE_MODE_ON )` and resets `mostseen`; so, `set_safe_mode`
assigning the mode, safe mode is ON after the switches, and after the call
when the post-action hook does not touch it.  With an empty rule set the arm
only shows the safe-mode manager. -/
theorem C14_whitelist_enemy (e : Ext) (w : World) (act0 : action_id) (veh_ctrl : Bool)
    (mouse_target : tripoint) (s : St)
    (hres : resolve e w = .go act0 veh_ctrl mouse_target s)
    (hpre : e.retA (.pre_action act0) s.w = .ACTION_WHITELIST_ENEMY)
    (halive : e.q .is_dead_state (e.eff (.pre_action act0) s.w) = false)
    (hstop : (e.eff (.pre_action act0) s.w).safe_mode = .SAFE_MODE_STOP) :
    (e.q .safemode_empty (e.eff (.pre_action act0) s.w) = false →
      dispatch e .ACTION_WHITELIST_ENEMY veh_ctrl mouse_target (e.eff (.pre_action act0) s.w) =
        .next true
          ⟨{ e.eff (.set_safe_mode .SAFE_MODE_ON)
                (e.eff .safemode_add_rule (e.eff (.pre_action act0) s.w)) with mostseen := 0 },
           [.call .safemode_add_rule, .msg "Creature whitelisted: %s",
            .call (.set_safe_mode .SAFE_MODE_ON)]⟩ ∧
      handler_events (handle_action e w).trace =
        [.call .safemode_add_rule, .msg "Creature whitelisted: %s",
         .call (.set_safe_mode .SAFE_MODE_ON)] ∧
      (sets_safe_mode e →
        (dispatch e .ACTION_WHITELIST_ENEMY veh_ctrl mouse_target
          (e.eff (.pre_action act0) s.w)).st.w.safe_mode = .SAFE_MODE_ON ∧
        ((∀ w', (e.eff (.post_action .ACTION_WHITELIST_ENEMY) w').safe_mode = w'.safe_mode) →
          (handle_action e w).w.safe_mode = .SAFE_MODE_ON))) ∧
    (e.q .safemode_empty (e.eff (.pre_action act0) s.w) = true →
      handler_events (handle_action e w).trace = [.call .safemode_show] ∧
      dispatch e .ACTION_WHITELIST_ENEMY veh_ctrl mouse_target (e.eff (.pre_action act0) s.w) =
        .next true ⟨e.eff .safemode_show (e.eff (.pre_action act0) s.w),
          [.call .safemode_show]⟩) := by
  have hd : dispatch e .ACTION_WHITELIST_ENEMY veh_ctrl mouse_target
      (e.eff (.pre_action act0) s.w) =
      .next true (whitelist_enemy_arm e ⟨e.eff (.pre_action act0) s.w, []⟩) := by
    rw [dispatch_alive e _ veh_ctrl mouse_target _ halive (by decide)]
    rfl
  have hev : handler_events (handle_action e w).trace =
      (whitelist_enemy_arm e ⟨e.eff (.pre_action act0) s.w, []⟩).tr := by
    rw [handle_action_go e w hres, run_action_handler_events, hpre, hd]
    rfl
  refine ⟨fun hne => ?_, fun hem => ?_⟩
  · have harm : whitelist_enemy_arm e ⟨e.eff (.pre_action act0) s.w, []⟩ =
        ⟨{ e.eff (.set_safe_mode .SAFE_MODE_ON)
              (e.eff .safemode_add_rule (e.eff (.pre_action act0) s.w)) with mostseen := 0 },
         [.call .safemode_add_rule, .msg "Creature whitelisted: %s",
          .call (.set_safe_mode .SAFE_MODE_ON)]⟩ := by
      simp [whitelist_enemy_arm, hstop, hne, call, msg, St.modify]
    rw [harm] at hd hev
    refine ⟨hd, hev, fun hset => ?_⟩
    have hon : (dispatch e .ACTION_WHITELIST_ENEMY veh_ctrl mouse_target
        (e.eff (.pre_action act0) s.w)).st.w.safe_mode = .SAFE_MODE_ON := by
      rw [hd]
      obtain ⟨b, hb⟩ := hset .SAFE_MODE_ON
        (e.eff .safemode_add_rule (e.eff (.pre_action act0) s.w))
      simp [Outcome.st, hb]
    refine ⟨hon, fun hpost => ?_⟩
    rw [handle_action_finish e w hres hpre hd, finish_safe_mode e _ _ _ _ hpost]
    rw [hd] at hon
    exact hon
  · have harm : whitelist_enemy_arm e ⟨e.eff (.pre_action act0) s.w, []⟩ =
        ⟨e.eff .safemode_show (e.eff (.pre_action act0) s.w), [.call .safemode_show]⟩ := by
      simp [whitelist_enemy_arm, hem, call]
    rw [harm] at hd hev
    exact ⟨hev, hd⟩

/-- C14, the amended statement at a concrete call: with a rule set that is
not empty the monster is whitelisted and safe mode is ON after the call. -/
theorem C14_whitelist_enemy_witness :
    (handle_action (safe_mode_session "whitelist_enemy" false) alarmed).trace =
      [.resolve (.call .get_player_input), .resolve (.call .clear_destination),
       .pre_action .ACTION_WHITELIST_ENEMY,
       .handler (.call .safemode_add_rule), .handler (.msg "Creature whitelisted: %s"),
       .handler (.call (.set_safe_mode .SAFE_MODE_ON)),
       .post_action .ACTION_WHITELIST_ENEMY] ∧
    (handle_action (safe_mode_session "whitelist_enemy" false) alarmed).w.safe_mode =
      .SAFE_MODE_ON :=
  ⟨by rfl,
    (((C14_whitelist_enemy (safe_mode_session "whitelist_enemy" false) alarmed
      .ACTION_WHITELIST_ENEMY false tripoint_min
      ⟨{ alarmed with user_action_counter := 8 },
        [.call .get_player_input, .call .clear_destination]⟩
      (by rfl) (by rfl) (by decide) (by decide)).1 (by decide)).2.2
      (fun m w => ⟨false, by cases m <;> rfl⟩)).2 (fun _ => rfl)⟩

/-! ## C15 -/

/-- C15, refuted as stated: "[with safe mode STOP, `ACTION_IGNORE_ENEMY`
clears the lock:] the laser-locked effect is removed .. in that same call".
A laser-locked player stopped by safe mode presses the key: the monsters are
ignored and safe mode is ON again, but `remove_effect` is not called and the
player is still laser-locked after the call (the removal is the `else if`
branch, lines 857, 864). -/
theorem C15_stop_branch_keeps_laser_lock :
    ({ alarmed with rest := 1 } : World).safe_mode = .SAFE_MODE_STOP ∧
    (safe_mode_session "ignore_enemy" false).q .has_effect_laserlocked
      { alarmed with rest := 1 } = true ∧
    (handle_action (safe_mode_session "ignore_enemy" false) { alarmed with rest := 1 }).trace =
      [.resolve (.call .get_player_input), .resolve (.call .clear_destination),
       .pre_action .ACTION_IGNORE_ENEMY,
       .handler (.msg "Ignoring enemy!"), .handler (.call (.set_safe_mode .SAFE_MODE_ON)),
       .post_action .ACTION_IGNORE_ENEMY] ∧
    (handle_action (safe_mode_session "ignore_enemy" false)
      { alarmed with rest := 1 }).w.safe_mode = .SAFE_MODE_ON ∧
    (safe_mode_session "ignore_enemy" false).q .has_effect_laserlocked
      (handle_action (safe_mode_session "ignore_enemy" false) { alarmed with rest := 1 }).w =
        true := by
  refine ⟨by decide, by decide, by rfl, by decide, by decide⟩

/-- C15, amended: whenever safe mode is STOP and a living player dispatches
`ACTION_IGNORE_ENEMY`, the arm emits "Ignoring enemy!", sets the ignoring
distance of every monster in `new_seen_mon` to its distance from the player
and calls `set_safe_mode( SAFE_MODE_ON )`, and nothing else: the laser-locked
effect is not removed in that call.  When safe mode is not STOP the arm does
not call `set_safe_mode`: if the player is laser-locked it removes that
effect and resets `safe_mode_warning_logged`, else it does nothing; safe mode
is then unchanged, `remove_effect` leaving it alone. -/
theorem C15_ignore_enemy (e : Ext) (w : World) (act0 : action_id) (veh_ctrl : Bool)
    (mouse_target : tripoint) (s : St)
    (hres : resolve e w = .go act0 veh_ctrl mouse_target s)
    (hpre : e.retA (.pre_action act0) s.w = .ACTION_IGNORE_ENEMY)
    (halive : e.q .is_dead_state (e.eff (.pre_action act0) s.w) = false) :
    handler_events (handle_action e w).trace =
      (dispatch e .ACTION_IGNORE_ENEMY veh_ctrl mouse_target
        (e.eff (.pre_action act0) s.w)).st.tr ∧
    ((e.eff (.pre_action act0) s.w).safe_mode = .SAFE_MODE_STOP →
      dispatch e .ACTION_IGNORE_ENEMY veh_ctrl mouse_target (e.eff (.pre_action act0) s.w) =
        .next true
          ⟨e.eff (.set_safe_mode .SAFE_MODE_ON)
            { e.eff (.pre_action act0) s.w with
              new_seen_mon := (e.eff (.pre_action act0) s.w).new_seen_mon.map fun critter =>
                { critter with
                  ignoring := e.rl_dist (e.pos (e.eff (.pre_action act0) s.w)) critter.pos } },
           [.msg "Ignoring enemy!", .call (.set_safe_mode .SAFE_MODE_ON)]⟩ ∧
      (sets_safe_mode e →
        (dispatch e .ACTION_IGNORE_ENEMY veh_ctrl mouse_target
          (e.eff (.pre_action act0) s.w)).st.w.safe_mode = .SAFE_MODE_ON ∧
        (dispatch e .ACTION_IGNORE_ENEMY veh_ctrl mouse_target
          (e.eff (.pre_action act0) s.w)).st.w.new_seen_mon =
            (e.eff (.pre_action act0) s.w).new_seen_mon.map fun critter =>
              { critter with
                ignoring := e.rl_dist (e.pos (e.eff (.pre_action act0) s.w)) critter.pos })) ∧
    ((e.eff (.pre_action act0) s.w).safe_mode ≠ .SAFE_MODE_STOP →
      e.q .has_effect_laserlocked (e.eff (.pre_action act0) s.w) = true →
      dispatch e .ACTION_IGNORE_ENEMY veh_ctrl mouse_target (e.eff (.pre_action act0) s.w) =
        .next true
          ⟨{ e.eff .remove_effect_laserlocked (e.eff (.pre_action act0) s.w) with
              safe_mode_warning_logged := false },
           [.msg "Ignoring laser targeting!", .call .remove_effect_laserlocked]⟩ ∧
      (remove_effect_keeps_fields e →
        (dispatch e .ACTION_IGNORE_ENEMY veh_ctrl mouse_target
          (e.eff (.pre_action act0) s.w)).st.w.safe_mode =
            (e.eff (.pre_action act0) s.w).safe_mode)) ∧
    ((e.eff (.pre_action act0) s.w).safe_mode ≠ .SAFE_MODE_STOP →
      e.q .has_effect_laserlocked (e.eff (.pre_action act0) s.w) = false →
      dispatch e .ACTION_IGNORE_ENEMY veh_ctrl mouse_target (e.eff (.pre_action act0) s.w) =
        .next true ⟨e.eff (.pre_action act0) s.w, []⟩) := by
  have hd : dispatch e .ACTION_IGNORE_ENEMY veh_ctrl mouse_target
      (e.eff (.pre_action act0) s.w) =
      .next true (ignore_enemy_arm e ⟨e.eff (.pre_action act0) s.w, []⟩) := by
    rw [dispatch_alive e _ veh_ctrl mouse_target _ halive (by decide)]
    rfl
  refine ⟨?_, fun hstop => ?_, fun hns hl => ?_, fun hns hl => ?_⟩
  · rw [handle_action_go e w hres, run_action_handler_events, hpre]
  · have harm : ignore_enemy_arm e ⟨e.eff (.pre_action act0) s.w, []⟩ =
        ⟨e.eff (.set_safe_mode .SAFE_MODE_ON)
          { e.eff (.pre_action act0) s.w with
            new_seen_mon := (e.eff (.pre_action act0) s.w).new_seen_mon.map fun critter =>
              { critter with
                ignoring := e.rl_dist (e.pos (e.eff (.pre_action act0) s.w)) critter.pos } },
         [.msg "Ignoring enemy!", .call (.set_safe_mode .SAFE_MODE_ON)]⟩ := by
      simp [ignore_enemy_arm, hstop, call, msg, St.modify]
    rw [harm] at hd
    refine ⟨hd, fun hset => ?_⟩
    rw [hd]
    obtain ⟨b, hb⟩ := hset .SAFE_MODE_ON
      { e.eff (.pre_action act0) s.w with
        new_seen_mon := (e.eff (.pre_action act0) s.w).new_seen_mon.map fun critter =>
          { critter with
            ignoring := e.rl_dist (e.pos (e.eff (.pre_action act0) s.w)) critter.pos } }
    simp only [Outcome.st, hb]
    exact ⟨trivial, trivial⟩
  · have harm : ignore_enemy_arm e ⟨e.eff (.pre_action act0) s.w, []⟩ =
        ⟨{ e.eff .remove_effect_laserlocked (e.eff (.pre_action act0) s.w) with
            safe_mode_warning_logged := false },
         [.msg "Ignoring laser targeting!", .call .remove_effect_laserlocked]⟩ := by
      simp [ignore_enemy_arm, hns, hl, call, msg, St.modify]
    rw [harm] at hd
    refine ⟨hd, fun hrem => ?_⟩
    rw [hd]
    obtain ⟨r, hr⟩ := hrem (e.eff (.pre_action act0) s.w)
    simp only [Outcome.st, hr]
  · have harm : ignore_enemy_arm e ⟨e.eff (.pre_action act0) s.w, []⟩ =
        ⟨e.eff (.pre_action act0) s.w, []⟩ := by
      simp [ignore_enemy_arm, hns, hl]
    rw [harm] at hd
    exact hd

/-- C15, the amended statement at a concrete call: the player stopped for a
monster three tiles east and four south ignores it; safe mode is ON, the
monster is ignored at distance 4, and `remove_effect` was not called. -/
theorem C15_ignore_enemy_witness :
    (dispatch (safe_mode_session "ignore_enemy" false) .ACTION_IGNORE_ENEMY false tripoint_min
      { alarmed with user_action_counter := 8 }).st.w.safe_mode = .SAFE_MODE_ON ∧
    (dispatch (safe_mode_session "ignore_enemy" false) .ACTION_IGNORE_ENEMY false tripoint_min
      { alarmed with user_action_counter := 8 }).st.w.new_seen_mon = [⟨⟨3, 4, 0⟩, 4⟩] :=
  have hc := ((C15_ignore_enemy (safe_mode_session "ignore_enemy" false) alarmed
      .ACTION_IGNORE_ENEMY false tripoint_min
      ⟨{ alarmed with user_action_counter := 8 },
        [.call .get_player_input, .call .clear_destination]⟩
      (by rfl) (by rfl) (by decide)).2.1 (by decide)).2
      (fun m w => ⟨false, by cases m <;> rfl⟩)
  ⟨hc.1, hc.2.trans (by decide)⟩

/-! ## C16 -/

/-- What the `ACTION_TOGGLE_SAFEMODE` arm leaves in the three safe-mode
fields, `set_safe_mode` and `remove_effect` keeping their contracts. -/
theorem toggle_safemode_arm_fields (e : Ext) (hset : sets_safe_mode e)
    (hrem : remove_effect_keeps_fields e) (s : St) :
    (toggle_safemode_arm e s).w.safe_mode =
      (if s.w.safe_mode = .SAFE_MODE_OFF then .SAFE_MODE_ON else .SAFE_MODE_OFF) ∧
    (toggle_safemode_arm e s).w.mostseen =
      (if s.w.safe_mode = .SAFE_MODE_OFF then 0 else s.w.mostseen) ∧
    (toggle_safemode_arm e s).w.turnssincelastmon =
      (if s.w.safe_mode = .SAFE_MODE_OFF then s.w.turnssincelastmon else 0) := by
  have h1 : ∀ m w', (e.eff (.set_safe_mode m) w').safe_mode = m := fun m w' => by
    obtain ⟨b, hb⟩ := hset m w'
    rw [hb]
  have h2 : ∀ m w', (e.eff (.set_safe_mode m) w').mostseen = w'.mostseen := fun m w' => by
    obtain ⟨b, hb⟩ := hset m w'
    rw [hb]
  have h3 : ∀ m w', (e.eff (.set_safe_mode m) w').turnssincelastmon = w'.turnssincelastmon :=
    fun m w' => by
      obtain ⟨b, hb⟩ := hset m w'
      rw [hb]
  have h4 : ∀ w', (e.eff .remove_effect_laserlocked w').safe_mode = w'.safe_mode :=
    fun w' => by
      obtain ⟨r, hr⟩ := hrem w'
      rw [hr]
  have h5 : ∀ w', (e.eff .remove_effect_laserlocked w').mostseen = w'.mostseen :=
    fun w' => by
      obtain ⟨r, hr⟩ := hrem w'
      rw [hr]
  have h6 : ∀ w', (e.eff .remove_effect_laserlocked w').turnssincelastmon =
      w'.turnssincelastmon := fun w' => by
    obtain ⟨r, hr⟩ := hrem w'
    rw [hr]
  unfold toggle_safemode_arm
  by_cases hoff : s.w.safe_mode = .SAFE_MODE_OFF
  · simp only [hoff, if_true]
    split_ifs <;> simp [call_w, msg_w, modify_w, h1, h2, h3, h4, h5, h6]
  · simp only [hoff, if_false]
    split_ifs <;> simp [call_w, msg_w, modify_w, h1, h2, h3, h4, h5, h6]

/-- C16: `ACTION_TOGGLE_SAFEMODE` dispatched for a living player runs the
toggle arm, which maps safe mode OFF to ON (resetting `mostseen` to 0) and
both ON and STOP to OFF (resetting `turnssincelastmon` to 0); so toggling
twice from OFF or from ON gives the starting safe-mode state again, toggling
from STOP leaves STOP, and the result of a toggle is never STOP.  Assumed of
the collaborators: `set_safe_mode` assigns the mode and `remove_effect` does
not touch the safe-mode fields. -/
theorem C16_toggle_safemode (e : Ext) (hset : sets_safe_mode e)
    (hrem : remove_effect_keeps_fields e) (s : St) :
    (∀ veh_ctrl mouse_target w, e.q .is_dead_state w = false →
      dispatch e .ACTION_TOGGLE_SAFEMODE veh_ctrl mouse_target w =
        .next true (toggle_safemode_arm e ⟨w, []⟩)) ∧
    (s.w.safe_mode = .SAFE_MODE_OFF →
      (toggle_safemode_arm e s).w.safe_mode = .SAFE_MODE_ON ∧
      (toggle_safemode_arm e s).w.mostseen = 0) ∧
    (s.w.safe_mode = .SAFE_MODE_ON ∨ s.w.safe_mode = .SAFE_MODE_STOP →
      (toggle_safemode_arm e s).w.safe_mode = .SAFE_MODE_OFF ∧
      (toggle_safemode_arm e s).w.turnssincelastmon = 0) ∧
    (s.w.safe_mode ≠ .SAFE_MODE_STOP →
      (toggle_safemode_arm e (toggle_safemode_arm e s)).w.safe_mode = s.w.safe_mode) ∧
    (toggle_safemode_arm e s).w.safe_mode ≠ .SAFE_MODE_STOP := by
  obtain ⟨h1, h2, h3⟩ := toggle_safemode_arm_fields e hset hrem s
  obtain ⟨k1, -, -⟩ := toggle_safemode_arm_fields e hset hrem (toggle_safemode_arm e s)
  refine ⟨fun veh_ctrl mouse_target w halive => ?_, fun hoff => ?_, fun hon => ?_, fun hns => ?_,
    ?_⟩
  · rw [dispatch_alive e _ veh_ctrl mouse_target w halive (by decide)]
    rfl
  · rw [h1, h2, if_pos hoff, if_pos hoff]
    exact ⟨rfl, rfl⟩
  · have hne : s.w.safe_mode ≠ .SAFE_MODE_OFF := by
      rcases hon with h | h <;> rw [h] <;> decide
    rw [h1, h3, if_neg hne, if_neg hne]
    exact ⟨rfl, rfl⟩
  · rw [k1, h1]
    cases hm : s.w.safe_mode
    · simp
    · simp
    · exact absurd hm hns
  · rw [h1]
    split_ifs <;> decide

/-- C16 at concrete inputs: in the safe-mode session the toggle takes safe
mode from STOP to OFF, and the player who presses the toggle key with safe
mode ON has it OFF after the call. -/
theorem C16_toggle_safemode_witness :
    (toggle_safemode_arm (safe_mode_session "safemode" false) ⟨alarmed, []⟩).w.safe_mode =
      .SAFE_MODE_OFF ∧
    (toggle_safemode_arm (safe_mode_session "safemode" false) ⟨alarmed, []⟩).w.turnssincelastmon
      = 0 ∧
    (handle_action (safe_mode_session "safemode" false) calm).w.safe_mode = .SAFE_MODE_OFF :=
  have hc := (C16_toggle_safemode (safe_mode_session "safemode" false)
    (fun m w => ⟨false, by cases m <;> rfl⟩) (fun w => ⟨0, rfl⟩) ⟨alarmed, []⟩).2.2.1
    (Or.inr rfl)
  ⟨hc.1, hc.2, by decide⟩

/-! ## C17 -/

/-- The events of the arm of `ACTION_TIMEOUT` and `ACTION_PAUSE`. -/
theorem pause_arm_tr (e : Ext) (b : Bool) (w : World) :
    (pause_arm e b ⟨w, []⟩).tr =
      .call (.check_safe_mode_allowed b) ::
        (if e.retB (.check_safe_mode_allowed b) w = true then [.call .pause] else []) := by
  cases hb : e.retB (.check_safe_mode_allowed b) w <;> simp [pause_arm, hb, call]

/-- C17, refuted as stated: "an auto-move continuation step taken from the
destination queue is likewise not executed by the dispatcher when the
[safe-mode] check refuses".  With safe mode STOP and a check that refuses,
the step from the queue is dispatched to `plmove` all the same, and
`check_safe_mode_allowed` is not consulted: the directional arms have no such
gate (lines 265-274). -/
theorem C17_auto_move_step_is_dispatched_unchecked :
    ({ alarmed with rest := 3 } : World).safe_mode = .SAFE_MODE_STOP ∧
    (∀ b, blocked_path.retB (.check_safe_mode_allowed b) { alarmed with rest := 3 } = false) ∧
    blocked_path.q .has_destination { alarmed with rest := 3 } = true ∧
    (handle_action blocked_path { alarmed with rest := 3 }).trace =
      [.resolve (.call .get_next_auto_move_direction), .pre_action .ACTION_MOVE_N,
       .handler (.call (.plmove 0 (-1))), .cancel_auto_move,
       .post_action .ACTION_MOVE_N] ∧
    (∀ b, Step.handler (.call (.check_safe_mode_allowed b)) ∉
      (handle_action blocked_path { alarmed with rest := 3 }).trace) := by
  have ht : (handle_action blocked_path { alarmed with rest := 3 }).trace =
      [.resolve (.call .get_next_auto_move_direction), .pre_action .ACTION_MOVE_N,
       .handler (.call (.plmove 0 (-1))), .cancel_auto_move,
       .post_action .ACTION_MOVE_N] := by rfl
  refine ⟨by decide, fun b => rfl, by decide, ht, fun b => ?_⟩
  rw [ht]
  simp

/-- C17, amended: for a living player, `ACTION_TIMEOUT` and `ACTION_PAUSE`
consult the safe-mode check (`check_safe_mode_allowed( false )` and
`check_safe_mode_allowed()`) and invoke `u.pause()` if and only if it allows.
A directional action, from the destination queue or from a key, is handed to
its movement handler without the dispatcher consulting the check; refusing
the step is left to the handler. -/
theorem C17_safe_mode_gate (e : Ext) (w : World) (act0 act : action_id) (veh_ctrl : Bool)
    (mouse_target : tripoint) (s : St)
    (hres : resolve e w = .go act0 veh_ctrl mouse_target s)
    (hpre : e.retA (.pre_action act0) s.w = act)
    (halive : e.q .is_dead_state (e.eff (.pre_action act0) s.w) = false) :
    (act = .ACTION_TIMEOUT →
      handler_events (handle_action e w).trace =
        .call (.check_safe_mode_allowed false) ::
          (if e.retB (.check_safe_mode_allowed false) (e.eff (.pre_action act0) s.w) = true
            then [.call .pause] else []) ∧
      (Step.handler (.call .pause) ∈ (handle_action e w).trace ↔
        e.retB (.check_safe_mode_allowed false) (e.eff (.pre_action act0) s.w) = true)) ∧
    (act = .ACTION_PAUSE →
      handler_events (handle_action e w).trace =
        .call (.check_safe_mode_allowed true) ::
          (if e.retB (.check_safe_mode_allowed true) (e.eff (.pre_action act0) s.w) = true
            then [.call .pause] else []) ∧
      (Step.handler (.call .pause) ∈ (handle_action e w).trace ↔
        e.retB (.check_safe_mode_allowed true) (e.eff (.pre_action act0) s.w) = true)) ∧
    (∀ dx dy, move_delta act = some (dx, dy) →
      (∀ b, Step.handler (.call (.check_safe_mode_allowed b)) ∉ (handle_action e w).trace) ∧
      (handler_events (handle_action e w).trace = [.call (.rcdrive dx dy)] ∨
       handler_events (handle_action e w).trace = [.call (.pldrive dx dy)] ∨
       handler_events (handle_action e w).trace = [.call (.plmove dx dy)])) := by
  have hev : handler_events (handle_action e w).trace =
      (dispatch e act veh_ctrl mouse_target (e.eff (.pre_action act0) s.w)).st.tr := by
    rw [handle_action_go e w hres, run_action_handler_events, hpre]
  have hpause : ∀ b, dispatch e act veh_ctrl mouse_target (e.eff (.pre_action act0) s.w) =
      .next true (pause_arm e b ⟨e.eff (.pre_action act0) s.w, []⟩) →
      handler_events (handle_action e w).trace =
        .call (.check_safe_mode_allowed b) ::
          (if e.retB (.check_safe_mode_allowed b) (e.eff (.pre_action act0) s.w) = true
            then [.call .pause] else []) ∧
      (Step.handler (.call .pause) ∈ (handle_action e w).trace ↔
        e.retB (.check_safe_mode_allowed b) (e.eff (.pre_action act0) s.w) = true) := by
    intro b hd
    have h1 : handler_events (handle_action e w).trace =
        .call (.check_safe_mode_allowed b) ::
          (if e.retB (.check_safe_mode_allowed b) (e.eff (.pre_action act0) s.w) = true
            then [.call .pause] else []) := by
      rw [hev, hd]
      exact pause_arm_tr e b _
    refine ⟨h1, ?_⟩
    rw [← mem_handler_events, h1]
    split_ifs with hb <;> simp [hb]
  refine ⟨fun ha => hpause false ?_, fun ha => hpause true ?_, fun dx dy hm => ?_⟩
  · subst ha
    rw [dispatch_alive e _ veh_ctrl mouse_target _ halive (by decide)]
    rfl
  · subst ha
    rw [dispatch_alive e _ veh_ctrl mouse_target _ halive (by decide)]
    rfl
  · have h1 : handler_events (handle_action e w).trace =
        if remote_control_condition e (e.eff (.pre_action act0) s.w) = true
          then [.call (.rcdrive dx dy)]
        else if veh_ctrl = true then [.call (.pldrive dx dy)]
        else [.call (.plmove dx dy)] := by
      rw [hev, dispatch_move e act veh_ctrl mouse_target _ dx dy hm halive, move_arm_tr]
    refine ⟨fun b hmem => ?_, ?_⟩
    · rw [← mem_handler_events, h1] at hmem
      split_ifs at hmem <;> simp at hmem
    · rw [h1]
      split_ifs <;> simp

/-- C17, the amended statement at a concrete call: the player presses the
pause key while the safe-mode check refuses; the check is consulted and
`u.pause()` is not invoked. -/
theorem C17_safe_mode_gate_witness :
    (keyed "pause").retB (.check_safe_mode_allowed true) { alarmed with user_action_counter := 8 }
      = false ∧
    handler_events (handle_action (keyed "pause") alarmed).trace =
      [.call (.check_safe_mode_allowed true)] :=
  ⟨rfl,
    ((C17_safe_mode_gate (keyed "pause") alarmed .ACTION_PAUSE .ACTION_PAUSE false tripoint_min
      ⟨{ alarmed with user_action_counter := 8 },
        [.call .get_player_input, .call .clear_destination]⟩
      (by rfl) (by rfl) (by decide)).2.1 rfl).1⟩

/-! ## C18 -/

/-- The switches for an action of the allow-list, when the allow-list switch
is entered: its arm runs, and the alive-only switch has nothing to add. -/
theorem dispatch_allowed (e : Ext) (act : action_id) (veh_ctrl : Bool) (mouse_target : tripoint)
    (w : World) (hal : act ∈ deathcam_allowed)
    (hrun : w.uquit = .QUIT_WATCH ∨ e.q .is_dead_state w = false) :
    dispatch e act veh_ctrl mouse_target w =
      .next true
        (deathcam_switch e act (e.MOVE_VIEW_OFFSET w) (wrap_int (0 - e.MOVE_VIEW_OFFSET w))
          ⟨w, []⟩) := by
  simp only [dispatch, hrun, if_true, alive_switch_of_allowed e act veh_ctrl mouse_target _ hal,
    ite_self]

/-- C18: at most one handler arm executes per call.  The actions with an arm
in the allow-list switch have none in the alive-only switch, and for every
other action the allow-list switch does nothing; so for every action and
every state the outcome of the two switches is that of the alive-only switch
alone, or that of the allow-list switch alone, or nothing at all. -/
theorem C18_one_switch_acts (e : Ext) (act : action_id) (veh_ctrl : Bool)
    (mouse_target : tripoint) :
    (act ∈ deathcam_allowed → ∀ s, alive_switch e act veh_ctrl mouse_target s = .next true s) ∧
    (act ∉ deathcam_allowed → ∀ a b s, deathcam_switch e act a b s = s) ∧
    (∀ w,
      dispatch e act veh_ctrl mouse_target w = alive_switch e act veh_ctrl mouse_target ⟨w, []⟩ ∨
      dispatch e act veh_ctrl mouse_target w =
        .next true
          (deathcam_switch e act (e.MOVE_VIEW_OFFSET w) (wrap_int (0 - e.MOVE_VIEW_OFFSET w))
            ⟨w, []⟩) ∨
      dispatch e act veh_ctrl mouse_target w = .next true ⟨w, []⟩) := by
  refine ⟨fun hal s => alive_switch_of_allowed e act veh_ctrl mouse_target s hal,
    fun hal a b s => deathcam_switch_default e act a b s hal, fun w => ?_⟩
  by_cases hal : act ∈ deathcam_allowed
  · by_cases hrun : w.uquit = .QUIT_WATCH ∨ e.q .is_dead_state w = false
    · exact Or.inr (Or.inl (dispatch_allowed e act veh_ctrl mouse_target w hal hrun))
    · refine Or.inr (Or.inr ?_)
      simp only [dispatch, hrun, if_false,
        alive_switch_of_allowed e act veh_ctrl mouse_target _ hal, ite_self]
  · by_cases halive : e.q .is_dead_state w = false
    · exact Or.inl (dispatch_alive e act veh_ctrl mouse_target w halive hal)
    · refine Or.inr (Or.inr ?_)
      simp only [dispatch, deathcam_switch_default e act _ _ _ hal, ite_self, halive, if_false,
        Bool.true_eq_false]

/-! ## C19 -/

/-- C19: when the key pressed maps to no action (`look_up_action` yields
`ACTION_NULL`), the call does not advance the turn: neither the pre-action
hook, nor a handler, nor the post-action hook runs, and the call returns
false; `u.moves` and `u.movecounter` are unchanged, the two collaborators
called (`get_player_input`, `clear_destination`) leaving them alone; and the
"Unknown command" diagnostic is emitted if and only if the sequence of the
raw input event is not empty and the option `NO_UNKNOWN_COMMAND_MSG` is
off. -/
theorem C19_unknown_command (e : Ext) (w : World) (hk : key_pressed e .ACTION_NULL w) :
    (handle_action e w).ret = false ∧
    (∀ a, Step.pre_action a ∉ (handle_action e w).trace) ∧
    (∀ ev, Step.handler ev ∉ (handle_action e w).trace) ∧
    (∀ a, Step.post_action a ∉ (handle_action e w).trace) ∧
    (keeps_moves e .get_player_input → keeps_moves e .clear_destination →
      (handle_action e w).w.moves = w.moves) ∧
    (keeps_movecounter e .get_player_input → keeps_movecounter e .clear_destination →
      (handle_action e w).w.movecounter = w.movecounter) ∧
    (Step.resolve (.msg "Unknown command: \"%s\" (%ld)") ∈ (handle_action e w).trace ↔
      (e.input w).1.raw_sequence ≠ [] ∧
      e.q (.get_option .NO_UNKNOWN_COMMAND_MSG) (after_key e .ACTION_NULL w) = false) := by
  rw [handle_action_key_null e w hk]
  have hu : ∀ st, st ∈ unknown_command_steps e (e.input w).1 (after_key e .ACTION_NULL w) →
      st = .resolve (.msg "Unknown command: \"%s\" (%ld)") := by
    intro st hst
    unfold unknown_command_steps at hst
    split_ifs at hst <;> simp_all
  have hno : ∀ st, (∀ ev, st ≠ Step.resolve ev) →
      st ∉ [Step.resolve (.call .get_player_input), Step.resolve (.call .clear_destination)] ++
        unknown_command_steps e (e.input w).1 (after_key e .ACTION_NULL w) := by
    intro st hst hmem
    simp only [List.mem_append, List.mem_cons, List.mem_singleton, List.not_mem_nil,
      or_false] at hmem
    rcases hmem with (h | h) | h
    · exact hst _ h
    · exact hst _ h
    · exact hst _ (hu _ h)
  refine ⟨rfl, fun a => hno _ (fun ev h => by cases h), fun ev => hno _ (fun ev' h => by cases h),
    fun a => hno _ (fun ev h => by cases h), fun h1 h2 => ?_, fun h1 h2 => ?_, ?_⟩
  · simp only [after_key]
    split_ifs <;> simp [h1 _, h2 _]
  · simp only [after_key]
    split_ifs <;> simp [h1 _, h2 _]
  · simp only [List.mem_append, List.mem_cons, List.mem_singleton, List.not_mem_nil, or_false]
    unfold unknown_command_steps
    split_ifs with hc
    · simp [hc]
    · simp only [List.not_mem_nil, or_false]
      constructor
      · rintro (h | h)
        · injection h with h'
          cases h'
        · injection h with h'
          cases h'
      · intro h
        exact absurd h hc

/-- C19 at a concrete call: a key bound to nothing, with the option off, gets
the diagnostic and nothing else happens. -/
theorem C19_unknown_command_witness :
    key_pressed unbound_key .ACTION_NULL calm ∧
    (handle_action unbound_key calm).ret = false ∧
    (handle_action unbound_key calm).w.moves = 100 ∧
    Step.resolve (.msg "Unknown command: \"%s\" (%ld)") ∈ (handle_action unbound_key calm).trace :=
  have hk : key_pressed unbound_key .ACTION_NULL calm :=
    ⟨by decide, by decide, by decide, by decide⟩
  have hc := C19_unknown_command unbound_key calm hk
  ⟨hk, hc.1, hc.2.2.2.2.1 (fun _ => rfl) (fun _ => rfl),
    hc.2.2.2.2.2.2.2 ⟨by decide, by decide⟩⟩

/-! ## C20 -/

theorem shift_axis_zero (step v : Int) : shift_axis 0 step v = v := by
  simp [shift_axis]

/-- A shift along an axis is exact when the exact sum is an `int`. -/
theorem shift_axis_exact (d step v : Int) (h : int_range (v + d * step)) :
    shift_axis d step v = v + d * step := by
  unfold shift_axis
  split_ifs with hd
  · simp [hd]
  · exact wrap_int_of_range h

/-- Shifts in opposite directions along an axis cancel, overflow or not. -/
theorem shift_axis_cancel (d step v : Int) (h : int_range v) :
    shift_axis (-d) step (shift_axis d step v) = v := by
  unfold shift_axis
  by_cases hd : d = 0
  · simp [hd]
  · have hd2 : ¬(-d = 0) := by omega
    rw [if_neg hd, if_neg hd2, wrap_int_wrap_add]
    have hs : v + d * step + -d * step = v := by ring
    rw [hs, wrap_int_of_range h]

theorem shift_view_exact (dx dy step : Int) (w : World)
    (hx : int_range (w.view_offset_x + dx * step))
    (hy : int_range (w.view_offset_y + dy * step)) :
    shift_view dx dy step w = add_to_view (dx * step) (dy * step) w := by
  simp only [shift_view, add_to_view, shift_axis_exact _ _ _ hx, shift_axis_exact _ _ _ hy]

theorem shift_view_cancel (dx dy step : Int) (w : World)
    (hx : int_range w.view_offset_x) (hy : int_range w.view_offset_y) :
    shift_view (-dx) (-dy) step (shift_view dx dy step w) = w := by
  simp only [shift_view, shift_axis_cancel _ _ _ hx, shift_axis_cancel _ _ _ hy]

theorem shift_view_diagonal (dx dy step : Int) (w : World) :
    shift_view 0 dy step (shift_view dx 0 step w) = shift_view dx dy step w := by
  simp only [shift_view, shift_axis_zero]

/-- C20: for each of the eight compass directions, with the delta `(dx, dy)`
that the directional action passes to its movement handler, the arm of the
view-shift action adds `(dx * s, dy * s)` to `u.view_offset`, `s` being the
option `MOVE_VIEW_OFFSET`, and changes nothing else: the sums are those of
`int` (`shift_view`), so the arm adds exactly `(dx * s, dy * s)` whenever the
exact sums are `int`s.  The arm of `ACTION_CENTER` sets `u.view_offset` to
`driving_view_offset` in `x` and `y`.  Consequently, at one step size, the
arms of opposite directions cancel on every view offset that is a pair of
`int`s, and the arm of a diagonal direction does what the arms of its two
orthogonal directions do one after the other.  Whenever the allow-list
switch is entered (living player, or death camera active) that arm is all
the two switches do. -/
theorem C20_view_shift (e : Ext) (veh_ctrl : Bool) (mouse_target : tripoint) (w : World) :
    (∀ move shift dx dy, (move, shift, dx, dy) ∈ compass →
      move_delta move = some (dx, dy) ∧
      (e.q .is_dead_state w = false →
        dispatch e move veh_ctrl mouse_target w = move_arm e veh_ctrl dx dy ⟨w, []⟩) ∧
      (∀ step s, deathcam_switch e shift step (wrap_int (0 - step)) s =
        ⟨shift_view dx dy step s.w, s.tr⟩) ∧
      (∀ step s, int_range (s.w.view_offset_x + dx * step) →
        int_range (s.w.view_offset_y + dy * step) →
        deathcam_switch e shift step (wrap_int (0 - step)) s =
          ⟨add_to_view (dx * step) (dy * step) s.w, s.tr⟩) ∧
      (w.uquit = .QUIT_WATCH ∨ e.q .is_dead_state w = false →
        dispatch e shift veh_ctrl mouse_target w =
          .next true ⟨shift_view dx dy (e.MOVE_VIEW_OFFSET w) w, []⟩) ∧
      (w.uquit = .QUIT_WATCH ∨ e.q .is_dead_state w = false →
        int_range (w.view_offset_x + dx * e.MOVE_VIEW_OFFSET w) →
        int_range (w.view_offset_y + dy * e.MOVE_VIEW_OFFSET w) →
        dispatch e shift veh_ctrl mouse_target w =
          .next true
            ⟨add_to_view (dx * e.MOVE_VIEW_OFFSET w) (dy * e.MOVE_VIEW_OFFSET w) w, []⟩)) ∧
    (∀ a b s, deathcam_switch e .ACTION_CENTER a b s = ⟨center_view s.w, s.tr⟩) ∧
    (w.uquit = .QUIT_WATCH ∨ e.q .is_dead_state w = false →
      dispatch e .ACTION_CENTER veh_ctrl mouse_target w = .next true ⟨center_view w, []⟩) ∧
    (∀ m1 s1 m2 s2 dx dy, (m1, s1, dx, dy) ∈ compass → (m2, s2, -dx, -dy) ∈ compass →
      ∀ step s, int_range s.w.view_offset_x → int_range s.w.view_offset_y →
        deathcam_switch e s2 step (wrap_int (0 - step))
          (deathcam_switch e s1 step (wrap_int (0 - step)) s) = s) ∧
    (∀ m sh mx shx my shy dx dy, (m, sh, dx, dy) ∈ compass → (mx, shx, dx, 0) ∈ compass →
      (my, shy, 0, dy) ∈ compass →
      ∀ step s, deathcam_switch e sh step (wrap_int (0 - step)) s =
        deathcam_switch e shy step (wrap_int (0 - step))
          (deathcam_switch e shx step (wrap_int (0 - step)) s)) := by
  have hshift_allowed : ∀ p ∈ compass, p.2.1 ∈ deathcam_allowed := by decide
  have hdelta : ∀ p ∈ compass, move_delta p.1 = some (p.2.2.1, p.2.2.2) := by decide
  refine ⟨fun move shift dx dy hc => ⟨hdelta _ hc, fun halive => ?_, fun step s => ?_,
    fun step s hx hy => ?_, fun hrun => ?_, fun hrun hx hy => ?_⟩,
    fun a b s => rfl, fun hrun => ?_, ?_, ?_⟩
  · exact dispatch_move e move veh_ctrl mouse_target w dx dy (hdelta _ hc) halive
  · exact deathcam_switch_shift e move shift dx dy step s hc
  · rw [deathcam_switch_shift e move shift dx dy step s hc, shift_view_exact _ _ _ _ hx hy]
  · rw [dispatch_allowed e shift veh_ctrl mouse_target w (hshift_allowed _ hc) hrun,
      deathcam_switch_shift e move shift dx dy _ _ hc]
  · rw [dispatch_allowed e shift veh_ctrl mouse_target w (hshift_allowed _ hc) hrun,
      deathcam_switch_shift e move shift dx dy _ _ hc, shift_view_exact _ _ _ _ hx hy]
  · rw [dispatch_allowed e _ veh_ctrl mouse_target w (by decide) hrun]
    rfl
  · intro m1 s1 m2 s2 dx dy h1 h2 step s hx hy
    rw [deathcam_switch_shift e m1 s1 dx dy _ _ h1,
      deathcam_switch_shift e m2 s2 (-dx) (-dy) _ _ h2]
    exact congrArg (fun w' => St.mk w' s.tr) (shift_view_cancel dx dy step s.w hx hy)
  · intro m sh mx shx my shy dx dy h hx hy step s
    rw [deathcam_switch_shift e m sh dx dy _ _ h, deathcam_switch_shift e mx shx dx 0 _ _ hx,
      deathcam_switch_shift e my shy 0 dy _ _ hy]
    exact congrArg (fun w' => St.mk w' s.tr) (shift_view_diagonal dx dy step s.w).symm

/-- C20 at a concrete call: the player presses the key that shifts the view
north-east, with a step of 1; the view offset goes from (0, 0) to (1, -1). -/
theorem C20_view_shift_witness :
    (keyed "shift_ne").MOVE_VIEW_OFFSET calm = 1 ∧
    dispatch (keyed "shift_ne") .ACTION_SHIFT_NE false tripoint_min calm =
      .next true ⟨add_to_view (1 * 1) (-1 * 1) calm, []⟩ ∧
    (handle_action (keyed "shift_ne") calm).w.view_offset_x = 1 ∧
    (handle_action (keyed "shift_ne") calm).w.view_offset_y = -1 :=
  ⟨rfl,
    ((C20_view_shift (keyed "shift_ne") false tripoint_min calm).1
      .ACTION_MOVE_NE .ACTION_SHIFT_NE 1 (-1) (by simp [compass])).2.2.2.2.2
      (Or.inr (by decide)) (by decide) (by decide),
    by decide, by decide⟩

/-! ## C21 -/

/-- The world the arm of `ACTION_QUIT` leaves, by the answers to its prompts. -/
theorem quit_arm_w (e : Ext) (w : World) :
    (quit_arm e ⟨w, []⟩).w =
      if quit_confirmed e w = true then
        e.eff .refresh_all
          { e.eff .place_corpse
              { e.eff (.query_yn "REALLY commit suicide?")
                  (e.eff (.query_yn "Commit suicide?") w) with moves := 0 } with
            uquit := .QUIT_SUICIDE }
      else if e.retB (.query_yn "Commit suicide?") w = true then
        e.eff .refresh_all
          (e.eff (.query_yn "REALLY commit suicide?") (e.eff (.query_yn "Commit suicide?") w))
      else e.eff .refresh_all (e.eff (.query_yn "Commit suicide?") w) := by
  cases h1 : e.retB (.query_yn "Commit suicide?") w <;>
    cases h2 : e.retB (.query_yn "REALLY commit suicide?")
      (e.eff (.query_yn "Commit suicide?") w) <;>
    simp [quit_arm, quit_confirmed, call, St.modify, h1, h2]

/-- The world the arm of `ACTION_SAVE` leaves, by the answer to its prompt and
the result of `save()`. -/
theorem save_arm_w (e : Ext) (w : World) :
    (save_arm e ⟨w, []⟩).w =
      if save_confirmed e w = true then
        e.eff .refresh_all
          { e.eff .save (e.eff (.query_yn "Save and quit?") w) with
            moves := 0, uquit := .QUIT_SAVED }
      else if e.retB (.query_yn "Save and quit?") w = true then
        e.eff .refresh_all (e.eff .save (e.eff (.query_yn "Save and quit?") w))
      else e.eff .refresh_all (e.eff (.query_yn "Save and quit?") w) := by
  cases h1 : e.retB (.query_yn "Save and quit?") w <;>
    cases h2 : e.retB .save (e.eff (.query_yn "Save and quit?") w) <;>
    simp [save_arm, save_confirmed, call, St.modify, h1, h2]

/-- The calls the arm of `ACTION_QUIT` makes, by the answers to its prompts. -/
theorem quit_arm_tr (e : Ext) (w : World) :
    (quit_arm e ⟨w, []⟩).tr =
      if quit_confirmed e w = true then
        [.call (.query_yn "Commit suicide?"), .call (.query_yn "REALLY commit suicide?"),
         .call .place_corpse, .call .refresh_all]
      else if e.retB (.query_yn "Commit suicide?") w = true then
        [.call (.query_yn "Commit suicide?"), .call (.query_yn "REALLY commit suicide?"),
         .call .refresh_all]
      else [.call (.query_yn "Commit suicide?"), .call .refresh_all] := by
  cases h1 : e.retB (.query_yn "Commit suicide?") w <;>
    cases h2 : e.retB (.query_yn "REALLY commit suicide?")
      (e.eff (.query_yn "Commit suicide?") w) <;>
    simp [quit_arm, quit_confirmed, call, St.modify, h1, h2]

/-- The calls the arm of `ACTION_SAVE` makes, by the answer to its prompt. -/
theorem save_arm_tr (e : Ext) (w : World) :
    (save_arm e ⟨w, []⟩).tr =
      if e.retB (.query_yn "Save and quit?") w = true then
        [.call (.query_yn "Save and quit?"), .call .save, .call .refresh_all]
      else [.call (.query_yn "Save and quit?"), .call .refresh_all] := by
  cases h1 : e.retB (.query_yn "Save and quit?") w <;>
    cases h2 : e.retB .save (e.eff (.query_yn "Save and quit?") w) <;>
    simp [save_arm, call, St.modify, h1, h2]

/-- C21: for a living player the switches run, for `ACTION_QUIT` and
`ACTION_SAVE`, the arms of lines 882-901 and nothing else.  The collaborators
these arms call (the prompts, `place_corpse`, `save`, `refresh_all`) writing
neither `uquit` nor `u.moves`: the arm of `ACTION_QUIT` calls `place_corpse`
if and only if both prompts are answered yes, and then it leaves `uquit` at
`QUIT_SUICIDE` and `u.moves` at 0; the arm of `ACTION_SAVE` calls `save()` if
and only if its prompt is answered yes, and if `save()` then succeeds it
leaves `uquit` at `QUIT_SAVED` and `u.moves` at 0; in every other case both
arms leave `uquit` and `u.moves` as they found them. -/
theorem C21_session_ending_actions (e : Ext) (hk : keeps_session e) (veh_ctrl : Bool)
    (mouse_target : tripoint) (w : World) :
    (e.q .is_dead_state w = false →
      dispatch e .ACTION_QUIT veh_ctrl mouse_target w = .next true (quit_arm e ⟨w, []⟩) ∧
      dispatch e .ACTION_SAVE veh_ctrl mouse_target w = .next true (save_arm e ⟨w, []⟩)) ∧
    (Event.call .place_corpse ∈ (quit_arm e ⟨w, []⟩).tr ↔ quit_confirmed e w = true) ∧
    (quit_confirmed e w = true →
      (quit_arm e ⟨w, []⟩).w.uquit = .QUIT_SUICIDE ∧ (quit_arm e ⟨w, []⟩).w.moves = 0) ∧
    (quit_confirmed e w = false →
      (quit_arm e ⟨w, []⟩).w.uquit = w.uquit ∧ (quit_arm e ⟨w, []⟩).w.moves = w.moves) ∧
    (Event.call .save ∈ (save_arm e ⟨w, []⟩).tr ↔
      e.retB (.query_yn "Save and quit?") w = true) ∧
    (save_confirmed e w = true →
      (save_arm e ⟨w, []⟩).w.uquit = .QUIT_SAVED ∧ (save_arm e ⟨w, []⟩).w.moves = 0) ∧
    (save_confirmed e w = false →
      (save_arm e ⟨w, []⟩).w.uquit = w.uquit ∧ (save_arm e ⟨w, []⟩).w.moves = w.moves) := by
  have hq1 := hk (.query_yn "Commit suicide?") (by simp [session_calls])
  have hq2 := hk (.query_yn "REALLY commit suicide?") (by simp [session_calls])
  have hpc := hk .place_corpse (by simp [session_calls])
  have hq3 := hk (.query_yn "Save and quit?") (by simp [session_calls])
  have hsv := hk .save (by simp [session_calls])
  have hrf := hk .refresh_all (by simp [session_calls])
  refine ⟨fun halive => ⟨?_, ?_⟩, ?_, fun hc => ?_, fun hc => ?_, ?_, fun hc => ?_,
    fun hc => ?_⟩
  · rw [dispatch_alive e _ veh_ctrl mouse_target w halive (by decide)]
    rfl
  · rw [dispatch_alive e _ veh_ctrl mouse_target w halive (by decide)]
    rfl
  · rw [quit_arm_tr]
    by_cases hc : quit_confirmed e w = true
    · simp [hc]
    · by_cases h1 : e.retB (.query_yn "Commit suicide?") w = true <;> simp [hc, h1]
  · rw [quit_arm_w, if_pos hc]
    exact ⟨by rw [(hrf _).1], by rw [(hrf _).2, (hpc _).2]⟩
  · rw [quit_arm_w]
    simp only [hc, Bool.false_eq_true, if_false]
    by_cases h1 : e.retB (.query_yn "Commit suicide?") w = true
    · simp only [h1, if_true]
      exact ⟨by rw [(hrf _).1, (hq2 _).1, (hq1 _).1], by rw [(hrf _).2, (hq2 _).2, (hq1 _).2]⟩
    · simp only [h1, Bool.false_eq_true, if_false]
      exact ⟨by rw [(hrf _).1, (hq1 _).1], by rw [(hrf _).2, (hq1 _).2]⟩
  · rw [save_arm_tr]
    by_cases h1 : e.retB (.query_yn "Save and quit?") w = true <;> simp [h1]
  · rw [save_arm_w, if_pos hc]
    exact ⟨by rw [(hrf _).1], by rw [(hrf _).2]⟩
  · rw [save_arm_w]
    simp only [hc, Bool.false_eq_true, if_false]
    by_cases h1 : e.retB (.query_yn "Save and quit?") w = true
    · simp only [h1, if_true]
      exact ⟨by rw [(hrf _).1, (hsv _).1, (hq3 _).1], by rw [(hrf _).2, (hsv _).2, (hq3 _).2]⟩
    · simp only [h1, Bool.false_eq_true, if_false]
      exact ⟨by rw [(hrf _).1, (hq3 _).1], by rw [(hrf _).2, (hq3 _).2]⟩

/-- C21 at concrete calls: a living player with 100 moves presses the key of
`ACTION_QUIT` and answers yes twice, or yes and then no; then the same with
the key of `ACTION_SAVE`, saving succeeding in the first session and failing
in the second. -/
theorem C21_session_ending_actions_witness :
    keeps_session (resolute "quit") ∧ keeps_session (wavering "save") ∧
    quit_confirmed (resolute "quit") calm = true ∧
    ((quit_arm (resolute "quit") ⟨calm, []⟩).w.uquit = .QUIT_SUICIDE ∧
      (quit_arm (resolute "quit") ⟨calm, []⟩).w.moves = 0) ∧
    (handle_action (resolute "quit") calm).trace =
      [.resolve (.call .get_player_input), .resolve (.call .clear_destination),
       .pre_action .ACTION_QUIT,
       .handler (.call (.query_yn "Commit suicide?")),
       .handler (.call (.query_yn "REALLY commit suicide?")),
       .handler (.call .place_corpse), .handler (.call .refresh_all),
       .post_action .ACTION_QUIT] ∧
    (handle_action (resolute "quit") calm).w.uquit = .QUIT_SUICIDE ∧
    (handle_action (resolute "quit") calm).w.moves = 0 ∧
    (handle_action (wavering "quit") calm).trace =
      [.resolve (.call .get_player_input), .resolve (.call .clear_destination),
       .pre_action .ACTION_QUIT,
       .handler (.call (.query_yn "Commit suicide?")),
       .handler (.call (.query_yn "REALLY commit suicide?")),
       .handler (.call .refresh_all), .post_action .ACTION_QUIT] ∧
    (handle_action (wavering "quit") calm).w.uquit = .QUIT_NO ∧
    (handle_action (wavering "quit") calm).w.moves = 100 ∧
    (handle_action (resolute "save") calm).w.uquit = .QUIT_SAVED ∧
    (handle_action (resolute "save") calm).w.moves = 0 ∧
    save_confirmed (wavering "save") calm = false ∧
    ((save_arm (wavering "save") ⟨calm, []⟩).w.uquit = calm.uquit ∧
      (save_arm (wavering "save") ⟨calm, []⟩).w.moves = calm.moves) ∧
    (handle_action (wavering "save") calm).trace =
      [.resolve (.call .get_player_input), .resolve (.call .clear_destination),
       .pre_action .ACTION_SAVE,
       .handler (.call (.query_yn "Save and quit?")), .handler (.call .save),
       .handler (.call .refresh_all), .post_action .ACTION_SAVE] ∧
    (handle_action (wavering "save") calm).w.uquit = .QUIT_NO ∧
    (handle_action (wavering "save") calm).w.moves = 100 :=
  have h1 : keeps_session (resolute "quit") := by
    intro c hc w
    simp only [session_calls, List.mem_cons, List.mem_singleton, List.not_mem_nil,
      or_false] at hc
    rcases hc with rfl | rfl | rfl | rfl | rfl | rfl <;> exact ⟨rfl, rfl⟩
  have h2 : keeps_session (wavering "save") := by
    intro c hc w
    simp only [session_calls, List.mem_cons, List.mem_singleton, List.not_mem_nil,
      or_false] at hc
    rcases hc with rfl | rfl | rfl | rfl | rfl | rfl <;> exact ⟨rfl, rfl⟩
  ⟨h1, h2, by rfl,
    (C21_session_ending_actions (resolute "quit") h1 false tripoint_min calm).2.2.1 (by rfl),
    by rfl, by decide, by decide, by rfl, by decide, by decide, by decide, by decide, by rfl,
    (C21_session_ending_actions (wavering "save") h2 false tripoint_min calm).2.2.2.2.2.2
      (by rfl),
    by rfl, by decide, by decide⟩

end HandleAction
